import Mathlib

set_option maxRecDepth 10000

/-!
Verification development for the nuage-kubernetes network-policy controller.

The first part is a shallow embedding of the IPv4 subnet pool
(nuagekubemon/client/ipv4subnet.go): addresses, subnets, Compare, Split,
and the buddy-style pool with Free and Alloc.  Go uint8 arithmetic is
modelled on Nat with explicit masking / mod 256 where overflow matters;
Go int is modelled as Int (with Go truncated division written Int.tdiv and
Go remainder written Int.tmod); a Go runtime panic caused by an
out-of-bounds array access is modelled as the distinguished outcome
GoError.oobAccess.
-/

/-- Four octets of an IPv4 address (Go type IPv4Address = [4]uint8).
Octets are Nats; in well-formed values each octet is below 256. -/
structure IPv4Address where
  o0 : Nat
  o1 : Nat
  o2 : Nat
  o3 : Nat
deriving DecidableEq, Repr

/-- Go array read addr[i]: in-bounds reads yield the octet, any other
index is a runtime panic, modelled by none. -/
def IPv4Address.get? (a : IPv4Address) (i : Int) : Option Nat :=
  if i = 0 then some a.o0
  else if i = 1 then some a.o1
  else if i = 2 then some a.o2
  else if i = 3 then some a.o3
  else none

/-- Go array write addr[i] = f addr[i]; out-of-bounds is a panic (none). -/
def IPv4Address.modify? (a : IPv4Address) (i : Int) (f : Nat → Nat) : Option IPv4Address :=
  if i = 0 then some { a with o0 := f a.o0 }
  else if i = 1 then some { a with o1 := f a.o1 }
  else if i = 2 then some { a with o2 := f a.o2 }
  else if i = 3 then some { a with o3 := f a.o3 }
  else none

/-- All four octets fit in a byte (the invariant Go enforces by typing). -/
def IPv4Address.Bounded (a : IPv4Address) : Prop :=
  a.o0 < 256 ∧ a.o1 < 256 ∧ a.o2 < 256 ∧ a.o3 < 256

instance (a : IPv4Address) : Decidable a.Bounded := by
  unfold IPv4Address.Bounded; infer_instance

/-- Go struct IPv4Subnet: an address plus a CIDR mask length (e.g. 24,
not 255.255.255.0).  The mask is a Go int, hence Int here. -/
structure IPv4Subnet where
  Address : IPv4Address
  CIDRMask : Int
deriving DecidableEq, Repr

/-- Outcomes of the pool operations.  The constructors correspond to the
errors.New sites in ipv4subnet.go, plus oobAccess for a Go runtime panic
(out-of-bounds array index). -/
inductive GoError where
  | oobAccess
  | invalidAllocSize
  | cannotSplitSlash32
  | badFreeSubnet (s : IPv4Subnet)
  | doubleFree (s : IPv4Subnet)
deriving DecidableEq, Repr

instance {ε α : Type} [DecidableEq ε] [DecidableEq α] : DecidableEq (Except ε α) := fun x y =>
  match x, y with
  | .ok a, .ok b =>
    if h : a = b then .isTrue (h ▸ rfl) else .isFalse (fun hh => h (Except.ok.inj hh))
  | .error a, .error b =>
    if h : a = b then .isTrue (h ▸ rfl) else .isFalse (fun hh => h (Except.error.inj hh))
  | .ok _, .error _ => .isFalse (fun hh => Except.noConfusion hh)
  | .error _, .ok _ => .isFalse (fun hh => Except.noConfusion hh)

/-- Byte mask used by Compare: Go uint8((256 - uint(1 << uint(8 - m%8))) % 256).
The shift and subtraction happen in Go uint (64-bit), then reduce mod 256. -/
def byteMask (m : Int) : Nat :=
  ((((256 : Int) - 2 ^ (8 - Int.tmod m 8).toNat) % 256)).toNat

/-- Embedding of (a \*IPv4Subnet) Compare(b \*IPv4Subnet) int.
If the masks differ the result is b.CIDRMask - a.CIDRMask.  Otherwise the
single octet at index CIDRMask / 8 is read from both addresses (a runtime
panic - none - if that index exceeds 3), masked with byteMask, and the two
masked bytes are subtracted in uint8 arithmetic (wrapping mod 256) before
the cast to int. -/
def IPv4Subnet.Compare (a b : IPv4Subnet) : Option Int :=
  let n := b.CIDRMask - a.CIDRMask
  if n ≠ 0 then some n
  else
    let index := Int.tdiv a.CIDRMask 8
    let mask := byteMask a.CIDRMask
    match a.Address.get? index, b.Address.get? index with
    | some x, some y => some ((((x &&& mask) + 256 - (y &&& mask)) % 256 : Nat) : Int)
    | _, _ => none

/-- One step of the byte-masking loop in Split: a byte is kept whole while
at least 8 mask bits remain, partially masked when 1-7 remain, zeroed
otherwise. -/
def splitMaskByte (b : Nat) (rem : Int) : Nat :=
  if rem ≥ 8 then b
  else if rem > 0 then b &&& ((((256 : Int) - 2 ^ (8 - rem).toNat) % 256)).toNat
  else 0

/-- Remaining mask bits for the next byte of the Split loop. -/
def splitNextRem (rem : Int) : Int :=
  if rem ≥ 8 then rem - 8
  else if rem > 0 then 0
  else rem

/-- Embedding of (subnet \*IPv4Subnet) Split(): refuses a /32, masks the
address down to the prefix, then clears (low half) or sets (high half) the
bit at position CIDRMask, producing two subnets with mask CIDRMask + 1. -/
def IPv4Subnet.Split (s : IPv4Subnet) : Except GoError (IPv4Subnet × IPv4Subnet) :=
  if s.CIDRMask ≥ 32 then .error .cannotSplitSlash32
  else
    let r0 := s.CIDRMask
    let r1 := splitNextRem r0
    let r2 := splitNextRem r1
    let r3 := splitNextRem r2
    let base : IPv4Address :=
      ⟨splitMaskByte s.Address.o0 r0, splitMaskByte s.Address.o1 r1,
       splitMaskByte s.Address.o2 r2, splitMaskByte s.Address.o3 r3⟩
    let index := Int.tdiv s.CIDRMask 8
    let offset := Int.tmod s.CIDRMask 8
    let bit : Nat := if offset < 0 then 0 else 128 >>> offset.toNat
    match base.modify? index (fun x => x &&& (255 ^^^ bit)),
          base.modify? index (fun x => x ||| bit) with
    | some loAddr, some hiAddr =>
        .ok (⟨loAddr, s.CIDRMask + 1⟩, ⟨hiAddr, s.CIDRMask + 1⟩)
    | _, _ => .error .oobAccess

/-- The pool (Go type IPv4SubnetPool = [33]\*IPv4SubnetNode): 33 buckets of
linked lists, bucket i holding the free subnets of mask length i. -/
abbrev IPv4SubnetPool := List (List IPv4Subnet)

/-- A zero-valued pool: every bucket empty (all addresses allocated). -/
def emptyPool : IPv4SubnetPool := List.replicate 33 []

/-- The walk of Free over the tail of a bucket (Go: prev/curr loop):
a compare of 0 is a double-free error, a negative compare inserts before
the current node, the end of the list appends. -/
def IPv4SubnetPool.freeLoop (s : IPv4Subnet) : List IPv4Subnet → Except GoError (List IPv4Subnet)
  | [] => .ok [s]
  | c :: rest =>
    match s.Compare c with
    | none => .error .oobAccess
    | some n =>
      if n = 0 then .error (.doubleFree s)
      else if n < 0 then .ok (s :: c :: rest)
      else (IPv4SubnetPool.freeLoop s rest).map (fun t => c :: t)

/-- Embedding of (pool \*IPv4SubnetPool) Free(subnet): reject an
out-of-range mask; insert in front when the bucket is empty or the subnet
compares below the head (note: equality with the head is NOT checked
here); otherwise walk the tail with freeLoop. -/
def IPv4SubnetPool.Free (pool : IPv4SubnetPool) (s : IPv4Subnet) : Except GoError IPv4SubnetPool :=
  if s.CIDRMask < 0 ∨ s.CIDRMask > 32 then .error (.badFreeSubnet s)
  else
    let idx := s.CIDRMask.toNat
    match pool.getD idx [] with
    | [] => .ok (pool.set idx [s])
    | c :: rest =>
      match s.Compare c with
      | none => .error .oobAccess
      | some n =>
        if n < 0 then .ok (pool.set idx (s :: c :: rest))
        else (IPv4SubnetPool.freeLoop s rest).map (fun t => pool.set idx (c :: t))

/-- Embedding of (pool \*IPv4SubnetPool) Alloc(size): pop the bucket when
possible, otherwise allocate a size-1 block, split it, free the high half
back and hand out the low half.  The Go receiver is mutated even on some
error paths, so the final pool is returned alongside the result; the
ignored error of the restoring pool.Free(bigSubnet) call leaves the pool
as it was, matching Go (Free mutates nothing when it fails). -/
def IPv4SubnetPool.allocAux : Nat → IPv4SubnetPool → Except GoError IPv4Subnet × IPv4SubnetPool
  | n, pool =>
    match pool.getD n [] with
    | node :: rest => (.ok node, pool.set n rest)
    | [] =>
      match n with
      | 0 => (.error .invalidAllocSize, pool)
      | Nat.succ m =>
        match IPv4SubnetPool.allocAux m pool with
        | (.error e, p1) => (.error e, p1)
        | (.ok big, p1) =>
          match big.Split with
          | .error e =>
            (.error e, match p1.Free big with | .ok p => p | .error _ => p1)
          | .ok (lo, hi) =>
            match p1.Free hi with
            | .error e2 =>
              (.error e2, match p1.Free big with | .ok p => p | .error _ => p1)
            | .ok p2 => (.ok lo, p2)

/-- Embedding of (pool \*IPv4SubnetPool) Alloc(size).  Go recurses on
size - 1; the guard keeps size in [0, 32], so the recursion is structural
on the Nat value of size (allocAux), and the recursive call with size - 1
from size = 0 is exactly the out-of-range failure of Alloc(-1), i.e. the
allocAux base case. -/
def IPv4SubnetPool.Alloc (pool : IPv4SubnetPool) (size : Int) :
    Except GoError IPv4Subnet × IPv4SubnetPool :=
  if size < 0 ∨ size > 32 then (.error .invalidAllocSize, pool)
  else IPv4SubnetPool.allocAux size.toNat pool

/-- Numeric (32-bit) value of an address. -/
def IPv4Address.toNat (a : IPv4Address) : Nat :=
  a.o0 * 2 ^ 24 + a.o1 * 2 ^ 16 + a.o2 * 2 ^ 8 + a.o3

/-- Does subnet s cover the 32-bit address a: the two values agree on the
top CIDRMask bits. -/
def IPv4Subnet.covers (s : IPv4Subnet) (a : Nat) : Bool :=
  a / 2 ^ (32 - s.CIDRMask.toNat) == s.Address.toNat / 2 ^ (32 - s.CIDRMask.toNat)

/-- Coverage count of one subnet at one address (0 or 1). -/
def covN (s : IPv4Subnet) (a : Nat) : Nat := if s.covers a then 1 else 0

/-- Coverage count of a bucket at one address. -/
def bucketCov (l : List IPv4Subnet) (a : Nat) : Nat := (l.map (fun s => covN s a)).sum

/-- Coverage count of the whole pool at one address: how many pool entries
cover the address a. -/
def IPv4SubnetPool.cov (p : IPv4SubnetPool) (a : Nat) : Nat :=
  (p.map (fun l => bucketCov l a)).sum

/-- A recorded client call against the pool: Alloc of a given size or Free
of a given subnet. -/
inductive PoolOp where
  | opAlloc (size : Int)
  | opFree (s : IPv4Subnet)
deriving DecidableEq, Repr

/-- Run a list of pool operations.  The run aborts (none) as soon as one
operation fails; otherwise it returns the final pool, the list of subnets
returned by the Allocs and the list of subnets passed to the Frees. -/
def execOps : IPv4SubnetPool → List PoolOp → Option (IPv4SubnetPool × List IPv4Subnet × List IPv4Subnet)
  | p, [] => some (p, [], [])
  | p, PoolOp.opAlloc k :: rest =>
    match IPv4SubnetPool.Alloc p k with
    | (.ok s, p1) => (execOps p1 rest).map (fun r => (r.1, s :: r.2.1, r.2.2))
    | (.error _, _) => none
  | p, PoolOp.opFree s :: rest =>
    match IPv4SubnetPool.Free p s with
    | .ok p1 => (execOps p1 rest).map (fun r => (r.1, r.2.1, s :: r.2.2))
    | .error _ => none

/-- Repeatedly Alloc the same size, collecting the returned subnets. -/
def allocRun (p : IPv4SubnetPool) (size : Int) : Nat → Except GoError (List IPv4Subnet × IPv4SubnetPool)
  | 0 => .ok ([], p)
  | Nat.succ k =>
    match IPv4SubnetPool.Alloc p size with
    | (.ok s, p1) => (allocRun p1 size k).map (fun r => (s :: r.1, r.2))
    | (.error e, _) => .error e

/-- Free a subnet into a pool and immediately Alloc a /24 from the result. -/
def freeThenAlloc (p : IPv4SubnetPool) (s : IPv4Subnet) : Except GoError IPv4Subnet :=
  match IPv4SubnetPool.Free p s with
  | .error e => .error e
  | .ok p1 => (IPv4SubnetPool.Alloc p1 24).1

/-- The address of a subnet masked down to its prefix, with ALL prefix
bytes considered.  This is the comparison key the specification describes
for Compare ("then by the masked address bytes"); it is a spec-side
definition used to exhibit where the code diverges from it. -/
def specMaskedPrefix (s : IPv4Subnet) : Nat :=
  s.Address.toNat / 2 ^ (32 - s.CIDRMask.toNat) * 2 ^ (32 - s.CIDRMask.toNat)

/-- The /16 block used by the concrete pool scenarios. -/
def block16 : IPv4Subnet := ⟨⟨10, 0, 0, 0⟩, 16⟩

/-- The pool obtained by freeing block16 into an all-empty pool. -/
def pool16 : IPv4SubnetPool := List.set emptyPool 16 [block16]

/-- The 256 /24 subnets of block16, in the order Alloc hands them out. -/
def c5List : List IPv4Subnet := (List.range 256).map (fun i => ⟨⟨10, 0, i, 0⟩, 24⟩)

/-- Well-formedness of a pool value: it has the 33 buckets of the Go
array, and every subnet sits in the bucket of its own mask length with
byte-sized octets.  Free establishes this (it inserts into the bucket
indexed by the subnet's mask) and Alloc preserves it. -/
def PoolWf (p : IPv4SubnetPool) : Prop :=
  p.length = 33 ∧ ∀ i : Nat, ∀ s ∈ p.getD i [], s.Address.Bounded ∧ s.CIDRMask = (i : Int)



/-!
Embedding of the reconciler and the SDN client (nuagevsdclient.go, as
embedded in scripts/build-nuage-infra-docker-image.sh).  The SDN REST API
is an external collaborator; its behaviour is modelled from the wire
contract of the specification (section 6): POST answers 201 with a fresh
id or 409 when an object with the same natural key already exists, a
filtered list GET returns the matching record or a zero-valued element,
DELETE answers 204 when the id exists.  Client functions are translated
from the source; CreateAclEntry and GetAclEntry are not under src/ and
are modelled from the spec (see their doc comments).  Errors are modelled
as Except String with the source's message (or a short stand-in).
-/

/-- Payload of an ACL entry (api.VsdAclEntry). -/
structure VsdAclEntry where
  action : String
  description : String
  entityScope : String
  etherType : String
  locationID : String
  locationType : String
  networkID : String
  networkType : String
  policyState : String
  priority : Int
  protocol : String
  reflexive : Bool
deriving DecidableEq, Repr

/-- Payload of a network macro (api.VsdNetworkMacro): the natural-key
tuple (name, ipType, address, netmask). -/
structure VsdNetworkMacro where
  name : String
  ipType : String
  address : String
  netmask : String
deriving DecidableEq, Repr

/-- An ACL entry record on the SDN: id, owning template, direction
(ingress true / egress false) and payload. -/
structure AclEntryRec where
  id : String
  templateID : String
  ingress : Bool
  entry : VsdAclEntry
deriving DecidableEq, Repr

/-- A zone record on the SDN (within the single managed domain). -/
structure ZoneRec where
  id : String
  name : String
deriving DecidableEq, Repr

/-- A subnet record on the SDN (the payload fields CreateSubnet sends). -/
structure SubnetRec where
  id : String
  zoneID : String
  name : String
  address : String
  netmask : String
deriving DecidableEq, Repr

/-- A network macro group record on the SDN (within the enterprise). -/
structure MacroGroupRec where
  id : String
  name : String
deriving DecidableEq, Repr

/-- A network macro record on the SDN. -/
structure MacroRec where
  id : String
  payload : VsdNetworkMacro
deriving DecidableEq, Repr

/-- An ACL template record on the SDN (within the single domain). -/
structure AclTemplateRec where
  id : String
  ingress : Bool
  name : String
deriving DecidableEq, Repr

/-- The SDN-side state: an id counter plus the stored records.
groupMembers lists (macro group id, macro id) membership pairs. -/
structure SdnState where
  counter : Nat
  zones : List ZoneRec
  subnets : List SubnetRec
  aclTemplates : List AclTemplateRec
  aclEntries : List AclEntryRec
  macroGroups : List MacroGroupRec
  macros : List MacroRec
  groupMembers : List (String × String)
deriving DecidableEq, Repr

/-- Fresh SDN identifier (the SDN allocates ids; modelled as a counter). -/
def SdnState.freshID (s : SdnState) : String × SdnState :=
  ("id" ++ toString s.counter, { s with counter := s.counter + 1 })

/-- Go struct NamespaceData. -/
structure NamespaceData where
  zoneID : String
  networkMacroGroupID : String
  networkMacros : List (String × String)
deriving DecidableEq, Repr

/-- The mutable fields of NuageVsdClient that the reconciler uses. -/
structure ClientState where
  enterpriseID : String
  domainID : String
  ingressAclTemplateID : String
  egressAclTemplateID : String
  zones : List (String × String)
  subnets : List (String × List (String × IPv4Subnet))
  namespaces : List (String × NamespaceData)
  pool : IPv4SubnetPool
  subnetSize : Int
  nextAvailablePriority : Int
deriving DecidableEq, Repr

/-- The whole modelled system: SDN plus client. -/
structure World where
  sdn : SdnState
  cli : ClientState
deriving DecidableEq, Repr

/-- Go map assignment m[k] = v on a string-keyed map. -/
def upsert {α : Type} (k : String) (v : α) : List (String × α) → List (String × α)
  | [] => [(k, v)]
  | (k2, v2) :: rest => if k2 == k then (k, v) :: rest else (k2, v2) :: upsert k v rest

/-- Go map deletion delete(m, k). -/
def eraseKey {α : Type} (k : String) (l : List (String × α)) : List (String × α) :=
  l.filter (fun kv => !(kv.1 == k))

/-- Equality of the ACL-entry natural key: every payload field except the
priority.  Modelled from the spec: ACL entries are located for deletion by
their payload with no priority set (DeleteSpecificZoneAcls), and section
4.2 with the first open question of section 9 mandate create-or-get
(natural key) semantics for entry creation. -/
def aclKeyEq (x y : VsdAclEntry) : Bool :=
  x.networkType == y.networkType && x.action == y.action &&
  x.locationType == y.locationType && x.locationID == y.locationID &&
  x.networkID == y.networkID && x.description == y.description &&
  x.etherType == y.etherType && x.entityScope == y.entityScope &&
  x.policyState == y.policyState && x.protocol == y.protocol &&
  x.reflexive == y.reflexive

/-- Natural-key equality of network macros: the full tuple. -/
def macroTupleEq (x y : VsdNetworkMacro) : Bool :=
  x.name == y.name && x.ipType == y.ipType &&
  x.address == y.address && x.netmask == y.netmask

/-- Embedding of (subnet IPv4Subnet) Netmask(): the traditional netmask
of the CIDR length (e.g. /24 gives 255.255.255.0). -/
def IPv4Subnet.Netmask (subnet : IPv4Subnet) : IPv4Address :=
  if subnet.CIDRMask ≥ 32 then ⟨255, 255, 255, 255⟩
  else
    let fullmask : Nat := 2 ^ 32 - 2 ^ (32 - subnet.CIDRMask.toNat)
    ⟨fullmask / 2 ^ 24 % 256, fullmask / 2 ^ 16 % 256, fullmask / 256 % 256, fullmask % 256⟩

/-- Embedding of IPv4Address.String(): dotted-quad text. -/
def IPv4Address.str (a : IPv4Address) : String :=
  toString a.o0 ++ "." ++ toString a.o1 ++ "." ++ toString a.o2 ++ "." ++ toString a.o3

/-- Embedding of GetZoneID: filtered GET of the domain's zones by name;
an empty result is the "Zone not found" error.  (The found record
matches the filter by construction, so the source's third arm - a
mismatching name - cannot fire against this SDN model.) -/
def getZoneID (_domainID name : String) (w : World) : Except String String × World :=
  match w.sdn.zones.find? (fun z => z.name == name) with
  | some z => (.ok z.id, w)
  | none => (.error "Zone not found", w)

/-- Embedding of CreateZone: POST, on 409 (a zone of that name exists)
fall back to GetZoneID. -/
def createZone (domainID name : String) (w : World) : Except String String × World :=
  if (w.sdn.zones.find? (fun z => z.name == name)).isSome then
    getZoneID domainID name w
  else
    let (id, sdn) := w.sdn.freshID
    (.ok id, { w with sdn := { sdn with zones := sdn.zones ++ [⟨id, name⟩] } })

/-- Embedding of DeleteZone: DELETE by id, 204 on success. -/
def deleteZone (id : String) (w : World) : Except String Unit × World :=
  if (w.sdn.zones.find? (fun z => z.id == id)).isSome then
    (.ok (), { w with sdn := { w.sdn with zones := w.sdn.zones.filter (fun z => !(z.id == id)) } })
  else
    (.error "Unexpected error code: 404", w)

/-- Embedding of GetSubnetID: filtered GET of the zone's subnets by
address. -/
def getSubnetID (zoneID : String) (subnet : IPv4Subnet) (w : World) :
    Except String String × World :=
  match w.sdn.subnets.find?
      (fun r => r.zoneID == zoneID && r.address == subnet.Address.str) with
  | some r => (.ok r.id, w)
  | none => (.error "Unexpected error code: 404", w)

/-- Embedding of CreateSubnet: POST the payload; on 409 (a subnet with
that address exists in the zone) fall back to GetSubnetID. -/
def createSubnet (name zoneID : String) (subnet : IPv4Subnet) (w : World) :
    Except String String × World :=
  if (w.sdn.subnets.find?
      (fun r => r.zoneID == zoneID && r.address == subnet.Address.str)).isSome then
    getSubnetID zoneID subnet w
  else
    let (id, sdn) := w.sdn.freshID
    (.ok id, { w with sdn := { sdn with subnets :=
      sdn.subnets ++ [⟨id, zoneID, name, subnet.Address.str, subnet.Netmask.str⟩] } })

/-- Embedding of DeleteSubnet. -/
def deleteSubnet (id : String) (w : World) : Except String Unit × World :=
  if (w.sdn.subnets.find? (fun r => r.id == id)).isSome then
    (.ok (), { w with sdn := { w.sdn with subnets := w.sdn.subnets.filter (fun r => !(r.id == id)) } })
  else
    (.error "Unexpected error code: 404", w)

/-- Embedding of GetNetworkMacroGroupID: filtered GET by group name. -/
def getNetworkMacroGroupID (_enterpriseID nmgName : String) (w : World) :
    Except String String × World :=
  match w.sdn.macroGroups.find? (fun g => g.name == nmgName) with
  | some g => (.ok g.id, w)
  | none => (.error "Network Macro Group not found", w)

/-- Embedding of CreateNetworkMacroGroup: the group is named
"Service Group For Zone - <zoneName>"; on 409 fall back to the GET. -/
def createNetworkMacroGroup (enterpriseID zoneName : String) (w : World) :
    Except String String × World :=
  let nmgName := "Service Group For Zone - " ++ zoneName
  if (w.sdn.macroGroups.find? (fun g => g.name == nmgName)).isSome then
    getNetworkMacroGroupID enterpriseID nmgName w
  else
    let (id, sdn) := w.sdn.freshID
    (.ok id, { w with sdn := { sdn with macroGroups := sdn.macroGroups ++ [⟨id, nmgName⟩] } })

/-- Embedding of DeleteNetworkMacroGroup. -/
def deleteNetworkMacroGroup (id : String) (w : World) : Except String Unit × World :=
  if (w.sdn.macroGroups.find? (fun g => g.id == id)).isSome then
    let gs := w.sdn.macroGroups.filter (fun g => !(g.id == id))
    (.ok (), { w with sdn := { w.sdn with macroGroups := gs } })
  else
    (.error "Unexpected error code: 404", w)

/-- The result check of GetNetworkMacroID on a 200 response, translated
from the source: the returned record is accepted when its NAME equals the
requested one (the other three fields of the natural-key tuple are never
compared); an empty name means no result (NotFound); a different name is
the mismatch error. -/
def checkNetworkMacroResult (networkMacro result0 : VsdNetworkMacro) (resultID : String) :
    Except String String :=
  if result0.name == networkMacro.name then .ok resultID
  else if result0.name == "" then .error "Network Macro not found"
  else .error "Found a different network macro"

/-- Embedding of GetNetworkMacroID: filtered GET by the full tuple, then
the name-only result check above. -/
def getNetworkMacroID (_enterpriseID : String) (networkMacro : VsdNetworkMacro) (w : World) :
    Except String String × World :=
  match w.sdn.macros.find? (fun r => macroTupleEq r.payload networkMacro) with
  | some r => (checkNetworkMacroResult networkMacro r.payload r.id, w)
  | none => (checkNetworkMacroResult networkMacro ⟨"", "", "", ""⟩ "", w)

/-- Embedding of CreateNetworkMacro: POST; on 409 (a macro with the same
tuple exists in the enterprise) fall back to GetNetworkMacroID. -/
def createNetworkMacro (enterpriseID : String) (networkMacro : VsdNetworkMacro) (w : World) :
    Except String String × World :=
  if (w.sdn.macros.find? (fun r => macroTupleEq r.payload networkMacro)).isSome then
    getNetworkMacroID enterpriseID networkMacro w
  else
    let (id, sdn) := w.sdn.freshID
    (.ok id, { w with sdn := { sdn with macros := sdn.macros ++ [⟨id, networkMacro⟩] } })

/-- Embedding of DeleteNetworkMacro. -/
def deleteNetworkMacro (id : String) (w : World) : Except String Unit × World :=
  if (w.sdn.macros.find? (fun r => r.id == id)).isSome then
    (.ok (), { w with sdn := { w.sdn with macros := w.sdn.macros.filter (fun r => !(r.id == id)) } })
  else
    (.error "Unexpected error code: 404", w)

/-- The PUT of a macro id into a group's member list (service handling):
204 adds it, 409 (already a member) is treated as success. -/
def addMacroToGroup (nmgID macroID : String) (w : World) : Except String Unit × World :=
  if (nmgID, macroID) ∈ w.sdn.groupMembers then (.ok (), w)
  else (.ok (), { w with sdn := { w.sdn with groupMembers := w.sdn.groupMembers ++ [(nmgID, macroID)] } })

/-- Modelled from the spec: CreateAclEntry is code of this repository that
is not included under src/ (only its callers are).  Per section 4.2 every
create operation follows create-or-get, and the first open question of
section 9 mandates create-or-get on ACL entries; the natural key is the
(template id, direction, payload-without-priority) triple, matching how
DeleteSpecificZoneAcls locates entries.  A create of an entry whose key
already exists under the template and direction returns the existing id
and changes nothing. -/
def createAclEntry (aclTemplateID : String) (ingress : Bool) (aclEntry : VsdAclEntry)
    (w : World) : Except String String × World :=
  match w.sdn.aclEntries.find? (fun r =>
      r.templateID == aclTemplateID && r.ingress == ingress && aclKeyEq r.entry aclEntry) with
  | some r => (.ok r.id, w)
  | none =>
    let (id, sdn) := w.sdn.freshID
    (.ok id, { w with sdn := { sdn with aclEntries :=
      sdn.aclEntries ++ [⟨id, aclTemplateID, ingress, aclEntry⟩] } })

/-- Modelled from the spec: GetAclEntry is code of this repository that is
not included under src/.  It locates the unique entry of the template and
direction whose payload (without priority) equals the given one, returning
none when there is no such entry. -/
def getAclEntry (aclTemplateID : String) (ingress : Bool) (aclEntry : VsdAclEntry)
    (w : World) : Except String (Option AclEntryRec) × World :=
  (.ok (w.sdn.aclEntries.find? (fun r =>
      r.templateID == aclTemplateID && r.ingress == ingress && aclKeyEq r.entry aclEntry)), w)

/-- Embedding of DeleteAclEntry: the direction chooses the URL, the id the
record; 204 when it exists under that direction. -/
def deleteAclEntry (ingress : Bool) (aclID : String) (w : World) : Except String Unit × World :=
  if (w.sdn.aclEntries.find? (fun r => r.id == aclID && r.ingress == ingress)).isSome then
    let es := w.sdn.aclEntries.filter (fun r => !(r.id == aclID && r.ingress == ingress))
    (.ok (), { w with sdn := { w.sdn with aclEntries := es } })
  else
    (.error "Unexpected error code: 404", w)

/-- Embedding of GetIngressAclTemplateID: filtered GET by name. -/
def getIngressAclTemplateID (_domainID name : String) (w : World) :
    Except String String × World :=
  match w.sdn.aclTemplates.find? (fun t => t.ingress && t.name == name) with
  | some t => (.ok t.id, w)
  | none => (.error "Ingress ACL Template not found", w)

/-- Embedding of GetEgressAclTemplateID: filtered GET by name. -/
def getEgressAclTemplateID (_domainID name : String) (w : World) :
    Except String String × World :=
  match w.sdn.aclTemplates.find? (fun t => !t.ingress && t.name == name) with
  | some t => (.ok t.id, w)
  | none => (.error "Egress ACL Template not found", w)

/-- The first baseline entry payload (allow intra-zone traffic). -/
def baselineForwardEntry : VsdAclEntry :=
  ⟨"FORWARD", "Allow Intra-Zone Traffic", "ENTERPRISE", "0x800", "", "ANY", "",
   "ENDPOINT_ZONE", "LIVE", 0, "ANY", false⟩

/-- The second baseline entry payload (drop intra-domain traffic, at the
maximum priority 10^9), obtained in the source by mutating the first. -/
def baselineDropEntry : VsdAclEntry :=
  { baselineForwardEntry with
    action := "DROP", description := "Drop intra-domain traffic",
    networkType := "ENDPOINT_DOMAIN", priority := 1000000000 }

/-- Embedding of CreateIngressAclEntries: both baseline entries on the
ingress template (the error of the second create is only logged). -/
def createIngressAclEntries (w : World) : Except String Unit × World :=
  match createAclEntry w.cli.ingressAclTemplateID true baselineForwardEntry w with
  | (.error e, w1) => (.error e, w1)
  | (.ok _, w1) =>
    match createAclEntry w1.cli.ingressAclTemplateID true baselineDropEntry w1 with
    | (_, w2) => (.ok (), w2)

/-- Embedding of CreateEgressAclEntries: the FORWARD entry goes to the
egress template, but the source passes ingressAclTemplateID for the DROP
entry (line 605), so the drop entry is created under the INGRESS
template's id with the egress direction; the error of that second create
is only logged. -/
def createEgressAclEntries (w : World) : Except String Unit × World :=
  match createAclEntry w.cli.egressAclTemplateID false baselineForwardEntry w with
  | (.error e, w1) => (.error e, w1)
  | (.ok _, w1) =>
    match createAclEntry w1.cli.ingressAclTemplateID false baselineDropEntry w1 with
    | (_, w2) => (.ok (), w2)

/-- Embedding of CreateIngressAclTemplate: POST; on 201 or 409 record the
template id on the client and (re)create the baseline entries. -/
def createIngressAclTemplate (domainID : String) (w : World) :
    Except String String × World :=
  let payloadName := "Auto-generated Ingress Policies"
  if (w.sdn.aclTemplates.find? (fun t => t.ingress && t.name == payloadName)).isSome then
    match getIngressAclTemplateID domainID payloadName w with
    | (.error e, w1) => (.error e, w1)
    | (.ok id, w1) =>
      let w2 := { w1 with cli := { w1.cli with ingressAclTemplateID := id } }
      match createIngressAclEntries w2 with
      | (.error e, w3) => (.error e, w3)
      | (.ok _, w3) => (.ok id, w3)
  else
    let (id, sdn) := w.sdn.freshID
    let sdn2 := { sdn with aclTemplates := sdn.aclTemplates ++ [⟨id, true, payloadName⟩] }
    let w2 := { w with sdn := sdn2, cli := { w.cli with ingressAclTemplateID := id } }
    match createIngressAclEntries w2 with
    | (.error e, w3) => (.error e, w3)
    | (.ok _, w3) => (.ok id, w3)

/-- Embedding of CreateEgressAclTemplate, symmetric to the ingress one. -/
def createEgressAclTemplate (domainID : String) (w : World) :
    Except String String × World :=
  let payloadName := "Auto-generated Egress Policies"
  if (w.sdn.aclTemplates.find? (fun t => !t.ingress && t.name == payloadName)).isSome then
    match getEgressAclTemplateID domainID payloadName w with
    | (.error e, w1) => (.error e, w1)
    | (.ok id, w1) =>
      let w2 := { w1 with cli := { w1.cli with egressAclTemplateID := id } }
      match createEgressAclEntries w2 with
      | (.error e, w3) => (.error e, w3)
      | (.ok _, w3) => (.ok id, w3)
  else
    let (id, sdn) := w.sdn.freshID
    let sdn2 := { sdn with aclTemplates := sdn.aclTemplates ++ [⟨id, false, payloadName⟩] }
    let w2 := { w with sdn := sdn2, cli := { w.cli with egressAclTemplateID := id } }
    match createEgressAclEntries w2 with
    | (.error e, w3) => (.error e, w3)
    | (.ok _, w3) => (.ok id, w3)

/-- Embedding of NextAvailablePriority: returns the counter and (by the
deferred IncrementNextAvailablePriority) bumps it by one. -/
def nextAvailablePriorityOp (w : World) : Int × World :=
  (w.cli.nextAvailablePriority,
   { w with cli := { w.cli with nextAvailablePriority := w.cli.nextAvailablePriority + 1 } })

/-- Embedding of SetNextAvailablePriority. -/
def setNextAvailablePriority (v : Int) (w : World) : World :=
  { w with cli := { w.cli with nextAvailablePriority := v } }

/-- The zero value of NamespaceData (a missing Go map key). -/
def NamespaceData.zero : NamespaceData := ⟨"", "", []⟩

/-- Embedding of CreateDefaultZoneAcls: create-or-get the macro group
named after "default"; when the namespace is already tracked the source
assigns the group id to a COPY of the struct (a no-op), otherwise it
inserts a fresh record; then one ingress and one egress FORWARD entry at
priority 1 against the group. -/
def createDefaultZoneAcls (zoneID : String) (w : World) : Except String Unit × World :=
  match createNetworkMacroGroup w.cli.enterpriseID "default" w with
  | (.error e, w1) => (.error e, w1)
  | (.ok nmgid, w1) =>
    let nss := upsert "default" ⟨zoneID, nmgid, []⟩ w1.cli.namespaces
    let w2 :=
      if (w1.cli.namespaces.lookup "default").isSome then w1
      else { w1 with cli := { w1.cli with namespaces := nss } }
    let aclEntry : VsdAclEntry :=
      ⟨"FORWARD", "Allow Traffic Between All Zones and Default Zone", "ENTERPRISE",
       "0x800", "", "ANY", nmgid, "NETWORK_MACRO_GROUP", "LIVE", 1, "ANY", false⟩
    match createAclEntry w2.cli.ingressAclTemplateID true aclEntry w2 with
    | (.error e, w3) => (.error e, w3)
    | (.ok _, w3) =>
      match createAclEntry w3.cli.egressAclTemplateID false aclEntry w3 with
      | (.error e, w4) => (.error e, w4)
      | (.ok _, w4) => (.ok (), w4)

/-- Embedding of CreateSpecificZoneAcls: create-or-get the zone's macro
group (tracked namespaces again only mutate a copy); build ONE entry
payload whose priority is 300 + NextAvailablePriority(), create it as the
ingress entry and again as the egress entry (same payload, same priority),
setting the counter to priority + 1 after each successful create. -/
def createSpecificZoneAcls (zoneName zoneID : String) (w : World) :
    Except String Unit × World :=
  match createNetworkMacroGroup w.cli.enterpriseID zoneName w with
  | (.error e, w1) => (.error e, w1)
  | (.ok nmgid, w1) =>
    let nss := upsert zoneName ⟨zoneID, nmgid, []⟩ w1.cli.namespaces
    let w2 :=
      if (w1.cli.namespaces.lookup zoneName).isSome then w1
      else { w1 with cli := { w1.cli with namespaces := nss } }
    let (pr, w3) := nextAvailablePriorityOp w2
    let aclEntry : VsdAclEntry :=
      ⟨"FORWARD", "Allow Traffic Between Zone - " ++ zoneName ++ " And Its Services",
       "ENTERPRISE", "0x800",
       ((w3.cli.namespaces.lookup zoneName).getD NamespaceData.zero).zoneID, "ZONE",
       nmgid, "NETWORK_MACRO_GROUP", "LIVE", 300 + pr, "ANY", false⟩
    match createAclEntry w3.cli.ingressAclTemplateID true aclEntry w3 with
    | (.error e, w4) => (.error e, w4)
    | (.ok _, w4) =>
      let w5 := setNextAvailablePriority (aclEntry.priority + 1) w4
      match createAclEntry w5.cli.egressAclTemplateID false aclEntry w5 with
      | (.error e, w6) => (.error e, w6)
      | (.ok _, w6) => (.ok (), setNextAvailablePriority (aclEntry.priority + 1) w6)

/-- Embedding of DeleteSpecificZoneAcls: locate and delete the ingress and
egress entries by payload; note the source returns its (nil) error when
GetAclEntry finds nothing, so a missing entry ends the function with
success without touching the rest; finally delete the macro group when
the tracked record holds one (clearing the field again only on a copy). -/
def deleteSpecificZoneAcls (zoneName : String) (w : World) : Except String Unit × World :=
  let aclEntry : VsdAclEntry :=
    ⟨"FORWARD", "Allow Traffic Between Zone - " ++ zoneName ++ " And Its Services",
     "ENTERPRISE", "0x800",
     ((w.cli.namespaces.lookup zoneName).getD NamespaceData.zero).zoneID, "ZONE",
     ((w.cli.namespaces.lookup zoneName).getD NamespaceData.zero).networkMacroGroupID,
     "NETWORK_MACRO_GROUP", "LIVE", 0, "ANY", false⟩
  match getAclEntry w.cli.ingressAclTemplateID true aclEntry w with
  | (.error e, w1) => (.error e, w1)
  | (.ok none, w1) => (.ok (), w1)
  | (.ok (some acl), w1) =>
    match deleteAclEntry true acl.id w1 with
    | (.error e, w2) => (.error e, w2)
    | (.ok _, w2) =>
      match getAclEntry w2.cli.egressAclTemplateID false aclEntry w2 with
      | (.error e, w3) => (.error e, w3)
      | (.ok none, w3) => (.ok (), w3)
      | (.ok (some acl2), w3) =>
        match deleteAclEntry false acl2.id w3 with
        | (.error e, w4) => (.error e, w4)
        | (.ok _, w4) =>
          if ((w4.cli.namespaces.lookup zoneName).getD NamespaceData.zero).networkMacroGroupID
              == "" then
            (.ok (), w4)
          else
            match deleteNetworkMacroGroup
                ((w4.cli.namespaces.lookup zoneName).getD NamespaceData.zero).networkMacroGroupID
                w4 with
            | (.error e, w5) => (.error e, w5)
            | (.ok _, w5) => (.ok (), w5)

/-- Embedding of DeleteDefaultZoneAcls, the "default" variant. -/
def deleteDefaultZoneAcls (_zoneID : String) (w : World) : Except String Unit × World :=
  let aclEntry : VsdAclEntry :=
    ⟨"FORWARD", "Allow Traffic Between All Zones and Default Zone", "ENTERPRISE",
     "0x800", "", "ANY",
     ((w.cli.namespaces.lookup "default").getD NamespaceData.zero).networkMacroGroupID,
     "NETWORK_MACRO_GROUP", "LIVE", 0, "ANY", false⟩
  match getAclEntry w.cli.ingressAclTemplateID true aclEntry w with
  | (.error e, w1) => (.error e, w1)
  | (.ok none, w1) => (.ok (), w1)
  | (.ok (some acl), w1) =>
    match deleteAclEntry true acl.id w1 with
    | (.error e, w2) => (.error e, w2)
    | (.ok _, w2) =>
      match getAclEntry w2.cli.egressAclTemplateID false aclEntry w2 with
      | (.error e, w3) => (.error e, w3)
      | (.ok none, w3) => (.ok (), w3)
      | (.ok (some acl2), w3) =>
        match deleteAclEntry false acl2.id w3 with
        | (.error e, w4) => (.error e, w4)
        | (.ok _, w4) =>
          if ((w4.cli.namespaces.lookup "default").getD NamespaceData.zero).networkMacroGroupID
              == "" then
            (.ok (), w4)
          else
            match deleteNetworkMacroGroup
                ((w4.cli.namespaces.lookup "default").getD NamespaceData.zero).networkMacroGroupID
                w4 with
            | (.error e, w5) => (.error e, w5)
            | (.ok _, w5) => (.ok (), w5)

/-- Message text of a pool error, for threading pool failures through the
reconciler's error returns. -/
def GoError.msg : GoError → String
  | .oobAccess => "runtime error: index out of range"
  | .invalidAllocSize => "Invalid size"
  | .cannotSplitSlash32 => "Cannot split a /32 subnet"
  | .badFreeSubnet _ => "Invalid subnet to free"
  | .doubleFree _ => "Subnet already available (double free?)"

/-- Event kind (api.Added / api.Deleted). -/
inductive EventKind where
  | added
  | deleted
deriving DecidableEq, Repr

/-- api.NamespaceEvent. -/
structure NamespaceEvent where
  kind : EventKind
  name : String
deriving DecidableEq, Repr

/-- api.ServiceEvent: `ns` is the Namespace field. -/
structure ServiceEvent where
  kind : EventKind
  name : String
  ns : String
  clusterIP : String
  nuageAnnotations : List (String × String)
deriving DecidableEq, Repr

/-- The per-subnet loop of the namespace-Deleted branch: DeleteSubnet and
pool.Free for every subnet of the zone's list, both errors only logged. -/
def deleteSubnetList : List (String × IPv4Subnet) → World → World
  | [], w => w
  | (sid, sub) :: rest, w =>
    let w1 := (deleteSubnet sid w).2
    let pool2 := match IPv4SubnetPool.Free w1.cli.pool sub with
      | .ok p => p
      | .error _ => w1.cli.pool
    deleteSubnetList rest { w1 with cli := { w1.cli with pool := pool2 } }

/-- Embedding of HandleNsEvent. -/
def handleNsEvent (ev : NamespaceEvent) (w : World) : Except String Unit × World :=
  match ev.kind with
  | .added =>
    if (w.cli.namespaces.lookup ev.name).isSome then
      match getZoneID w.cli.domainID ev.name w with
      | (.error e, w1) => (.error e, w1)
      | (.ok id, w1) =>
        if id == "" then (.error "Invalid zone ID returned", w1)
        else
          match (if ev.name == "default" then createDefaultZoneAcls id w1
                 else createSpecificZoneAcls ev.name id w1) with
          | (.error e, w2) => (.error e, w2)
          | (.ok _, w2) =>
            let nss := upsert ev.name (⟨id, "", []⟩ : NamespaceData) w2.cli.namespaces
            (.ok (), { w2 with cli := { w2.cli with namespaces := nss } })
    else
      match createZone w.cli.domainID ev.name w with
      | (.error e, w1) => (.error e, w1)
      | (.ok zoneID, w1) =>
        let w2 := { w1 with cli := { w1.cli with zones := upsert ev.name zoneID w1.cli.zones } }
        let ap := IPv4SubnetPool.Alloc w2.cli.pool (32 - w2.cli.subnetSize)
        let w3 := { w2 with cli := { w2.cli with pool := ap.2 } }
        match ap.1 with
        | .error e => (.error e.msg, w3)
        | .ok subnet =>
          match createSubnet (ev.name ++ "-0") zoneID subnet w3 with
          | (.error e, w4) =>
            let pool3 := match IPv4SubnetPool.Free w4.cli.pool subnet with
              | .ok p => p
              | .error _ => w4.cli.pool
            (.error e, { w4 with cli := { w4.cli with pool := pool3 } })
          | (.ok subnetID, w4) =>
            let sl := upsert zoneID [(subnetID, subnet)] w4.cli.subnets
            let w5 := { w4 with cli := { w4.cli with subnets := sl } }
            match (if ev.name == "default" then createDefaultZoneAcls zoneID w5
                   else createSpecificZoneAcls ev.name zoneID w5) with
            | (.error e, w6) => (.error e, w6)
            | (.ok _, w6) => (.ok (), w6)
  | .deleted =>
    match w.cli.namespaces.lookup ev.name with
    | some zone =>
      match (if ev.name == "default" then deleteDefaultZoneAcls zone.zoneID w
             else deleteSpecificZoneAcls ev.name w) with
      | (.error e, w1) => (.error e, w1)
      | (.ok _, w1) =>
        let w2 :=
          match w1.cli.subnets.lookup zone.zoneID with
          | none => w1
          | some lst =>
            let wA := deleteSubnetList lst w1
            { wA with cli := { wA.cli with subnets := eraseKey zone.zoneID wA.cli.subnets } }
        let w3 := { w2 with cli := { w2.cli with namespaces := eraseKey ev.name w2.cli.namespaces } }
        deleteZone zone.zoneID w3
    | none =>
      match getZoneID w.cli.domainID ev.name w with
      | (.error e, w1) => (.error e, w1)
      | (.ok id, w1) =>
        if id == "" then (.ok (), w1)
        else
          match (if ev.name == "default" then deleteDefaultZoneAcls id w1
                 else deleteSpecificZoneAcls ev.name w1) with
          | (.error e, w2) => (.error e, w2)
          | (.ok _, w2) => deleteZone id w2

/-- Embedding of HandleServiceEvent. -/
def handleServiceEvent (ev : ServiceEvent) (w : World) : Except String Unit × World :=
  match ev.kind with
  | .added =>
    let step1 : Except String String × World :=
      match ev.nuageAnnotations.lookup "network-macro-group.id" with
      | some v => (.ok v, w)
      | none =>
        match ev.nuageAnnotations.lookup "network-macro-group.name" with
        | some nm =>
          match getNetworkMacroGroupID w.cli.enterpriseID nm w with
          | (.error _, w1) =>
            (.error "Incorrect annotation information for creating service network macro", w1)
          | (.ok id, w1) => (.ok id, w1)
        | none => (.ok "", w)
    match step1 with
    | (.error e, w1) => (.error e, w1)
    | (.ok nmgID0, w1) =>
      let zcheck : Except String Unit :=
        match ev.nuageAnnotations.lookup "zone" with
        | some v =>
          if (w1.cli.namespaces.lookup v).isSome then
            if v == ev.ns then .ok ()
            else .error "Incorrect annotation information for creating service network macro"
          else if nmgID0 == "" then
            .error "Insufficient annotation information for creating service network macro"
          else .ok ()
        | none => .ok ()
      match zcheck with
      | .error e => (.error e, w1)
      | .ok _ =>
        let nmgID :=
          if nmgID0 == "" then
            ((w1.cli.namespaces.lookup ev.ns).getD NamespaceData.zero).networkMacroGroupID
          else nmgID0
        let networkMacro : VsdNetworkMacro :=
          ⟨"NetworkMacro for service: " ++ ev.ns ++ "/" ++ ev.name, "IPV4",
           ev.clusterIP, "255.255.255.255"⟩
        match createNetworkMacro w1.cli.enterpriseID networkMacro w1 with
        | (.error _, w2) => (.ok (), w2)
        | (.ok networkMacroID, w2) =>
          match w2.cli.namespaces.lookup ev.ns with
          | none => (.error "assignment to entry in nil map", w2)
          | some nsd =>
            let nsd2 := { nsd with networkMacros := upsert ev.name networkMacroID nsd.networkMacros }
            let nss := upsert ev.ns nsd2 w2.cli.namespaces
            let w3 := { w2 with cli := { w2.cli with namespaces := nss } }
            match addMacroToGroup nmgID networkMacroID w3 with
            | (.error e, w4) => (.error e, w4)
            | (.ok _, w4) => (.ok (), w4)
  | .deleted =>
    match w.cli.namespaces.lookup ev.ns with
    | none => (.ok (), w)
    | some nsd =>
      match nsd.networkMacros.lookup ev.name with
      | none => (.ok (), w)
      | some nmID =>
        match deleteNetworkMacro nmID w with
        | (.error e, w1) => (.error e, w1)
        | (.ok _, w1) =>
          let nsd2 := { nsd with networkMacros := eraseKey nmID nsd.networkMacros }
          let nss := upsert ev.ns nsd2 w1.cli.namespaces
          (.ok (), { w1 with cli := { w1.cli with namespaces := nss } })

/-- The client after Init: the 10.128.0.0/14 cluster network freed into an
empty pool, /24 subnets (subnetSize 8), priority counter at its zero
value, no tracked state yet. -/
def initialWorld : World :=
  { sdn := ⟨0, [], [], [], [], [], [], []⟩,
    cli := { enterpriseID := "ent", domainID := "dom",
             ingressAclTemplateID := "", egressAclTemplateID := "",
             zones := [], subnets := [], namespaces := [],
             pool := match IPv4SubnetPool.Free emptyPool ⟨⟨10, 128, 0, 0⟩, 14⟩ with
               | .ok p => p
               | .error _ => emptyPool,
             subnetSize := 8, nextAvailablePriority := 0 } }

/-- The world after the bootstrap applies the ingress and then the egress
ACL template (with their baseline entries). -/
def bootWorld : World :=
  ((createEgressAclTemplate "dom" ((createIngressAclTemplate "dom" initialWorld).2)).2)

/-- The world reached from the bootstrap by one namespace-Added event. -/
def afterNsEvent (name : String) (w : World) : World :=
  (handleNsEvent ⟨.added, name⟩ w).2


def bwPool : IPv4SubnetPool :=
  (List.replicate 33 ([] : List IPv4Subnet)).set 14 [⟨⟨10, 128, 0, 0⟩, 14⟩]

def allocPool : IPv4SubnetPool :=
  [[], [], [], [], [], [], [], [], [], [], [], [], [], [], [],
   [⟨⟨10, 130, 0, 0⟩, 15⟩], [⟨⟨10, 129, 0, 0⟩, 16⟩], [⟨⟨10, 128, 128, 0⟩, 17⟩],
   [⟨⟨10, 128, 64, 0⟩, 18⟩], [⟨⟨10, 128, 32, 0⟩, 19⟩], [⟨⟨10, 128, 16, 0⟩, 20⟩],
   [⟨⟨10, 128, 8, 0⟩, 21⟩], [⟨⟨10, 128, 4, 0⟩, 22⟩], [⟨⟨10, 128, 2, 0⟩, 23⟩],
   [⟨⟨10, 128, 1, 0⟩, 24⟩], [], [], [], [], [], [], [], []]

def bw : World :=
  { sdn := ⟨6, [], [],
      [⟨"id0", true, "Auto-generated Ingress Policies"⟩,
       ⟨"id3", false, "Auto-generated Egress Policies"⟩],
      [⟨"id1", "id0", true, baselineForwardEntry⟩,
       ⟨"id2", "id0", true, baselineDropEntry⟩,
       ⟨"id4", "id3", false, baselineForwardEntry⟩,
       ⟨"id5", "id0", false, baselineDropEntry⟩],
      [], [], []⟩,
    cli := { enterpriseID := "ent", domainID := "dom",
             ingressAclTemplateID := "id0", egressAclTemplateID := "id3",
             zones := [], subnets := [], namespaces := [],
             pool := bwPool, subnetSize := 8, nextAvailablePriority := 0 } }

def SdnState.noDupZones (s : SdnState) : Prop := (s.zones.map ZoneRec.name).Nodup

def SdnState.noDupSubnets (s : SdnState) : Prop :=
  (s.subnets.map (fun r => (r.zoneID, r.address))).Nodup

def SdnState.noDupAclEntries (s : SdnState) : Prop :=
  s.aclEntries.Pairwise (fun r t =>
    ¬(r.templateID = t.templateID ∧ r.ingress = t.ingress ∧ aclKeyEq r.entry t.entry = true))


instance (s : SdnState) : Decidable s.noDupZones := by
  unfold SdnState.noDupZones; infer_instance

instance (s : SdnState) : Decidable s.noDupSubnets := by
  unfold SdnState.noDupSubnets; infer_instance

instance (s : SdnState) : Decidable s.noDupAclEntries := by
  unfold SdnState.noDupAclEntries; infer_instance

def svcAdd : ServiceEvent := ⟨.added, "web", "alpha", "172.30.0.1", []⟩

def svcDel : ServiceEvent := ⟨.deleted, "web", "alpha", "172.30.0.1", []⟩

def c8World1 : World := (handleServiceEvent svcAdd (afterNsEvent "alpha" bootWorld)).2


theorem and_byte_reduce (b C : Nat) (hC : C < 256) : b &&& C = b % 256 &&& C := by
  have h1 : C &&& 255 = C := by
    have h := Nat.and_pow_two_sub_one_eq_mod C 8
    norm_num at h
    rw [h, Nat.mod_eq_of_lt hC]
  have h2 : (255 : Nat) &&& C = C := by rw [Nat.and_comm, h1]
  have h3 : b &&& 255 = b % 256 := by
    have h := Nat.and_pow_two_sub_one_eq_mod b 8
    norm_num at h
    exact h
  conv_lhs => rw [← h2, ← Nat.and_assoc, h3]

theorem splitLoByte1Fin : ∀ r : Fin 256, ((r : Nat) &&& 128) &&& 191 = (r : Nat) / 128 * 128 := by decide

theorem splitLoByte1 (b : Nat) : (b &&& 128) &&& 191 = b % 256 / 128 * 128 := by
  rw [and_byte_reduce b 128 (by norm_num)]
  exact splitLoByte1Fin ⟨b % 256, Nat.mod_lt _ (by norm_num)⟩

theorem splitHiByte1Fin : ∀ r : Fin 256, ((r : Nat) &&& 128) ||| 64 = (r : Nat) / 128 * 128 + 64 := by decide

theorem splitHiByte1 (b : Nat) : (b &&& 128) ||| 64 = b % 256 / 128 * 128 + 64 := by
  rw [and_byte_reduce b 128 (by norm_num)]
  exact splitHiByte1Fin ⟨b % 256, Nat.mod_lt _ (by norm_num)⟩

theorem splitLoByte2Fin : ∀ r : Fin 256, ((r : Nat) &&& 192) &&& 223 = (r : Nat) / 64 * 64 := by decide

theorem splitLoByte2 (b : Nat) : (b &&& 192) &&& 223 = b % 256 / 64 * 64 := by
  rw [and_byte_reduce b 192 (by norm_num)]
  exact splitLoByte2Fin ⟨b % 256, Nat.mod_lt _ (by norm_num)⟩

theorem splitHiByte2Fin : ∀ r : Fin 256, ((r : Nat) &&& 192) ||| 32 = (r : Nat) / 64 * 64 + 32 := by decide

theorem splitHiByte2 (b : Nat) : (b &&& 192) ||| 32 = b % 256 / 64 * 64 + 32 := by
  rw [and_byte_reduce b 192 (by norm_num)]
  exact splitHiByte2Fin ⟨b % 256, Nat.mod_lt _ (by norm_num)⟩

theorem splitLoByte3Fin : ∀ r : Fin 256, ((r : Nat) &&& 224) &&& 239 = (r : Nat) / 32 * 32 := by decide

theorem splitLoByte3 (b : Nat) : (b &&& 224) &&& 239 = b % 256 / 32 * 32 := by
  rw [and_byte_reduce b 224 (by norm_num)]
  exact splitLoByte3Fin ⟨b % 256, Nat.mod_lt _ (by norm_num)⟩

theorem splitHiByte3Fin : ∀ r : Fin 256, ((r : Nat) &&& 224) ||| 16 = (r : Nat) / 32 * 32 + 16 := by decide

theorem splitHiByte3 (b : Nat) : (b &&& 224) ||| 16 = b % 256 / 32 * 32 + 16 := by
  rw [and_byte_reduce b 224 (by norm_num)]
  exact splitHiByte3Fin ⟨b % 256, Nat.mod_lt _ (by norm_num)⟩

theorem splitLoByte4Fin : ∀ r : Fin 256, ((r : Nat) &&& 240) &&& 247 = (r : Nat) / 16 * 16 := by decide

theorem splitLoByte4 (b : Nat) : (b &&& 240) &&& 247 = b % 256 / 16 * 16 := by
  rw [and_byte_reduce b 240 (by norm_num)]
  exact splitLoByte4Fin ⟨b % 256, Nat.mod_lt _ (by norm_num)⟩

theorem splitHiByte4Fin : ∀ r : Fin 256, ((r : Nat) &&& 240) ||| 8 = (r : Nat) / 16 * 16 + 8 := by decide

theorem splitHiByte4 (b : Nat) : (b &&& 240) ||| 8 = b % 256 / 16 * 16 + 8 := by
  rw [and_byte_reduce b 240 (by norm_num)]
  exact splitHiByte4Fin ⟨b % 256, Nat.mod_lt _ (by norm_num)⟩

theorem splitLoByte5Fin : ∀ r : Fin 256, ((r : Nat) &&& 248) &&& 251 = (r : Nat) / 8 * 8 := by decide

theorem splitLoByte5 (b : Nat) : (b &&& 248) &&& 251 = b % 256 / 8 * 8 := by
  rw [and_byte_reduce b 248 (by norm_num)]
  exact splitLoByte5Fin ⟨b % 256, Nat.mod_lt _ (by norm_num)⟩

theorem splitHiByte5Fin : ∀ r : Fin 256, ((r : Nat) &&& 248) ||| 4 = (r : Nat) / 8 * 8 + 4 := by decide

theorem splitHiByte5 (b : Nat) : (b &&& 248) ||| 4 = b % 256 / 8 * 8 + 4 := by
  rw [and_byte_reduce b 248 (by norm_num)]
  exact splitHiByte5Fin ⟨b % 256, Nat.mod_lt _ (by norm_num)⟩

theorem splitLoByte6Fin : ∀ r : Fin 256, ((r : Nat) &&& 252) &&& 253 = (r : Nat) / 4 * 4 := by decide

theorem splitLoByte6 (b : Nat) : (b &&& 252) &&& 253 = b % 256 / 4 * 4 := by
  rw [and_byte_reduce b 252 (by norm_num)]
  exact splitLoByte6Fin ⟨b % 256, Nat.mod_lt _ (by norm_num)⟩

theorem splitHiByte6Fin : ∀ r : Fin 256, ((r : Nat) &&& 252) ||| 2 = (r : Nat) / 4 * 4 + 2 := by decide

theorem splitHiByte6 (b : Nat) : (b &&& 252) ||| 2 = b % 256 / 4 * 4 + 2 := by
  rw [and_byte_reduce b 252 (by norm_num)]
  exact splitHiByte6Fin ⟨b % 256, Nat.mod_lt _ (by norm_num)⟩

theorem splitLoByte7Fin : ∀ r : Fin 256, ((r : Nat) &&& 254) &&& 254 = (r : Nat) / 2 * 2 := by decide

theorem splitLoByte7 (b : Nat) : (b &&& 254) &&& 254 = b % 256 / 2 * 2 := by
  rw [and_byte_reduce b 254 (by norm_num)]
  exact splitLoByte7Fin ⟨b % 256, Nat.mod_lt _ (by norm_num)⟩

theorem splitHiByte7Fin : ∀ r : Fin 256, ((r : Nat) &&& 254) ||| 1 = (r : Nat) / 2 * 2 + 1 := by decide

theorem splitHiByte7 (b : Nat) : (b &&& 254) ||| 1 = b % 256 / 2 * 2 + 1 := by
  rw [and_byte_reduce b 254 (by norm_num)]
  exact splitHiByte7Fin ⟨b % 256, Nat.mod_lt _ (by norm_num)⟩


theorem tmodLit0 : Int.tmod 0 8 = 0 := by decide
theorem tdivLit0 : Int.tdiv 0 8 = 0 := by decide

theorem tmodLit1 : Int.tmod 1 8 = 1 := by decide
theorem tdivLit1 : Int.tdiv 1 8 = 0 := by decide

theorem tmodLit2 : Int.tmod 2 8 = 2 := by decide
theorem tdivLit2 : Int.tdiv 2 8 = 0 := by decide

theorem tmodLit3 : Int.tmod 3 8 = 3 := by decide
theorem tdivLit3 : Int.tdiv 3 8 = 0 := by decide

theorem tmodLit4 : Int.tmod 4 8 = 4 := by decide
theorem tdivLit4 : Int.tdiv 4 8 = 0 := by decide

theorem tmodLit5 : Int.tmod 5 8 = 5 := by decide
theorem tdivLit5 : Int.tdiv 5 8 = 0 := by decide

theorem tmodLit6 : Int.tmod 6 8 = 6 := by decide
theorem tdivLit6 : Int.tdiv 6 8 = 0 := by decide

theorem tmodLit7 : Int.tmod 7 8 = 7 := by decide
theorem tdivLit7 : Int.tdiv 7 8 = 0 := by decide

theorem tmodLit8 : Int.tmod 8 8 = 0 := by decide
theorem tdivLit8 : Int.tdiv 8 8 = 1 := by decide

theorem tmodLit9 : Int.tmod 9 8 = 1 := by decide
theorem tdivLit9 : Int.tdiv 9 8 = 1 := by decide

theorem tmodLit10 : Int.tmod 10 8 = 2 := by decide
theorem tdivLit10 : Int.tdiv 10 8 = 1 := by decide

theorem tmodLit11 : Int.tmod 11 8 = 3 := by decide
theorem tdivLit11 : Int.tdiv 11 8 = 1 := by decide

theorem tmodLit12 : Int.tmod 12 8 = 4 := by decide
theorem tdivLit12 : Int.tdiv 12 8 = 1 := by decide

theorem tmodLit13 : Int.tmod 13 8 = 5 := by decide
theorem tdivLit13 : Int.tdiv 13 8 = 1 := by decide

theorem tmodLit14 : Int.tmod 14 8 = 6 := by decide
theorem tdivLit14 : Int.tdiv 14 8 = 1 := by decide

theorem tmodLit15 : Int.tmod 15 8 = 7 := by decide
theorem tdivLit15 : Int.tdiv 15 8 = 1 := by decide

theorem tmodLit16 : Int.tmod 16 8 = 0 := by decide
theorem tdivLit16 : Int.tdiv 16 8 = 2 := by decide

theorem tmodLit17 : Int.tmod 17 8 = 1 := by decide
theorem tdivLit17 : Int.tdiv 17 8 = 2 := by decide

theorem tmodLit18 : Int.tmod 18 8 = 2 := by decide
theorem tdivLit18 : Int.tdiv 18 8 = 2 := by decide

theorem tmodLit19 : Int.tmod 19 8 = 3 := by decide
theorem tdivLit19 : Int.tdiv 19 8 = 2 := by decide

theorem tmodLit20 : Int.tmod 20 8 = 4 := by decide
theorem tdivLit20 : Int.tdiv 20 8 = 2 := by decide

theorem tmodLit21 : Int.tmod 21 8 = 5 := by decide
theorem tdivLit21 : Int.tdiv 21 8 = 2 := by decide

theorem tmodLit22 : Int.tmod 22 8 = 6 := by decide
theorem tdivLit22 : Int.tdiv 22 8 = 2 := by decide

theorem tmodLit23 : Int.tmod 23 8 = 7 := by decide
theorem tdivLit23 : Int.tdiv 23 8 = 2 := by decide

theorem tmodLit24 : Int.tmod 24 8 = 0 := by decide
theorem tdivLit24 : Int.tdiv 24 8 = 3 := by decide

theorem tmodLit25 : Int.tmod 25 8 = 1 := by decide
theorem tdivLit25 : Int.tdiv 25 8 = 3 := by decide

theorem tmodLit26 : Int.tmod 26 8 = 2 := by decide
theorem tdivLit26 : Int.tdiv 26 8 = 3 := by decide

theorem tmodLit27 : Int.tmod 27 8 = 3 := by decide
theorem tdivLit27 : Int.tdiv 27 8 = 3 := by decide

theorem tmodLit28 : Int.tmod 28 8 = 4 := by decide
theorem tdivLit28 : Int.tdiv 28 8 = 3 := by decide

theorem tmodLit29 : Int.tmod 29 8 = 5 := by decide
theorem tdivLit29 : Int.tdiv 29 8 = 3 := by decide

theorem tmodLit30 : Int.tmod 30 8 = 6 := by decide
theorem tdivLit30 : Int.tdiv 30 8 = 3 := by decide

theorem tmodLit31 : Int.tmod 31 8 = 7 := by decide
theorem tdivLit31 : Int.tdiv 31 8 = 3 := by decide



theorem ge32c0 : (((0:Int) ≥ 32)) = False := by decide
theorem ge8c0 : (((0:Int) ≥ 8)) = False := by decide
theorem gt0c0 : (((0:Int) > 0)) = False := by decide
theorem ge32c1 : (((1:Int) ≥ 32)) = False := by decide
theorem ge8c1 : (((1:Int) ≥ 8)) = False := by decide
theorem gt0c1 : (((1:Int) > 0)) = True := by decide
theorem ge32c2 : (((2:Int) ≥ 32)) = False := by decide
theorem ge8c2 : (((2:Int) ≥ 8)) = False := by decide
theorem gt0c2 : (((2:Int) > 0)) = True := by decide
theorem ge32c3 : (((3:Int) ≥ 32)) = False := by decide
theorem ge8c3 : (((3:Int) ≥ 8)) = False := by decide
theorem gt0c3 : (((3:Int) > 0)) = True := by decide
theorem ge32c4 : (((4:Int) ≥ 32)) = False := by decide
theorem ge8c4 : (((4:Int) ≥ 8)) = False := by decide
theorem gt0c4 : (((4:Int) > 0)) = True := by decide
theorem ge32c5 : (((5:Int) ≥ 32)) = False := by decide
theorem ge8c5 : (((5:Int) ≥ 8)) = False := by decide
theorem gt0c5 : (((5:Int) > 0)) = True := by decide
theorem ge32c6 : (((6:Int) ≥ 32)) = False := by decide
theorem ge8c6 : (((6:Int) ≥ 8)) = False := by decide
theorem gt0c6 : (((6:Int) > 0)) = True := by decide
theorem ge32c7 : (((7:Int) ≥ 32)) = False := by decide
theorem ge8c7 : (((7:Int) ≥ 8)) = False := by decide
theorem gt0c7 : (((7:Int) > 0)) = True := by decide
theorem ge32c8 : (((8:Int) ≥ 32)) = False := by decide
theorem ge8c8 : (((8:Int) ≥ 8)) = True := by decide
theorem gt0c8 : (((8:Int) > 0)) = True := by decide
theorem ge32c9 : (((9:Int) ≥ 32)) = False := by decide
theorem ge8c9 : (((9:Int) ≥ 8)) = True := by decide
theorem gt0c9 : (((9:Int) > 0)) = True := by decide
theorem ge32c10 : (((10:Int) ≥ 32)) = False := by decide
theorem ge8c10 : (((10:Int) ≥ 8)) = True := by decide
theorem gt0c10 : (((10:Int) > 0)) = True := by decide
theorem ge32c11 : (((11:Int) ≥ 32)) = False := by decide
theorem ge8c11 : (((11:Int) ≥ 8)) = True := by decide
theorem gt0c11 : (((11:Int) > 0)) = True := by decide
theorem ge32c12 : (((12:Int) ≥ 32)) = False := by decide
theorem ge8c12 : (((12:Int) ≥ 8)) = True := by decide
theorem gt0c12 : (((12:Int) > 0)) = True := by decide
theorem ge32c13 : (((13:Int) ≥ 32)) = False := by decide
theorem ge8c13 : (((13:Int) ≥ 8)) = True := by decide
theorem gt0c13 : (((13:Int) > 0)) = True := by decide
theorem ge32c14 : (((14:Int) ≥ 32)) = False := by decide
theorem ge8c14 : (((14:Int) ≥ 8)) = True := by decide
theorem gt0c14 : (((14:Int) > 0)) = True := by decide
theorem ge32c15 : (((15:Int) ≥ 32)) = False := by decide
theorem ge8c15 : (((15:Int) ≥ 8)) = True := by decide
theorem gt0c15 : (((15:Int) > 0)) = True := by decide
theorem ge32c16 : (((16:Int) ≥ 32)) = False := by decide
theorem ge8c16 : (((16:Int) ≥ 8)) = True := by decide
theorem gt0c16 : (((16:Int) > 0)) = True := by decide
theorem ge32c17 : (((17:Int) ≥ 32)) = False := by decide
theorem ge8c17 : (((17:Int) ≥ 8)) = True := by decide
theorem gt0c17 : (((17:Int) > 0)) = True := by decide
theorem ge32c18 : (((18:Int) ≥ 32)) = False := by decide
theorem ge8c18 : (((18:Int) ≥ 8)) = True := by decide
theorem gt0c18 : (((18:Int) > 0)) = True := by decide
theorem ge32c19 : (((19:Int) ≥ 32)) = False := by decide
theorem ge8c19 : (((19:Int) ≥ 8)) = True := by decide
theorem gt0c19 : (((19:Int) > 0)) = True := by decide
theorem ge32c20 : (((20:Int) ≥ 32)) = False := by decide
theorem ge8c20 : (((20:Int) ≥ 8)) = True := by decide
theorem gt0c20 : (((20:Int) > 0)) = True := by decide
theorem ge32c21 : (((21:Int) ≥ 32)) = False := by decide
theorem ge8c21 : (((21:Int) ≥ 8)) = True := by decide
theorem gt0c21 : (((21:Int) > 0)) = True := by decide
theorem ge32c22 : (((22:Int) ≥ 32)) = False := by decide
theorem ge8c22 : (((22:Int) ≥ 8)) = True := by decide
theorem gt0c22 : (((22:Int) > 0)) = True := by decide
theorem ge32c23 : (((23:Int) ≥ 32)) = False := by decide
theorem ge8c23 : (((23:Int) ≥ 8)) = True := by decide
theorem gt0c23 : (((23:Int) > 0)) = True := by decide
theorem ge32c24 : (((24:Int) ≥ 32)) = False := by decide
theorem ge8c24 : (((24:Int) ≥ 8)) = True := by decide
theorem gt0c24 : (((24:Int) > 0)) = True := by decide
theorem ge32c25 : (((25:Int) ≥ 32)) = False := by decide
theorem ge8c25 : (((25:Int) ≥ 8)) = True := by decide
theorem gt0c25 : (((25:Int) > 0)) = True := by decide
theorem ge32c26 : (((26:Int) ≥ 32)) = False := by decide
theorem ge8c26 : (((26:Int) ≥ 8)) = True := by decide
theorem gt0c26 : (((26:Int) > 0)) = True := by decide
theorem ge32c27 : (((27:Int) ≥ 32)) = False := by decide
theorem ge8c27 : (((27:Int) ≥ 8)) = True := by decide
theorem gt0c27 : (((27:Int) > 0)) = True := by decide
theorem ge32c28 : (((28:Int) ≥ 32)) = False := by decide
theorem ge8c28 : (((28:Int) ≥ 8)) = True := by decide
theorem gt0c28 : (((28:Int) > 0)) = True := by decide
theorem ge32c29 : (((29:Int) ≥ 32)) = False := by decide
theorem ge8c29 : (((29:Int) ≥ 8)) = True := by decide
theorem gt0c29 : (((29:Int) > 0)) = True := by decide
theorem ge32c30 : (((30:Int) ≥ 32)) = False := by decide
theorem ge8c30 : (((30:Int) ≥ 8)) = True := by decide
theorem gt0c30 : (((30:Int) > 0)) = True := by decide
theorem ge32c31 : (((31:Int) ≥ 32)) = False := by decide
theorem ge8c31 : (((31:Int) ≥ 8)) = True := by decide
theorem gt0c31 : (((31:Int) > 0)) = True := by decide
theorem lt0c0 : (((0:Int) < 0)) = False := by decide
theorem lt0c1 : (((1:Int) < 0)) = False := by decide
theorem lt0c2 : (((2:Int) < 0)) = False := by decide
theorem lt0c3 : (((3:Int) < 0)) = False := by decide
theorem lt0c4 : (((4:Int) < 0)) = False := by decide
theorem lt0c5 : (((5:Int) < 0)) = False := by decide
theorem lt0c6 : (((6:Int) < 0)) = False := by decide
theorem lt0c7 : (((7:Int) < 0)) = False := by decide


theorem splitStructCase0 (b0 b1 b2 b3 : Nat)
    (h0 : b0 < 256) (h1 : b1 < 256) (h2 : b2 < 256) (h3 : b3 < 256) :
    IPv4Subnet.Split ⟨⟨b0, b1, b2, b3⟩, (0:Int)⟩ =
      .ok (⟨⟨0, 0, 0, 0⟩, 1⟩, ⟨⟨128, 0, 0, 0⟩, 1⟩) ∧
    (⟨⟨0, 0, 0, 0⟩, 1⟩ : IPv4Subnet).Address.Bounded ∧
    (⟨⟨128, 0, 0, 0⟩, 1⟩ : IPv4Subnet).Address.Bounded ∧
    (⟨⟨0, 0, 0, 0⟩, 1⟩ : IPv4Subnet).Address.toNat =
      (⟨b0, b1, b2, b3⟩ : IPv4Address).toNat / 2 ^ 32 * 2 ^ 32 ∧
    (⟨⟨128, 0, 0, 0⟩, 1⟩ : IPv4Subnet).Address.toNat =
      (⟨b0, b1, b2, b3⟩ : IPv4Address).toNat / 2 ^ 32 * 2 ^ 32 + 2 ^ 31 := by
  refine ⟨?_, ?_, ?_, ?_, ?_⟩
  · simp only [IPv4Subnet.Split, splitMaskByte, splitNextRem, IPv4Address.modify?,
      Int.reduceToNat, Int.reduceEq, Int.reduceSub, Int.reduceAdd, Int.reducePow,
      Int.reduceMod, Nat.reduceSub, Nat.reduceShiftRight, Nat.reduceXor,
      Nat.zero_and, Nat.zero_or, reduceIte, true_and, and_true,
      ge32c0, ge8c0, gt0c0, ge32c1, ge8c1, gt0c1, ge32c2, ge8c2, gt0c2, ge32c3, ge8c3, gt0c3, ge32c4, ge8c4, gt0c4, ge32c5, ge8c5, gt0c5, ge32c6, ge8c6, gt0c6, ge32c7, ge8c7, gt0c7, ge32c8, ge8c8, gt0c8, ge32c9, ge8c9, gt0c9, ge32c10, ge8c10, gt0c10, ge32c11, ge8c11, gt0c11, ge32c12, ge8c12, gt0c12, ge32c13, ge8c13, gt0c13, ge32c14, ge8c14, gt0c14, ge32c15, ge8c15, gt0c15, ge32c16, ge8c16, gt0c16, ge32c17, ge8c17, gt0c17, ge32c18, ge8c18, gt0c18, ge32c19, ge8c19, gt0c19, ge32c20, ge8c20, gt0c20, ge32c21, ge8c21, gt0c21, ge32c22, ge8c22, gt0c22, ge32c23, ge8c23, gt0c23, ge32c24, ge8c24, gt0c24, ge32c25, ge8c25, gt0c25, ge32c26, ge8c26, gt0c26, ge32c27, ge8c27, gt0c27, ge32c28, ge8c28, gt0c28, ge32c29, ge8c29, gt0c29, ge32c30, ge8c30, gt0c30, ge32c31, ge8c31, gt0c31, lt0c0, lt0c1, lt0c2, lt0c3, lt0c4, lt0c5, lt0c6, lt0c7,
      tmodLit0, tdivLit0, tmodLit1, tdivLit1, tmodLit2, tdivLit2, tmodLit3, tdivLit3, tmodLit4, tdivLit4, tmodLit5, tdivLit5, tmodLit6, tdivLit6, tmodLit7, tdivLit7, tmodLit8, tdivLit8, tmodLit9, tdivLit9, tmodLit10, tdivLit10, tmodLit11, tdivLit11, tmodLit12, tdivLit12, tmodLit13, tdivLit13, tmodLit14, tdivLit14, tmodLit15, tdivLit15, tmodLit16, tdivLit16, tmodLit17, tdivLit17, tmodLit18, tdivLit18, tmodLit19, tdivLit19, tmodLit20, tdivLit20, tmodLit21, tdivLit21, tmodLit22, tdivLit22, tmodLit23, tdivLit23, tmodLit24, tdivLit24, tmodLit25, tdivLit25, tmodLit26, tdivLit26, tmodLit27, tdivLit27, tmodLit28, tdivLit28, tmodLit29, tdivLit29, tmodLit30, tdivLit30, tmodLit31, tdivLit31]
  all_goals
    simp only [IPv4Address.toNat, IPv4Address.Bounded, Nat.zero_and] ; omega


theorem splitStructCase1 (b0 b1 b2 b3 : Nat)
    (h0 : b0 < 256) (h1 : b1 < 256) (h2 : b2 < 256) (h3 : b3 < 256) :
    IPv4Subnet.Split ⟨⟨b0, b1, b2, b3⟩, (1:Int)⟩ =
      .ok (⟨⟨(b0 &&& 128) &&& 191, 0, 0, 0⟩, 2⟩, ⟨⟨(b0 &&& 128) ||| 64, 0, 0, 0⟩, 2⟩) ∧
    (⟨⟨(b0 &&& 128) &&& 191, 0, 0, 0⟩, 2⟩ : IPv4Subnet).Address.Bounded ∧
    (⟨⟨(b0 &&& 128) ||| 64, 0, 0, 0⟩, 2⟩ : IPv4Subnet).Address.Bounded ∧
    (⟨⟨(b0 &&& 128) &&& 191, 0, 0, 0⟩, 2⟩ : IPv4Subnet).Address.toNat =
      (⟨b0, b1, b2, b3⟩ : IPv4Address).toNat / 2 ^ 31 * 2 ^ 31 ∧
    (⟨⟨(b0 &&& 128) ||| 64, 0, 0, 0⟩, 2⟩ : IPv4Subnet).Address.toNat =
      (⟨b0, b1, b2, b3⟩ : IPv4Address).toNat / 2 ^ 31 * 2 ^ 31 + 2 ^ 30 := by
  refine ⟨?_, ?_, ?_, ?_, ?_⟩
  · simp only [IPv4Subnet.Split, splitMaskByte, splitNextRem, IPv4Address.modify?,
      Int.reduceToNat, Int.reduceEq, Int.reduceSub, Int.reduceAdd, Int.reducePow,
      Int.reduceMod, Nat.reduceSub, Nat.reduceShiftRight, Nat.reduceXor,
      Nat.zero_and, Nat.zero_or, reduceIte, true_and, and_true,
      ge32c0, ge8c0, gt0c0, ge32c1, ge8c1, gt0c1, ge32c2, ge8c2, gt0c2, ge32c3, ge8c3, gt0c3, ge32c4, ge8c4, gt0c4, ge32c5, ge8c5, gt0c5, ge32c6, ge8c6, gt0c6, ge32c7, ge8c7, gt0c7, ge32c8, ge8c8, gt0c8, ge32c9, ge8c9, gt0c9, ge32c10, ge8c10, gt0c10, ge32c11, ge8c11, gt0c11, ge32c12, ge8c12, gt0c12, ge32c13, ge8c13, gt0c13, ge32c14, ge8c14, gt0c14, ge32c15, ge8c15, gt0c15, ge32c16, ge8c16, gt0c16, ge32c17, ge8c17, gt0c17, ge32c18, ge8c18, gt0c18, ge32c19, ge8c19, gt0c19, ge32c20, ge8c20, gt0c20, ge32c21, ge8c21, gt0c21, ge32c22, ge8c22, gt0c22, ge32c23, ge8c23, gt0c23, ge32c24, ge8c24, gt0c24, ge32c25, ge8c25, gt0c25, ge32c26, ge8c26, gt0c26, ge32c27, ge8c27, gt0c27, ge32c28, ge8c28, gt0c28, ge32c29, ge8c29, gt0c29, ge32c30, ge8c30, gt0c30, ge32c31, ge8c31, gt0c31, lt0c0, lt0c1, lt0c2, lt0c3, lt0c4, lt0c5, lt0c6, lt0c7,
      tmodLit0, tdivLit0, tmodLit1, tdivLit1, tmodLit2, tdivLit2, tmodLit3, tdivLit3, tmodLit4, tdivLit4, tmodLit5, tdivLit5, tmodLit6, tdivLit6, tmodLit7, tdivLit7, tmodLit8, tdivLit8, tmodLit9, tdivLit9, tmodLit10, tdivLit10, tmodLit11, tdivLit11, tmodLit12, tdivLit12, tmodLit13, tdivLit13, tmodLit14, tdivLit14, tmodLit15, tdivLit15, tmodLit16, tdivLit16, tmodLit17, tdivLit17, tmodLit18, tdivLit18, tmodLit19, tdivLit19, tmodLit20, tdivLit20, tmodLit21, tdivLit21, tmodLit22, tdivLit22, tmodLit23, tdivLit23, tmodLit24, tdivLit24, tmodLit25, tdivLit25, tmodLit26, tdivLit26, tmodLit27, tdivLit27, tmodLit28, tdivLit28, tmodLit29, tdivLit29, tmodLit30, tdivLit30, tmodLit31, tdivLit31]
  all_goals
    simp only [IPv4Address.toNat, IPv4Address.Bounded, splitLoByte1, splitHiByte1, Nat.zero_and] ; omega


theorem splitStructCase2 (b0 b1 b2 b3 : Nat)
    (h0 : b0 < 256) (h1 : b1 < 256) (h2 : b2 < 256) (h3 : b3 < 256) :
    IPv4Subnet.Split ⟨⟨b0, b1, b2, b3⟩, (2:Int)⟩ =
      .ok (⟨⟨(b0 &&& 192) &&& 223, 0, 0, 0⟩, 3⟩, ⟨⟨(b0 &&& 192) ||| 32, 0, 0, 0⟩, 3⟩) ∧
    (⟨⟨(b0 &&& 192) &&& 223, 0, 0, 0⟩, 3⟩ : IPv4Subnet).Address.Bounded ∧
    (⟨⟨(b0 &&& 192) ||| 32, 0, 0, 0⟩, 3⟩ : IPv4Subnet).Address.Bounded ∧
    (⟨⟨(b0 &&& 192) &&& 223, 0, 0, 0⟩, 3⟩ : IPv4Subnet).Address.toNat =
      (⟨b0, b1, b2, b3⟩ : IPv4Address).toNat / 2 ^ 30 * 2 ^ 30 ∧
    (⟨⟨(b0 &&& 192) ||| 32, 0, 0, 0⟩, 3⟩ : IPv4Subnet).Address.toNat =
      (⟨b0, b1, b2, b3⟩ : IPv4Address).toNat / 2 ^ 30 * 2 ^ 30 + 2 ^ 29 := by
  refine ⟨?_, ?_, ?_, ?_, ?_⟩
  · simp only [IPv4Subnet.Split, splitMaskByte, splitNextRem, IPv4Address.modify?,
      Int.reduceToNat, Int.reduceEq, Int.reduceSub, Int.reduceAdd, Int.reducePow,
      Int.reduceMod, Nat.reduceSub, Nat.reduceShiftRight, Nat.reduceXor,
      Nat.zero_and, Nat.zero_or, reduceIte, true_and, and_true,
      ge32c0, ge8c0, gt0c0, ge32c1, ge8c1, gt0c1, ge32c2, ge8c2, gt0c2, ge32c3, ge8c3, gt0c3, ge32c4, ge8c4, gt0c4, ge32c5, ge8c5, gt0c5, ge32c6, ge8c6, gt0c6, ge32c7, ge8c7, gt0c7, ge32c8, ge8c8, gt0c8, ge32c9, ge8c9, gt0c9, ge32c10, ge8c10, gt0c10, ge32c11, ge8c11, gt0c11, ge32c12, ge8c12, gt0c12, ge32c13, ge8c13, gt0c13, ge32c14, ge8c14, gt0c14, ge32c15, ge8c15, gt0c15, ge32c16, ge8c16, gt0c16, ge32c17, ge8c17, gt0c17, ge32c18, ge8c18, gt0c18, ge32c19, ge8c19, gt0c19, ge32c20, ge8c20, gt0c20, ge32c21, ge8c21, gt0c21, ge32c22, ge8c22, gt0c22, ge32c23, ge8c23, gt0c23, ge32c24, ge8c24, gt0c24, ge32c25, ge8c25, gt0c25, ge32c26, ge8c26, gt0c26, ge32c27, ge8c27, gt0c27, ge32c28, ge8c28, gt0c28, ge32c29, ge8c29, gt0c29, ge32c30, ge8c30, gt0c30, ge32c31, ge8c31, gt0c31, lt0c0, lt0c1, lt0c2, lt0c3, lt0c4, lt0c5, lt0c6, lt0c7,
      tmodLit0, tdivLit0, tmodLit1, tdivLit1, tmodLit2, tdivLit2, tmodLit3, tdivLit3, tmodLit4, tdivLit4, tmodLit5, tdivLit5, tmodLit6, tdivLit6, tmodLit7, tdivLit7, tmodLit8, tdivLit8, tmodLit9, tdivLit9, tmodLit10, tdivLit10, tmodLit11, tdivLit11, tmodLit12, tdivLit12, tmodLit13, tdivLit13, tmodLit14, tdivLit14, tmodLit15, tdivLit15, tmodLit16, tdivLit16, tmodLit17, tdivLit17, tmodLit18, tdivLit18, tmodLit19, tdivLit19, tmodLit20, tdivLit20, tmodLit21, tdivLit21, tmodLit22, tdivLit22, tmodLit23, tdivLit23, tmodLit24, tdivLit24, tmodLit25, tdivLit25, tmodLit26, tdivLit26, tmodLit27, tdivLit27, tmodLit28, tdivLit28, tmodLit29, tdivLit29, tmodLit30, tdivLit30, tmodLit31, tdivLit31]
  all_goals
    simp only [IPv4Address.toNat, IPv4Address.Bounded, splitLoByte2, splitHiByte2, Nat.zero_and] ; omega


theorem splitStructCase3 (b0 b1 b2 b3 : Nat)
    (h0 : b0 < 256) (h1 : b1 < 256) (h2 : b2 < 256) (h3 : b3 < 256) :
    IPv4Subnet.Split ⟨⟨b0, b1, b2, b3⟩, (3:Int)⟩ =
      .ok (⟨⟨(b0 &&& 224) &&& 239, 0, 0, 0⟩, 4⟩, ⟨⟨(b0 &&& 224) ||| 16, 0, 0, 0⟩, 4⟩) ∧
    (⟨⟨(b0 &&& 224) &&& 239, 0, 0, 0⟩, 4⟩ : IPv4Subnet).Address.Bounded ∧
    (⟨⟨(b0 &&& 224) ||| 16, 0, 0, 0⟩, 4⟩ : IPv4Subnet).Address.Bounded ∧
    (⟨⟨(b0 &&& 224) &&& 239, 0, 0, 0⟩, 4⟩ : IPv4Subnet).Address.toNat =
      (⟨b0, b1, b2, b3⟩ : IPv4Address).toNat / 2 ^ 29 * 2 ^ 29 ∧
    (⟨⟨(b0 &&& 224) ||| 16, 0, 0, 0⟩, 4⟩ : IPv4Subnet).Address.toNat =
      (⟨b0, b1, b2, b3⟩ : IPv4Address).toNat / 2 ^ 29 * 2 ^ 29 + 2 ^ 28 := by
  refine ⟨?_, ?_, ?_, ?_, ?_⟩
  · simp only [IPv4Subnet.Split, splitMaskByte, splitNextRem, IPv4Address.modify?,
      Int.reduceToNat, Int.reduceEq, Int.reduceSub, Int.reduceAdd, Int.reducePow,
      Int.reduceMod, Nat.reduceSub, Nat.reduceShiftRight, Nat.reduceXor,
      Nat.zero_and, Nat.zero_or, reduceIte, true_and, and_true,
      ge32c0, ge8c0, gt0c0, ge32c1, ge8c1, gt0c1, ge32c2, ge8c2, gt0c2, ge32c3, ge8c3, gt0c3, ge32c4, ge8c4, gt0c4, ge32c5, ge8c5, gt0c5, ge32c6, ge8c6, gt0c6, ge32c7, ge8c7, gt0c7, ge32c8, ge8c8, gt0c8, ge32c9, ge8c9, gt0c9, ge32c10, ge8c10, gt0c10, ge32c11, ge8c11, gt0c11, ge32c12, ge8c12, gt0c12, ge32c13, ge8c13, gt0c13, ge32c14, ge8c14, gt0c14, ge32c15, ge8c15, gt0c15, ge32c16, ge8c16, gt0c16, ge32c17, ge8c17, gt0c17, ge32c18, ge8c18, gt0c18, ge32c19, ge8c19, gt0c19, ge32c20, ge8c20, gt0c20, ge32c21, ge8c21, gt0c21, ge32c22, ge8c22, gt0c22, ge32c23, ge8c23, gt0c23, ge32c24, ge8c24, gt0c24, ge32c25, ge8c25, gt0c25, ge32c26, ge8c26, gt0c26, ge32c27, ge8c27, gt0c27, ge32c28, ge8c28, gt0c28, ge32c29, ge8c29, gt0c29, ge32c30, ge8c30, gt0c30, ge32c31, ge8c31, gt0c31, lt0c0, lt0c1, lt0c2, lt0c3, lt0c4, lt0c5, lt0c6, lt0c7,
      tmodLit0, tdivLit0, tmodLit1, tdivLit1, tmodLit2, tdivLit2, tmodLit3, tdivLit3, tmodLit4, tdivLit4, tmodLit5, tdivLit5, tmodLit6, tdivLit6, tmodLit7, tdivLit7, tmodLit8, tdivLit8, tmodLit9, tdivLit9, tmodLit10, tdivLit10, tmodLit11, tdivLit11, tmodLit12, tdivLit12, tmodLit13, tdivLit13, tmodLit14, tdivLit14, tmodLit15, tdivLit15, tmodLit16, tdivLit16, tmodLit17, tdivLit17, tmodLit18, tdivLit18, tmodLit19, tdivLit19, tmodLit20, tdivLit20, tmodLit21, tdivLit21, tmodLit22, tdivLit22, tmodLit23, tdivLit23, tmodLit24, tdivLit24, tmodLit25, tdivLit25, tmodLit26, tdivLit26, tmodLit27, tdivLit27, tmodLit28, tdivLit28, tmodLit29, tdivLit29, tmodLit30, tdivLit30, tmodLit31, tdivLit31]
  all_goals
    simp only [IPv4Address.toNat, IPv4Address.Bounded, splitLoByte3, splitHiByte3, Nat.zero_and] ; omega


theorem splitStructCase4 (b0 b1 b2 b3 : Nat)
    (h0 : b0 < 256) (h1 : b1 < 256) (h2 : b2 < 256) (h3 : b3 < 256) :
    IPv4Subnet.Split ⟨⟨b0, b1, b2, b3⟩, (4:Int)⟩ =
      .ok (⟨⟨(b0 &&& 240) &&& 247, 0, 0, 0⟩, 5⟩, ⟨⟨(b0 &&& 240) ||| 8, 0, 0, 0⟩, 5⟩) ∧
    (⟨⟨(b0 &&& 240) &&& 247, 0, 0, 0⟩, 5⟩ : IPv4Subnet).Address.Bounded ∧
    (⟨⟨(b0 &&& 240) ||| 8, 0, 0, 0⟩, 5⟩ : IPv4Subnet).Address.Bounded ∧
    (⟨⟨(b0 &&& 240) &&& 247, 0, 0, 0⟩, 5⟩ : IPv4Subnet).Address.toNat =
      (⟨b0, b1, b2, b3⟩ : IPv4Address).toNat / 2 ^ 28 * 2 ^ 28 ∧
    (⟨⟨(b0 &&& 240) ||| 8, 0, 0, 0⟩, 5⟩ : IPv4Subnet).Address.toNat =
      (⟨b0, b1, b2, b3⟩ : IPv4Address).toNat / 2 ^ 28 * 2 ^ 28 + 2 ^ 27 := by
  refine ⟨?_, ?_, ?_, ?_, ?_⟩
  · simp only [IPv4Subnet.Split, splitMaskByte, splitNextRem, IPv4Address.modify?,
      Int.reduceToNat, Int.reduceEq, Int.reduceSub, Int.reduceAdd, Int.reducePow,
      Int.reduceMod, Nat.reduceSub, Nat.reduceShiftRight, Nat.reduceXor,
      Nat.zero_and, Nat.zero_or, reduceIte, true_and, and_true,
      ge32c0, ge8c0, gt0c0, ge32c1, ge8c1, gt0c1, ge32c2, ge8c2, gt0c2, ge32c3, ge8c3, gt0c3, ge32c4, ge8c4, gt0c4, ge32c5, ge8c5, gt0c5, ge32c6, ge8c6, gt0c6, ge32c7, ge8c7, gt0c7, ge32c8, ge8c8, gt0c8, ge32c9, ge8c9, gt0c9, ge32c10, ge8c10, gt0c10, ge32c11, ge8c11, gt0c11, ge32c12, ge8c12, gt0c12, ge32c13, ge8c13, gt0c13, ge32c14, ge8c14, gt0c14, ge32c15, ge8c15, gt0c15, ge32c16, ge8c16, gt0c16, ge32c17, ge8c17, gt0c17, ge32c18, ge8c18, gt0c18, ge32c19, ge8c19, gt0c19, ge32c20, ge8c20, gt0c20, ge32c21, ge8c21, gt0c21, ge32c22, ge8c22, gt0c22, ge32c23, ge8c23, gt0c23, ge32c24, ge8c24, gt0c24, ge32c25, ge8c25, gt0c25, ge32c26, ge8c26, gt0c26, ge32c27, ge8c27, gt0c27, ge32c28, ge8c28, gt0c28, ge32c29, ge8c29, gt0c29, ge32c30, ge8c30, gt0c30, ge32c31, ge8c31, gt0c31, lt0c0, lt0c1, lt0c2, lt0c3, lt0c4, lt0c5, lt0c6, lt0c7,
      tmodLit0, tdivLit0, tmodLit1, tdivLit1, tmodLit2, tdivLit2, tmodLit3, tdivLit3, tmodLit4, tdivLit4, tmodLit5, tdivLit5, tmodLit6, tdivLit6, tmodLit7, tdivLit7, tmodLit8, tdivLit8, tmodLit9, tdivLit9, tmodLit10, tdivLit10, tmodLit11, tdivLit11, tmodLit12, tdivLit12, tmodLit13, tdivLit13, tmodLit14, tdivLit14, tmodLit15, tdivLit15, tmodLit16, tdivLit16, tmodLit17, tdivLit17, tmodLit18, tdivLit18, tmodLit19, tdivLit19, tmodLit20, tdivLit20, tmodLit21, tdivLit21, tmodLit22, tdivLit22, tmodLit23, tdivLit23, tmodLit24, tdivLit24, tmodLit25, tdivLit25, tmodLit26, tdivLit26, tmodLit27, tdivLit27, tmodLit28, tdivLit28, tmodLit29, tdivLit29, tmodLit30, tdivLit30, tmodLit31, tdivLit31]
  all_goals
    simp only [IPv4Address.toNat, IPv4Address.Bounded, splitLoByte4, splitHiByte4, Nat.zero_and] ; omega


theorem splitStructCase5 (b0 b1 b2 b3 : Nat)
    (h0 : b0 < 256) (h1 : b1 < 256) (h2 : b2 < 256) (h3 : b3 < 256) :
    IPv4Subnet.Split ⟨⟨b0, b1, b2, b3⟩, (5:Int)⟩ =
      .ok (⟨⟨(b0 &&& 248) &&& 251, 0, 0, 0⟩, 6⟩, ⟨⟨(b0 &&& 248) ||| 4, 0, 0, 0⟩, 6⟩) ∧
    (⟨⟨(b0 &&& 248) &&& 251, 0, 0, 0⟩, 6⟩ : IPv4Subnet).Address.Bounded ∧
    (⟨⟨(b0 &&& 248) ||| 4, 0, 0, 0⟩, 6⟩ : IPv4Subnet).Address.Bounded ∧
    (⟨⟨(b0 &&& 248) &&& 251, 0, 0, 0⟩, 6⟩ : IPv4Subnet).Address.toNat =
      (⟨b0, b1, b2, b3⟩ : IPv4Address).toNat / 2 ^ 27 * 2 ^ 27 ∧
    (⟨⟨(b0 &&& 248) ||| 4, 0, 0, 0⟩, 6⟩ : IPv4Subnet).Address.toNat =
      (⟨b0, b1, b2, b3⟩ : IPv4Address).toNat / 2 ^ 27 * 2 ^ 27 + 2 ^ 26 := by
  refine ⟨?_, ?_, ?_, ?_, ?_⟩
  · simp only [IPv4Subnet.Split, splitMaskByte, splitNextRem, IPv4Address.modify?,
      Int.reduceToNat, Int.reduceEq, Int.reduceSub, Int.reduceAdd, Int.reducePow,
      Int.reduceMod, Nat.reduceSub, Nat.reduceShiftRight, Nat.reduceXor,
      Nat.zero_and, Nat.zero_or, reduceIte, true_and, and_true,
      ge32c0, ge8c0, gt0c0, ge32c1, ge8c1, gt0c1, ge32c2, ge8c2, gt0c2, ge32c3, ge8c3, gt0c3, ge32c4, ge8c4, gt0c4, ge32c5, ge8c5, gt0c5, ge32c6, ge8c6, gt0c6, ge32c7, ge8c7, gt0c7, ge32c8, ge8c8, gt0c8, ge32c9, ge8c9, gt0c9, ge32c10, ge8c10, gt0c10, ge32c11, ge8c11, gt0c11, ge32c12, ge8c12, gt0c12, ge32c13, ge8c13, gt0c13, ge32c14, ge8c14, gt0c14, ge32c15, ge8c15, gt0c15, ge32c16, ge8c16, gt0c16, ge32c17, ge8c17, gt0c17, ge32c18, ge8c18, gt0c18, ge32c19, ge8c19, gt0c19, ge32c20, ge8c20, gt0c20, ge32c21, ge8c21, gt0c21, ge32c22, ge8c22, gt0c22, ge32c23, ge8c23, gt0c23, ge32c24, ge8c24, gt0c24, ge32c25, ge8c25, gt0c25, ge32c26, ge8c26, gt0c26, ge32c27, ge8c27, gt0c27, ge32c28, ge8c28, gt0c28, ge32c29, ge8c29, gt0c29, ge32c30, ge8c30, gt0c30, ge32c31, ge8c31, gt0c31, lt0c0, lt0c1, lt0c2, lt0c3, lt0c4, lt0c5, lt0c6, lt0c7,
      tmodLit0, tdivLit0, tmodLit1, tdivLit1, tmodLit2, tdivLit2, tmodLit3, tdivLit3, tmodLit4, tdivLit4, tmodLit5, tdivLit5, tmodLit6, tdivLit6, tmodLit7, tdivLit7, tmodLit8, tdivLit8, tmodLit9, tdivLit9, tmodLit10, tdivLit10, tmodLit11, tdivLit11, tmodLit12, tdivLit12, tmodLit13, tdivLit13, tmodLit14, tdivLit14, tmodLit15, tdivLit15, tmodLit16, tdivLit16, tmodLit17, tdivLit17, tmodLit18, tdivLit18, tmodLit19, tdivLit19, tmodLit20, tdivLit20, tmodLit21, tdivLit21, tmodLit22, tdivLit22, tmodLit23, tdivLit23, tmodLit24, tdivLit24, tmodLit25, tdivLit25, tmodLit26, tdivLit26, tmodLit27, tdivLit27, tmodLit28, tdivLit28, tmodLit29, tdivLit29, tmodLit30, tdivLit30, tmodLit31, tdivLit31]
  all_goals
    simp only [IPv4Address.toNat, IPv4Address.Bounded, splitLoByte5, splitHiByte5, Nat.zero_and] ; omega


theorem splitStructCase6 (b0 b1 b2 b3 : Nat)
    (h0 : b0 < 256) (h1 : b1 < 256) (h2 : b2 < 256) (h3 : b3 < 256) :
    IPv4Subnet.Split ⟨⟨b0, b1, b2, b3⟩, (6:Int)⟩ =
      .ok (⟨⟨(b0 &&& 252) &&& 253, 0, 0, 0⟩, 7⟩, ⟨⟨(b0 &&& 252) ||| 2, 0, 0, 0⟩, 7⟩) ∧
    (⟨⟨(b0 &&& 252) &&& 253, 0, 0, 0⟩, 7⟩ : IPv4Subnet).Address.Bounded ∧
    (⟨⟨(b0 &&& 252) ||| 2, 0, 0, 0⟩, 7⟩ : IPv4Subnet).Address.Bounded ∧
    (⟨⟨(b0 &&& 252) &&& 253, 0, 0, 0⟩, 7⟩ : IPv4Subnet).Address.toNat =
      (⟨b0, b1, b2, b3⟩ : IPv4Address).toNat / 2 ^ 26 * 2 ^ 26 ∧
    (⟨⟨(b0 &&& 252) ||| 2, 0, 0, 0⟩, 7⟩ : IPv4Subnet).Address.toNat =
      (⟨b0, b1, b2, b3⟩ : IPv4Address).toNat / 2 ^ 26 * 2 ^ 26 + 2 ^ 25 := by
  refine ⟨?_, ?_, ?_, ?_, ?_⟩
  · simp only [IPv4Subnet.Split, splitMaskByte, splitNextRem, IPv4Address.modify?,
      Int.reduceToNat, Int.reduceEq, Int.reduceSub, Int.reduceAdd, Int.reducePow,
      Int.reduceMod, Nat.reduceSub, Nat.reduceShiftRight, Nat.reduceXor,
      Nat.zero_and, Nat.zero_or, reduceIte, true_and, and_true,
      ge32c0, ge8c0, gt0c0, ge32c1, ge8c1, gt0c1, ge32c2, ge8c2, gt0c2, ge32c3, ge8c3, gt0c3, ge32c4, ge8c4, gt0c4, ge32c5, ge8c5, gt0c5, ge32c6, ge8c6, gt0c6, ge32c7, ge8c7, gt0c7, ge32c8, ge8c8, gt0c8, ge32c9, ge8c9, gt0c9, ge32c10, ge8c10, gt0c10, ge32c11, ge8c11, gt0c11, ge32c12, ge8c12, gt0c12, ge32c13, ge8c13, gt0c13, ge32c14, ge8c14, gt0c14, ge32c15, ge8c15, gt0c15, ge32c16, ge8c16, gt0c16, ge32c17, ge8c17, gt0c17, ge32c18, ge8c18, gt0c18, ge32c19, ge8c19, gt0c19, ge32c20, ge8c20, gt0c20, ge32c21, ge8c21, gt0c21, ge32c22, ge8c22, gt0c22, ge32c23, ge8c23, gt0c23, ge32c24, ge8c24, gt0c24, ge32c25, ge8c25, gt0c25, ge32c26, ge8c26, gt0c26, ge32c27, ge8c27, gt0c27, ge32c28, ge8c28, gt0c28, ge32c29, ge8c29, gt0c29, ge32c30, ge8c30, gt0c30, ge32c31, ge8c31, gt0c31, lt0c0, lt0c1, lt0c2, lt0c3, lt0c4, lt0c5, lt0c6, lt0c7,
      tmodLit0, tdivLit0, tmodLit1, tdivLit1, tmodLit2, tdivLit2, tmodLit3, tdivLit3, tmodLit4, tdivLit4, tmodLit5, tdivLit5, tmodLit6, tdivLit6, tmodLit7, tdivLit7, tmodLit8, tdivLit8, tmodLit9, tdivLit9, tmodLit10, tdivLit10, tmodLit11, tdivLit11, tmodLit12, tdivLit12, tmodLit13, tdivLit13, tmodLit14, tdivLit14, tmodLit15, tdivLit15, tmodLit16, tdivLit16, tmodLit17, tdivLit17, tmodLit18, tdivLit18, tmodLit19, tdivLit19, tmodLit20, tdivLit20, tmodLit21, tdivLit21, tmodLit22, tdivLit22, tmodLit23, tdivLit23, tmodLit24, tdivLit24, tmodLit25, tdivLit25, tmodLit26, tdivLit26, tmodLit27, tdivLit27, tmodLit28, tdivLit28, tmodLit29, tdivLit29, tmodLit30, tdivLit30, tmodLit31, tdivLit31]
  all_goals
    simp only [IPv4Address.toNat, IPv4Address.Bounded, splitLoByte6, splitHiByte6, Nat.zero_and] ; omega


theorem splitStructCase7 (b0 b1 b2 b3 : Nat)
    (h0 : b0 < 256) (h1 : b1 < 256) (h2 : b2 < 256) (h3 : b3 < 256) :
    IPv4Subnet.Split ⟨⟨b0, b1, b2, b3⟩, (7:Int)⟩ =
      .ok (⟨⟨(b0 &&& 254) &&& 254, 0, 0, 0⟩, 8⟩, ⟨⟨(b0 &&& 254) ||| 1, 0, 0, 0⟩, 8⟩) ∧
    (⟨⟨(b0 &&& 254) &&& 254, 0, 0, 0⟩, 8⟩ : IPv4Subnet).Address.Bounded ∧
    (⟨⟨(b0 &&& 254) ||| 1, 0, 0, 0⟩, 8⟩ : IPv4Subnet).Address.Bounded ∧
    (⟨⟨(b0 &&& 254) &&& 254, 0, 0, 0⟩, 8⟩ : IPv4Subnet).Address.toNat =
      (⟨b0, b1, b2, b3⟩ : IPv4Address).toNat / 2 ^ 25 * 2 ^ 25 ∧
    (⟨⟨(b0 &&& 254) ||| 1, 0, 0, 0⟩, 8⟩ : IPv4Subnet).Address.toNat =
      (⟨b0, b1, b2, b3⟩ : IPv4Address).toNat / 2 ^ 25 * 2 ^ 25 + 2 ^ 24 := by
  refine ⟨?_, ?_, ?_, ?_, ?_⟩
  · simp only [IPv4Subnet.Split, splitMaskByte, splitNextRem, IPv4Address.modify?,
      Int.reduceToNat, Int.reduceEq, Int.reduceSub, Int.reduceAdd, Int.reducePow,
      Int.reduceMod, Nat.reduceSub, Nat.reduceShiftRight, Nat.reduceXor,
      Nat.zero_and, Nat.zero_or, reduceIte, true_and, and_true,
      ge32c0, ge8c0, gt0c0, ge32c1, ge8c1, gt0c1, ge32c2, ge8c2, gt0c2, ge32c3, ge8c3, gt0c3, ge32c4, ge8c4, gt0c4, ge32c5, ge8c5, gt0c5, ge32c6, ge8c6, gt0c6, ge32c7, ge8c7, gt0c7, ge32c8, ge8c8, gt0c8, ge32c9, ge8c9, gt0c9, ge32c10, ge8c10, gt0c10, ge32c11, ge8c11, gt0c11, ge32c12, ge8c12, gt0c12, ge32c13, ge8c13, gt0c13, ge32c14, ge8c14, gt0c14, ge32c15, ge8c15, gt0c15, ge32c16, ge8c16, gt0c16, ge32c17, ge8c17, gt0c17, ge32c18, ge8c18, gt0c18, ge32c19, ge8c19, gt0c19, ge32c20, ge8c20, gt0c20, ge32c21, ge8c21, gt0c21, ge32c22, ge8c22, gt0c22, ge32c23, ge8c23, gt0c23, ge32c24, ge8c24, gt0c24, ge32c25, ge8c25, gt0c25, ge32c26, ge8c26, gt0c26, ge32c27, ge8c27, gt0c27, ge32c28, ge8c28, gt0c28, ge32c29, ge8c29, gt0c29, ge32c30, ge8c30, gt0c30, ge32c31, ge8c31, gt0c31, lt0c0, lt0c1, lt0c2, lt0c3, lt0c4, lt0c5, lt0c6, lt0c7,
      tmodLit0, tdivLit0, tmodLit1, tdivLit1, tmodLit2, tdivLit2, tmodLit3, tdivLit3, tmodLit4, tdivLit4, tmodLit5, tdivLit5, tmodLit6, tdivLit6, tmodLit7, tdivLit7, tmodLit8, tdivLit8, tmodLit9, tdivLit9, tmodLit10, tdivLit10, tmodLit11, tdivLit11, tmodLit12, tdivLit12, tmodLit13, tdivLit13, tmodLit14, tdivLit14, tmodLit15, tdivLit15, tmodLit16, tdivLit16, tmodLit17, tdivLit17, tmodLit18, tdivLit18, tmodLit19, tdivLit19, tmodLit20, tdivLit20, tmodLit21, tdivLit21, tmodLit22, tdivLit22, tmodLit23, tdivLit23, tmodLit24, tdivLit24, tmodLit25, tdivLit25, tmodLit26, tdivLit26, tmodLit27, tdivLit27, tmodLit28, tdivLit28, tmodLit29, tdivLit29, tmodLit30, tdivLit30, tmodLit31, tdivLit31]
  all_goals
    simp only [IPv4Address.toNat, IPv4Address.Bounded, splitLoByte7, splitHiByte7, Nat.zero_and] ; omega


theorem splitStructCase8 (b0 b1 b2 b3 : Nat)
    (h0 : b0 < 256) (h1 : b1 < 256) (h2 : b2 < 256) (h3 : b3 < 256) :
    IPv4Subnet.Split ⟨⟨b0, b1, b2, b3⟩, (8:Int)⟩ =
      .ok (⟨⟨b0, 0, 0, 0⟩, 9⟩, ⟨⟨b0, 128, 0, 0⟩, 9⟩) ∧
    (⟨⟨b0, 0, 0, 0⟩, 9⟩ : IPv4Subnet).Address.Bounded ∧
    (⟨⟨b0, 128, 0, 0⟩, 9⟩ : IPv4Subnet).Address.Bounded ∧
    (⟨⟨b0, 0, 0, 0⟩, 9⟩ : IPv4Subnet).Address.toNat =
      (⟨b0, b1, b2, b3⟩ : IPv4Address).toNat / 2 ^ 24 * 2 ^ 24 ∧
    (⟨⟨b0, 128, 0, 0⟩, 9⟩ : IPv4Subnet).Address.toNat =
      (⟨b0, b1, b2, b3⟩ : IPv4Address).toNat / 2 ^ 24 * 2 ^ 24 + 2 ^ 23 := by
  refine ⟨?_, ?_, ?_, ?_, ?_⟩
  · simp only [IPv4Subnet.Split, splitMaskByte, splitNextRem, IPv4Address.modify?,
      Int.reduceToNat, Int.reduceEq, Int.reduceSub, Int.reduceAdd, Int.reducePow,
      Int.reduceMod, Nat.reduceSub, Nat.reduceShiftRight, Nat.reduceXor,
      Nat.zero_and, Nat.zero_or, reduceIte, true_and, and_true,
      ge32c0, ge8c0, gt0c0, ge32c1, ge8c1, gt0c1, ge32c2, ge8c2, gt0c2, ge32c3, ge8c3, gt0c3, ge32c4, ge8c4, gt0c4, ge32c5, ge8c5, gt0c5, ge32c6, ge8c6, gt0c6, ge32c7, ge8c7, gt0c7, ge32c8, ge8c8, gt0c8, ge32c9, ge8c9, gt0c9, ge32c10, ge8c10, gt0c10, ge32c11, ge8c11, gt0c11, ge32c12, ge8c12, gt0c12, ge32c13, ge8c13, gt0c13, ge32c14, ge8c14, gt0c14, ge32c15, ge8c15, gt0c15, ge32c16, ge8c16, gt0c16, ge32c17, ge8c17, gt0c17, ge32c18, ge8c18, gt0c18, ge32c19, ge8c19, gt0c19, ge32c20, ge8c20, gt0c20, ge32c21, ge8c21, gt0c21, ge32c22, ge8c22, gt0c22, ge32c23, ge8c23, gt0c23, ge32c24, ge8c24, gt0c24, ge32c25, ge8c25, gt0c25, ge32c26, ge8c26, gt0c26, ge32c27, ge8c27, gt0c27, ge32c28, ge8c28, gt0c28, ge32c29, ge8c29, gt0c29, ge32c30, ge8c30, gt0c30, ge32c31, ge8c31, gt0c31, lt0c0, lt0c1, lt0c2, lt0c3, lt0c4, lt0c5, lt0c6, lt0c7,
      tmodLit0, tdivLit0, tmodLit1, tdivLit1, tmodLit2, tdivLit2, tmodLit3, tdivLit3, tmodLit4, tdivLit4, tmodLit5, tdivLit5, tmodLit6, tdivLit6, tmodLit7, tdivLit7, tmodLit8, tdivLit8, tmodLit9, tdivLit9, tmodLit10, tdivLit10, tmodLit11, tdivLit11, tmodLit12, tdivLit12, tmodLit13, tdivLit13, tmodLit14, tdivLit14, tmodLit15, tdivLit15, tmodLit16, tdivLit16, tmodLit17, tdivLit17, tmodLit18, tdivLit18, tmodLit19, tdivLit19, tmodLit20, tdivLit20, tmodLit21, tdivLit21, tmodLit22, tdivLit22, tmodLit23, tdivLit23, tmodLit24, tdivLit24, tmodLit25, tdivLit25, tmodLit26, tdivLit26, tmodLit27, tdivLit27, tmodLit28, tdivLit28, tmodLit29, tdivLit29, tmodLit30, tdivLit30, tmodLit31, tdivLit31]
  all_goals
    simp only [IPv4Address.toNat, IPv4Address.Bounded, Nat.zero_and] ; omega


theorem splitStructCase9 (b0 b1 b2 b3 : Nat)
    (h0 : b0 < 256) (h1 : b1 < 256) (h2 : b2 < 256) (h3 : b3 < 256) :
    IPv4Subnet.Split ⟨⟨b0, b1, b2, b3⟩, (9:Int)⟩ =
      .ok (⟨⟨b0, (b1 &&& 128) &&& 191, 0, 0⟩, 10⟩, ⟨⟨b0, (b1 &&& 128) ||| 64, 0, 0⟩, 10⟩) ∧
    (⟨⟨b0, (b1 &&& 128) &&& 191, 0, 0⟩, 10⟩ : IPv4Subnet).Address.Bounded ∧
    (⟨⟨b0, (b1 &&& 128) ||| 64, 0, 0⟩, 10⟩ : IPv4Subnet).Address.Bounded ∧
    (⟨⟨b0, (b1 &&& 128) &&& 191, 0, 0⟩, 10⟩ : IPv4Subnet).Address.toNat =
      (⟨b0, b1, b2, b3⟩ : IPv4Address).toNat / 2 ^ 23 * 2 ^ 23 ∧
    (⟨⟨b0, (b1 &&& 128) ||| 64, 0, 0⟩, 10⟩ : IPv4Subnet).Address.toNat =
      (⟨b0, b1, b2, b3⟩ : IPv4Address).toNat / 2 ^ 23 * 2 ^ 23 + 2 ^ 22 := by
  refine ⟨?_, ?_, ?_, ?_, ?_⟩
  · simp only [IPv4Subnet.Split, splitMaskByte, splitNextRem, IPv4Address.modify?,
      Int.reduceToNat, Int.reduceEq, Int.reduceSub, Int.reduceAdd, Int.reducePow,
      Int.reduceMod, Nat.reduceSub, Nat.reduceShiftRight, Nat.reduceXor,
      Nat.zero_and, Nat.zero_or, reduceIte, true_and, and_true,
      ge32c0, ge8c0, gt0c0, ge32c1, ge8c1, gt0c1, ge32c2, ge8c2, gt0c2, ge32c3, ge8c3, gt0c3, ge32c4, ge8c4, gt0c4, ge32c5, ge8c5, gt0c5, ge32c6, ge8c6, gt0c6, ge32c7, ge8c7, gt0c7, ge32c8, ge8c8, gt0c8, ge32c9, ge8c9, gt0c9, ge32c10, ge8c10, gt0c10, ge32c11, ge8c11, gt0c11, ge32c12, ge8c12, gt0c12, ge32c13, ge8c13, gt0c13, ge32c14, ge8c14, gt0c14, ge32c15, ge8c15, gt0c15, ge32c16, ge8c16, gt0c16, ge32c17, ge8c17, gt0c17, ge32c18, ge8c18, gt0c18, ge32c19, ge8c19, gt0c19, ge32c20, ge8c20, gt0c20, ge32c21, ge8c21, gt0c21, ge32c22, ge8c22, gt0c22, ge32c23, ge8c23, gt0c23, ge32c24, ge8c24, gt0c24, ge32c25, ge8c25, gt0c25, ge32c26, ge8c26, gt0c26, ge32c27, ge8c27, gt0c27, ge32c28, ge8c28, gt0c28, ge32c29, ge8c29, gt0c29, ge32c30, ge8c30, gt0c30, ge32c31, ge8c31, gt0c31, lt0c0, lt0c1, lt0c2, lt0c3, lt0c4, lt0c5, lt0c6, lt0c7,
      tmodLit0, tdivLit0, tmodLit1, tdivLit1, tmodLit2, tdivLit2, tmodLit3, tdivLit3, tmodLit4, tdivLit4, tmodLit5, tdivLit5, tmodLit6, tdivLit6, tmodLit7, tdivLit7, tmodLit8, tdivLit8, tmodLit9, tdivLit9, tmodLit10, tdivLit10, tmodLit11, tdivLit11, tmodLit12, tdivLit12, tmodLit13, tdivLit13, tmodLit14, tdivLit14, tmodLit15, tdivLit15, tmodLit16, tdivLit16, tmodLit17, tdivLit17, tmodLit18, tdivLit18, tmodLit19, tdivLit19, tmodLit20, tdivLit20, tmodLit21, tdivLit21, tmodLit22, tdivLit22, tmodLit23, tdivLit23, tmodLit24, tdivLit24, tmodLit25, tdivLit25, tmodLit26, tdivLit26, tmodLit27, tdivLit27, tmodLit28, tdivLit28, tmodLit29, tdivLit29, tmodLit30, tdivLit30, tmodLit31, tdivLit31]
  all_goals
    simp only [IPv4Address.toNat, IPv4Address.Bounded, splitLoByte1, splitHiByte1, Nat.zero_and] ; omega


theorem splitStructCase10 (b0 b1 b2 b3 : Nat)
    (h0 : b0 < 256) (h1 : b1 < 256) (h2 : b2 < 256) (h3 : b3 < 256) :
    IPv4Subnet.Split ⟨⟨b0, b1, b2, b3⟩, (10:Int)⟩ =
      .ok (⟨⟨b0, (b1 &&& 192) &&& 223, 0, 0⟩, 11⟩, ⟨⟨b0, (b1 &&& 192) ||| 32, 0, 0⟩, 11⟩) ∧
    (⟨⟨b0, (b1 &&& 192) &&& 223, 0, 0⟩, 11⟩ : IPv4Subnet).Address.Bounded ∧
    (⟨⟨b0, (b1 &&& 192) ||| 32, 0, 0⟩, 11⟩ : IPv4Subnet).Address.Bounded ∧
    (⟨⟨b0, (b1 &&& 192) &&& 223, 0, 0⟩, 11⟩ : IPv4Subnet).Address.toNat =
      (⟨b0, b1, b2, b3⟩ : IPv4Address).toNat / 2 ^ 22 * 2 ^ 22 ∧
    (⟨⟨b0, (b1 &&& 192) ||| 32, 0, 0⟩, 11⟩ : IPv4Subnet).Address.toNat =
      (⟨b0, b1, b2, b3⟩ : IPv4Address).toNat / 2 ^ 22 * 2 ^ 22 + 2 ^ 21 := by
  refine ⟨?_, ?_, ?_, ?_, ?_⟩
  · simp only [IPv4Subnet.Split, splitMaskByte, splitNextRem, IPv4Address.modify?,
      Int.reduceToNat, Int.reduceEq, Int.reduceSub, Int.reduceAdd, Int.reducePow,
      Int.reduceMod, Nat.reduceSub, Nat.reduceShiftRight, Nat.reduceXor,
      Nat.zero_and, Nat.zero_or, reduceIte, true_and, and_true,
      ge32c0, ge8c0, gt0c0, ge32c1, ge8c1, gt0c1, ge32c2, ge8c2, gt0c2, ge32c3, ge8c3, gt0c3, ge32c4, ge8c4, gt0c4, ge32c5, ge8c5, gt0c5, ge32c6, ge8c6, gt0c6, ge32c7, ge8c7, gt0c7, ge32c8, ge8c8, gt0c8, ge32c9, ge8c9, gt0c9, ge32c10, ge8c10, gt0c10, ge32c11, ge8c11, gt0c11, ge32c12, ge8c12, gt0c12, ge32c13, ge8c13, gt0c13, ge32c14, ge8c14, gt0c14, ge32c15, ge8c15, gt0c15, ge32c16, ge8c16, gt0c16, ge32c17, ge8c17, gt0c17, ge32c18, ge8c18, gt0c18, ge32c19, ge8c19, gt0c19, ge32c20, ge8c20, gt0c20, ge32c21, ge8c21, gt0c21, ge32c22, ge8c22, gt0c22, ge32c23, ge8c23, gt0c23, ge32c24, ge8c24, gt0c24, ge32c25, ge8c25, gt0c25, ge32c26, ge8c26, gt0c26, ge32c27, ge8c27, gt0c27, ge32c28, ge8c28, gt0c28, ge32c29, ge8c29, gt0c29, ge32c30, ge8c30, gt0c30, ge32c31, ge8c31, gt0c31, lt0c0, lt0c1, lt0c2, lt0c3, lt0c4, lt0c5, lt0c6, lt0c7,
      tmodLit0, tdivLit0, tmodLit1, tdivLit1, tmodLit2, tdivLit2, tmodLit3, tdivLit3, tmodLit4, tdivLit4, tmodLit5, tdivLit5, tmodLit6, tdivLit6, tmodLit7, tdivLit7, tmodLit8, tdivLit8, tmodLit9, tdivLit9, tmodLit10, tdivLit10, tmodLit11, tdivLit11, tmodLit12, tdivLit12, tmodLit13, tdivLit13, tmodLit14, tdivLit14, tmodLit15, tdivLit15, tmodLit16, tdivLit16, tmodLit17, tdivLit17, tmodLit18, tdivLit18, tmodLit19, tdivLit19, tmodLit20, tdivLit20, tmodLit21, tdivLit21, tmodLit22, tdivLit22, tmodLit23, tdivLit23, tmodLit24, tdivLit24, tmodLit25, tdivLit25, tmodLit26, tdivLit26, tmodLit27, tdivLit27, tmodLit28, tdivLit28, tmodLit29, tdivLit29, tmodLit30, tdivLit30, tmodLit31, tdivLit31]
  all_goals
    simp only [IPv4Address.toNat, IPv4Address.Bounded, splitLoByte2, splitHiByte2, Nat.zero_and] ; omega


theorem splitStructCase11 (b0 b1 b2 b3 : Nat)
    (h0 : b0 < 256) (h1 : b1 < 256) (h2 : b2 < 256) (h3 : b3 < 256) :
    IPv4Subnet.Split ⟨⟨b0, b1, b2, b3⟩, (11:Int)⟩ =
      .ok (⟨⟨b0, (b1 &&& 224) &&& 239, 0, 0⟩, 12⟩, ⟨⟨b0, (b1 &&& 224) ||| 16, 0, 0⟩, 12⟩) ∧
    (⟨⟨b0, (b1 &&& 224) &&& 239, 0, 0⟩, 12⟩ : IPv4Subnet).Address.Bounded ∧
    (⟨⟨b0, (b1 &&& 224) ||| 16, 0, 0⟩, 12⟩ : IPv4Subnet).Address.Bounded ∧
    (⟨⟨b0, (b1 &&& 224) &&& 239, 0, 0⟩, 12⟩ : IPv4Subnet).Address.toNat =
      (⟨b0, b1, b2, b3⟩ : IPv4Address).toNat / 2 ^ 21 * 2 ^ 21 ∧
    (⟨⟨b0, (b1 &&& 224) ||| 16, 0, 0⟩, 12⟩ : IPv4Subnet).Address.toNat =
      (⟨b0, b1, b2, b3⟩ : IPv4Address).toNat / 2 ^ 21 * 2 ^ 21 + 2 ^ 20 := by
  refine ⟨?_, ?_, ?_, ?_, ?_⟩
  · simp only [IPv4Subnet.Split, splitMaskByte, splitNextRem, IPv4Address.modify?,
      Int.reduceToNat, Int.reduceEq, Int.reduceSub, Int.reduceAdd, Int.reducePow,
      Int.reduceMod, Nat.reduceSub, Nat.reduceShiftRight, Nat.reduceXor,
      Nat.zero_and, Nat.zero_or, reduceIte, true_and, and_true,
      ge32c0, ge8c0, gt0c0, ge32c1, ge8c1, gt0c1, ge32c2, ge8c2, gt0c2, ge32c3, ge8c3, gt0c3, ge32c4, ge8c4, gt0c4, ge32c5, ge8c5, gt0c5, ge32c6, ge8c6, gt0c6, ge32c7, ge8c7, gt0c7, ge32c8, ge8c8, gt0c8, ge32c9, ge8c9, gt0c9, ge32c10, ge8c10, gt0c10, ge32c11, ge8c11, gt0c11, ge32c12, ge8c12, gt0c12, ge32c13, ge8c13, gt0c13, ge32c14, ge8c14, gt0c14, ge32c15, ge8c15, gt0c15, ge32c16, ge8c16, gt0c16, ge32c17, ge8c17, gt0c17, ge32c18, ge8c18, gt0c18, ge32c19, ge8c19, gt0c19, ge32c20, ge8c20, gt0c20, ge32c21, ge8c21, gt0c21, ge32c22, ge8c22, gt0c22, ge32c23, ge8c23, gt0c23, ge32c24, ge8c24, gt0c24, ge32c25, ge8c25, gt0c25, ge32c26, ge8c26, gt0c26, ge32c27, ge8c27, gt0c27, ge32c28, ge8c28, gt0c28, ge32c29, ge8c29, gt0c29, ge32c30, ge8c30, gt0c30, ge32c31, ge8c31, gt0c31, lt0c0, lt0c1, lt0c2, lt0c3, lt0c4, lt0c5, lt0c6, lt0c7,
      tmodLit0, tdivLit0, tmodLit1, tdivLit1, tmodLit2, tdivLit2, tmodLit3, tdivLit3, tmodLit4, tdivLit4, tmodLit5, tdivLit5, tmodLit6, tdivLit6, tmodLit7, tdivLit7, tmodLit8, tdivLit8, tmodLit9, tdivLit9, tmodLit10, tdivLit10, tmodLit11, tdivLit11, tmodLit12, tdivLit12, tmodLit13, tdivLit13, tmodLit14, tdivLit14, tmodLit15, tdivLit15, tmodLit16, tdivLit16, tmodLit17, tdivLit17, tmodLit18, tdivLit18, tmodLit19, tdivLit19, tmodLit20, tdivLit20, tmodLit21, tdivLit21, tmodLit22, tdivLit22, tmodLit23, tdivLit23, tmodLit24, tdivLit24, tmodLit25, tdivLit25, tmodLit26, tdivLit26, tmodLit27, tdivLit27, tmodLit28, tdivLit28, tmodLit29, tdivLit29, tmodLit30, tdivLit30, tmodLit31, tdivLit31]
  all_goals
    simp only [IPv4Address.toNat, IPv4Address.Bounded, splitLoByte3, splitHiByte3, Nat.zero_and] ; omega


theorem splitStructCase12 (b0 b1 b2 b3 : Nat)
    (h0 : b0 < 256) (h1 : b1 < 256) (h2 : b2 < 256) (h3 : b3 < 256) :
    IPv4Subnet.Split ⟨⟨b0, b1, b2, b3⟩, (12:Int)⟩ =
      .ok (⟨⟨b0, (b1 &&& 240) &&& 247, 0, 0⟩, 13⟩, ⟨⟨b0, (b1 &&& 240) ||| 8, 0, 0⟩, 13⟩) ∧
    (⟨⟨b0, (b1 &&& 240) &&& 247, 0, 0⟩, 13⟩ : IPv4Subnet).Address.Bounded ∧
    (⟨⟨b0, (b1 &&& 240) ||| 8, 0, 0⟩, 13⟩ : IPv4Subnet).Address.Bounded ∧
    (⟨⟨b0, (b1 &&& 240) &&& 247, 0, 0⟩, 13⟩ : IPv4Subnet).Address.toNat =
      (⟨b0, b1, b2, b3⟩ : IPv4Address).toNat / 2 ^ 20 * 2 ^ 20 ∧
    (⟨⟨b0, (b1 &&& 240) ||| 8, 0, 0⟩, 13⟩ : IPv4Subnet).Address.toNat =
      (⟨b0, b1, b2, b3⟩ : IPv4Address).toNat / 2 ^ 20 * 2 ^ 20 + 2 ^ 19 := by
  refine ⟨?_, ?_, ?_, ?_, ?_⟩
  · simp only [IPv4Subnet.Split, splitMaskByte, splitNextRem, IPv4Address.modify?,
      Int.reduceToNat, Int.reduceEq, Int.reduceSub, Int.reduceAdd, Int.reducePow,
      Int.reduceMod, Nat.reduceSub, Nat.reduceShiftRight, Nat.reduceXor,
      Nat.zero_and, Nat.zero_or, reduceIte, true_and, and_true,
      ge32c0, ge8c0, gt0c0, ge32c1, ge8c1, gt0c1, ge32c2, ge8c2, gt0c2, ge32c3, ge8c3, gt0c3, ge32c4, ge8c4, gt0c4, ge32c5, ge8c5, gt0c5, ge32c6, ge8c6, gt0c6, ge32c7, ge8c7, gt0c7, ge32c8, ge8c8, gt0c8, ge32c9, ge8c9, gt0c9, ge32c10, ge8c10, gt0c10, ge32c11, ge8c11, gt0c11, ge32c12, ge8c12, gt0c12, ge32c13, ge8c13, gt0c13, ge32c14, ge8c14, gt0c14, ge32c15, ge8c15, gt0c15, ge32c16, ge8c16, gt0c16, ge32c17, ge8c17, gt0c17, ge32c18, ge8c18, gt0c18, ge32c19, ge8c19, gt0c19, ge32c20, ge8c20, gt0c20, ge32c21, ge8c21, gt0c21, ge32c22, ge8c22, gt0c22, ge32c23, ge8c23, gt0c23, ge32c24, ge8c24, gt0c24, ge32c25, ge8c25, gt0c25, ge32c26, ge8c26, gt0c26, ge32c27, ge8c27, gt0c27, ge32c28, ge8c28, gt0c28, ge32c29, ge8c29, gt0c29, ge32c30, ge8c30, gt0c30, ge32c31, ge8c31, gt0c31, lt0c0, lt0c1, lt0c2, lt0c3, lt0c4, lt0c5, lt0c6, lt0c7,
      tmodLit0, tdivLit0, tmodLit1, tdivLit1, tmodLit2, tdivLit2, tmodLit3, tdivLit3, tmodLit4, tdivLit4, tmodLit5, tdivLit5, tmodLit6, tdivLit6, tmodLit7, tdivLit7, tmodLit8, tdivLit8, tmodLit9, tdivLit9, tmodLit10, tdivLit10, tmodLit11, tdivLit11, tmodLit12, tdivLit12, tmodLit13, tdivLit13, tmodLit14, tdivLit14, tmodLit15, tdivLit15, tmodLit16, tdivLit16, tmodLit17, tdivLit17, tmodLit18, tdivLit18, tmodLit19, tdivLit19, tmodLit20, tdivLit20, tmodLit21, tdivLit21, tmodLit22, tdivLit22, tmodLit23, tdivLit23, tmodLit24, tdivLit24, tmodLit25, tdivLit25, tmodLit26, tdivLit26, tmodLit27, tdivLit27, tmodLit28, tdivLit28, tmodLit29, tdivLit29, tmodLit30, tdivLit30, tmodLit31, tdivLit31]
  all_goals
    simp only [IPv4Address.toNat, IPv4Address.Bounded, splitLoByte4, splitHiByte4, Nat.zero_and] ; omega


theorem splitStructCase13 (b0 b1 b2 b3 : Nat)
    (h0 : b0 < 256) (h1 : b1 < 256) (h2 : b2 < 256) (h3 : b3 < 256) :
    IPv4Subnet.Split ⟨⟨b0, b1, b2, b3⟩, (13:Int)⟩ =
      .ok (⟨⟨b0, (b1 &&& 248) &&& 251, 0, 0⟩, 14⟩, ⟨⟨b0, (b1 &&& 248) ||| 4, 0, 0⟩, 14⟩) ∧
    (⟨⟨b0, (b1 &&& 248) &&& 251, 0, 0⟩, 14⟩ : IPv4Subnet).Address.Bounded ∧
    (⟨⟨b0, (b1 &&& 248) ||| 4, 0, 0⟩, 14⟩ : IPv4Subnet).Address.Bounded ∧
    (⟨⟨b0, (b1 &&& 248) &&& 251, 0, 0⟩, 14⟩ : IPv4Subnet).Address.toNat =
      (⟨b0, b1, b2, b3⟩ : IPv4Address).toNat / 2 ^ 19 * 2 ^ 19 ∧
    (⟨⟨b0, (b1 &&& 248) ||| 4, 0, 0⟩, 14⟩ : IPv4Subnet).Address.toNat =
      (⟨b0, b1, b2, b3⟩ : IPv4Address).toNat / 2 ^ 19 * 2 ^ 19 + 2 ^ 18 := by
  refine ⟨?_, ?_, ?_, ?_, ?_⟩
  · simp only [IPv4Subnet.Split, splitMaskByte, splitNextRem, IPv4Address.modify?,
      Int.reduceToNat, Int.reduceEq, Int.reduceSub, Int.reduceAdd, Int.reducePow,
      Int.reduceMod, Nat.reduceSub, Nat.reduceShiftRight, Nat.reduceXor,
      Nat.zero_and, Nat.zero_or, reduceIte, true_and, and_true,
      ge32c0, ge8c0, gt0c0, ge32c1, ge8c1, gt0c1, ge32c2, ge8c2, gt0c2, ge32c3, ge8c3, gt0c3, ge32c4, ge8c4, gt0c4, ge32c5, ge8c5, gt0c5, ge32c6, ge8c6, gt0c6, ge32c7, ge8c7, gt0c7, ge32c8, ge8c8, gt0c8, ge32c9, ge8c9, gt0c9, ge32c10, ge8c10, gt0c10, ge32c11, ge8c11, gt0c11, ge32c12, ge8c12, gt0c12, ge32c13, ge8c13, gt0c13, ge32c14, ge8c14, gt0c14, ge32c15, ge8c15, gt0c15, ge32c16, ge8c16, gt0c16, ge32c17, ge8c17, gt0c17, ge32c18, ge8c18, gt0c18, ge32c19, ge8c19, gt0c19, ge32c20, ge8c20, gt0c20, ge32c21, ge8c21, gt0c21, ge32c22, ge8c22, gt0c22, ge32c23, ge8c23, gt0c23, ge32c24, ge8c24, gt0c24, ge32c25, ge8c25, gt0c25, ge32c26, ge8c26, gt0c26, ge32c27, ge8c27, gt0c27, ge32c28, ge8c28, gt0c28, ge32c29, ge8c29, gt0c29, ge32c30, ge8c30, gt0c30, ge32c31, ge8c31, gt0c31, lt0c0, lt0c1, lt0c2, lt0c3, lt0c4, lt0c5, lt0c6, lt0c7,
      tmodLit0, tdivLit0, tmodLit1, tdivLit1, tmodLit2, tdivLit2, tmodLit3, tdivLit3, tmodLit4, tdivLit4, tmodLit5, tdivLit5, tmodLit6, tdivLit6, tmodLit7, tdivLit7, tmodLit8, tdivLit8, tmodLit9, tdivLit9, tmodLit10, tdivLit10, tmodLit11, tdivLit11, tmodLit12, tdivLit12, tmodLit13, tdivLit13, tmodLit14, tdivLit14, tmodLit15, tdivLit15, tmodLit16, tdivLit16, tmodLit17, tdivLit17, tmodLit18, tdivLit18, tmodLit19, tdivLit19, tmodLit20, tdivLit20, tmodLit21, tdivLit21, tmodLit22, tdivLit22, tmodLit23, tdivLit23, tmodLit24, tdivLit24, tmodLit25, tdivLit25, tmodLit26, tdivLit26, tmodLit27, tdivLit27, tmodLit28, tdivLit28, tmodLit29, tdivLit29, tmodLit30, tdivLit30, tmodLit31, tdivLit31]
  all_goals
    simp only [IPv4Address.toNat, IPv4Address.Bounded, splitLoByte5, splitHiByte5, Nat.zero_and] ; omega


theorem splitStructCase14 (b0 b1 b2 b3 : Nat)
    (h0 : b0 < 256) (h1 : b1 < 256) (h2 : b2 < 256) (h3 : b3 < 256) :
    IPv4Subnet.Split ⟨⟨b0, b1, b2, b3⟩, (14:Int)⟩ =
      .ok (⟨⟨b0, (b1 &&& 252) &&& 253, 0, 0⟩, 15⟩, ⟨⟨b0, (b1 &&& 252) ||| 2, 0, 0⟩, 15⟩) ∧
    (⟨⟨b0, (b1 &&& 252) &&& 253, 0, 0⟩, 15⟩ : IPv4Subnet).Address.Bounded ∧
    (⟨⟨b0, (b1 &&& 252) ||| 2, 0, 0⟩, 15⟩ : IPv4Subnet).Address.Bounded ∧
    (⟨⟨b0, (b1 &&& 252) &&& 253, 0, 0⟩, 15⟩ : IPv4Subnet).Address.toNat =
      (⟨b0, b1, b2, b3⟩ : IPv4Address).toNat / 2 ^ 18 * 2 ^ 18 ∧
    (⟨⟨b0, (b1 &&& 252) ||| 2, 0, 0⟩, 15⟩ : IPv4Subnet).Address.toNat =
      (⟨b0, b1, b2, b3⟩ : IPv4Address).toNat / 2 ^ 18 * 2 ^ 18 + 2 ^ 17 := by
  refine ⟨?_, ?_, ?_, ?_, ?_⟩
  · simp only [IPv4Subnet.Split, splitMaskByte, splitNextRem, IPv4Address.modify?,
      Int.reduceToNat, Int.reduceEq, Int.reduceSub, Int.reduceAdd, Int.reducePow,
      Int.reduceMod, Nat.reduceSub, Nat.reduceShiftRight, Nat.reduceXor,
      Nat.zero_and, Nat.zero_or, reduceIte, true_and, and_true,
      ge32c0, ge8c0, gt0c0, ge32c1, ge8c1, gt0c1, ge32c2, ge8c2, gt0c2, ge32c3, ge8c3, gt0c3, ge32c4, ge8c4, gt0c4, ge32c5, ge8c5, gt0c5, ge32c6, ge8c6, gt0c6, ge32c7, ge8c7, gt0c7, ge32c8, ge8c8, gt0c8, ge32c9, ge8c9, gt0c9, ge32c10, ge8c10, gt0c10, ge32c11, ge8c11, gt0c11, ge32c12, ge8c12, gt0c12, ge32c13, ge8c13, gt0c13, ge32c14, ge8c14, gt0c14, ge32c15, ge8c15, gt0c15, ge32c16, ge8c16, gt0c16, ge32c17, ge8c17, gt0c17, ge32c18, ge8c18, gt0c18, ge32c19, ge8c19, gt0c19, ge32c20, ge8c20, gt0c20, ge32c21, ge8c21, gt0c21, ge32c22, ge8c22, gt0c22, ge32c23, ge8c23, gt0c23, ge32c24, ge8c24, gt0c24, ge32c25, ge8c25, gt0c25, ge32c26, ge8c26, gt0c26, ge32c27, ge8c27, gt0c27, ge32c28, ge8c28, gt0c28, ge32c29, ge8c29, gt0c29, ge32c30, ge8c30, gt0c30, ge32c31, ge8c31, gt0c31, lt0c0, lt0c1, lt0c2, lt0c3, lt0c4, lt0c5, lt0c6, lt0c7,
      tmodLit0, tdivLit0, tmodLit1, tdivLit1, tmodLit2, tdivLit2, tmodLit3, tdivLit3, tmodLit4, tdivLit4, tmodLit5, tdivLit5, tmodLit6, tdivLit6, tmodLit7, tdivLit7, tmodLit8, tdivLit8, tmodLit9, tdivLit9, tmodLit10, tdivLit10, tmodLit11, tdivLit11, tmodLit12, tdivLit12, tmodLit13, tdivLit13, tmodLit14, tdivLit14, tmodLit15, tdivLit15, tmodLit16, tdivLit16, tmodLit17, tdivLit17, tmodLit18, tdivLit18, tmodLit19, tdivLit19, tmodLit20, tdivLit20, tmodLit21, tdivLit21, tmodLit22, tdivLit22, tmodLit23, tdivLit23, tmodLit24, tdivLit24, tmodLit25, tdivLit25, tmodLit26, tdivLit26, tmodLit27, tdivLit27, tmodLit28, tdivLit28, tmodLit29, tdivLit29, tmodLit30, tdivLit30, tmodLit31, tdivLit31]
  all_goals
    simp only [IPv4Address.toNat, IPv4Address.Bounded, splitLoByte6, splitHiByte6, Nat.zero_and] ; omega


theorem splitStructCase15 (b0 b1 b2 b3 : Nat)
    (h0 : b0 < 256) (h1 : b1 < 256) (h2 : b2 < 256) (h3 : b3 < 256) :
    IPv4Subnet.Split ⟨⟨b0, b1, b2, b3⟩, (15:Int)⟩ =
      .ok (⟨⟨b0, (b1 &&& 254) &&& 254, 0, 0⟩, 16⟩, ⟨⟨b0, (b1 &&& 254) ||| 1, 0, 0⟩, 16⟩) ∧
    (⟨⟨b0, (b1 &&& 254) &&& 254, 0, 0⟩, 16⟩ : IPv4Subnet).Address.Bounded ∧
    (⟨⟨b0, (b1 &&& 254) ||| 1, 0, 0⟩, 16⟩ : IPv4Subnet).Address.Bounded ∧
    (⟨⟨b0, (b1 &&& 254) &&& 254, 0, 0⟩, 16⟩ : IPv4Subnet).Address.toNat =
      (⟨b0, b1, b2, b3⟩ : IPv4Address).toNat / 2 ^ 17 * 2 ^ 17 ∧
    (⟨⟨b0, (b1 &&& 254) ||| 1, 0, 0⟩, 16⟩ : IPv4Subnet).Address.toNat =
      (⟨b0, b1, b2, b3⟩ : IPv4Address).toNat / 2 ^ 17 * 2 ^ 17 + 2 ^ 16 := by
  refine ⟨?_, ?_, ?_, ?_, ?_⟩
  · simp only [IPv4Subnet.Split, splitMaskByte, splitNextRem, IPv4Address.modify?,
      Int.reduceToNat, Int.reduceEq, Int.reduceSub, Int.reduceAdd, Int.reducePow,
      Int.reduceMod, Nat.reduceSub, Nat.reduceShiftRight, Nat.reduceXor,
      Nat.zero_and, Nat.zero_or, reduceIte, true_and, and_true,
      ge32c0, ge8c0, gt0c0, ge32c1, ge8c1, gt0c1, ge32c2, ge8c2, gt0c2, ge32c3, ge8c3, gt0c3, ge32c4, ge8c4, gt0c4, ge32c5, ge8c5, gt0c5, ge32c6, ge8c6, gt0c6, ge32c7, ge8c7, gt0c7, ge32c8, ge8c8, gt0c8, ge32c9, ge8c9, gt0c9, ge32c10, ge8c10, gt0c10, ge32c11, ge8c11, gt0c11, ge32c12, ge8c12, gt0c12, ge32c13, ge8c13, gt0c13, ge32c14, ge8c14, gt0c14, ge32c15, ge8c15, gt0c15, ge32c16, ge8c16, gt0c16, ge32c17, ge8c17, gt0c17, ge32c18, ge8c18, gt0c18, ge32c19, ge8c19, gt0c19, ge32c20, ge8c20, gt0c20, ge32c21, ge8c21, gt0c21, ge32c22, ge8c22, gt0c22, ge32c23, ge8c23, gt0c23, ge32c24, ge8c24, gt0c24, ge32c25, ge8c25, gt0c25, ge32c26, ge8c26, gt0c26, ge32c27, ge8c27, gt0c27, ge32c28, ge8c28, gt0c28, ge32c29, ge8c29, gt0c29, ge32c30, ge8c30, gt0c30, ge32c31, ge8c31, gt0c31, lt0c0, lt0c1, lt0c2, lt0c3, lt0c4, lt0c5, lt0c6, lt0c7,
      tmodLit0, tdivLit0, tmodLit1, tdivLit1, tmodLit2, tdivLit2, tmodLit3, tdivLit3, tmodLit4, tdivLit4, tmodLit5, tdivLit5, tmodLit6, tdivLit6, tmodLit7, tdivLit7, tmodLit8, tdivLit8, tmodLit9, tdivLit9, tmodLit10, tdivLit10, tmodLit11, tdivLit11, tmodLit12, tdivLit12, tmodLit13, tdivLit13, tmodLit14, tdivLit14, tmodLit15, tdivLit15, tmodLit16, tdivLit16, tmodLit17, tdivLit17, tmodLit18, tdivLit18, tmodLit19, tdivLit19, tmodLit20, tdivLit20, tmodLit21, tdivLit21, tmodLit22, tdivLit22, tmodLit23, tdivLit23, tmodLit24, tdivLit24, tmodLit25, tdivLit25, tmodLit26, tdivLit26, tmodLit27, tdivLit27, tmodLit28, tdivLit28, tmodLit29, tdivLit29, tmodLit30, tdivLit30, tmodLit31, tdivLit31]
  all_goals
    simp only [IPv4Address.toNat, IPv4Address.Bounded, splitLoByte7, splitHiByte7, Nat.zero_and] ; omega


theorem splitStructCase16 (b0 b1 b2 b3 : Nat)
    (h0 : b0 < 256) (h1 : b1 < 256) (h2 : b2 < 256) (h3 : b3 < 256) :
    IPv4Subnet.Split ⟨⟨b0, b1, b2, b3⟩, (16:Int)⟩ =
      .ok (⟨⟨b0, b1, 0, 0⟩, 17⟩, ⟨⟨b0, b1, 128, 0⟩, 17⟩) ∧
    (⟨⟨b0, b1, 0, 0⟩, 17⟩ : IPv4Subnet).Address.Bounded ∧
    (⟨⟨b0, b1, 128, 0⟩, 17⟩ : IPv4Subnet).Address.Bounded ∧
    (⟨⟨b0, b1, 0, 0⟩, 17⟩ : IPv4Subnet).Address.toNat =
      (⟨b0, b1, b2, b3⟩ : IPv4Address).toNat / 2 ^ 16 * 2 ^ 16 ∧
    (⟨⟨b0, b1, 128, 0⟩, 17⟩ : IPv4Subnet).Address.toNat =
      (⟨b0, b1, b2, b3⟩ : IPv4Address).toNat / 2 ^ 16 * 2 ^ 16 + 2 ^ 15 := by
  refine ⟨?_, ?_, ?_, ?_, ?_⟩
  · simp only [IPv4Subnet.Split, splitMaskByte, splitNextRem, IPv4Address.modify?,
      Int.reduceToNat, Int.reduceEq, Int.reduceSub, Int.reduceAdd, Int.reducePow,
      Int.reduceMod, Nat.reduceSub, Nat.reduceShiftRight, Nat.reduceXor,
      Nat.zero_and, Nat.zero_or, reduceIte, true_and, and_true,
      ge32c0, ge8c0, gt0c0, ge32c1, ge8c1, gt0c1, ge32c2, ge8c2, gt0c2, ge32c3, ge8c3, gt0c3, ge32c4, ge8c4, gt0c4, ge32c5, ge8c5, gt0c5, ge32c6, ge8c6, gt0c6, ge32c7, ge8c7, gt0c7, ge32c8, ge8c8, gt0c8, ge32c9, ge8c9, gt0c9, ge32c10, ge8c10, gt0c10, ge32c11, ge8c11, gt0c11, ge32c12, ge8c12, gt0c12, ge32c13, ge8c13, gt0c13, ge32c14, ge8c14, gt0c14, ge32c15, ge8c15, gt0c15, ge32c16, ge8c16, gt0c16, ge32c17, ge8c17, gt0c17, ge32c18, ge8c18, gt0c18, ge32c19, ge8c19, gt0c19, ge32c20, ge8c20, gt0c20, ge32c21, ge8c21, gt0c21, ge32c22, ge8c22, gt0c22, ge32c23, ge8c23, gt0c23, ge32c24, ge8c24, gt0c24, ge32c25, ge8c25, gt0c25, ge32c26, ge8c26, gt0c26, ge32c27, ge8c27, gt0c27, ge32c28, ge8c28, gt0c28, ge32c29, ge8c29, gt0c29, ge32c30, ge8c30, gt0c30, ge32c31, ge8c31, gt0c31, lt0c0, lt0c1, lt0c2, lt0c3, lt0c4, lt0c5, lt0c6, lt0c7,
      tmodLit0, tdivLit0, tmodLit1, tdivLit1, tmodLit2, tdivLit2, tmodLit3, tdivLit3, tmodLit4, tdivLit4, tmodLit5, tdivLit5, tmodLit6, tdivLit6, tmodLit7, tdivLit7, tmodLit8, tdivLit8, tmodLit9, tdivLit9, tmodLit10, tdivLit10, tmodLit11, tdivLit11, tmodLit12, tdivLit12, tmodLit13, tdivLit13, tmodLit14, tdivLit14, tmodLit15, tdivLit15, tmodLit16, tdivLit16, tmodLit17, tdivLit17, tmodLit18, tdivLit18, tmodLit19, tdivLit19, tmodLit20, tdivLit20, tmodLit21, tdivLit21, tmodLit22, tdivLit22, tmodLit23, tdivLit23, tmodLit24, tdivLit24, tmodLit25, tdivLit25, tmodLit26, tdivLit26, tmodLit27, tdivLit27, tmodLit28, tdivLit28, tmodLit29, tdivLit29, tmodLit30, tdivLit30, tmodLit31, tdivLit31]
  all_goals
    simp only [IPv4Address.toNat, IPv4Address.Bounded, Nat.zero_and] ; omega


theorem splitStructCase17 (b0 b1 b2 b3 : Nat)
    (h0 : b0 < 256) (h1 : b1 < 256) (h2 : b2 < 256) (h3 : b3 < 256) :
    IPv4Subnet.Split ⟨⟨b0, b1, b2, b3⟩, (17:Int)⟩ =
      .ok (⟨⟨b0, b1, (b2 &&& 128) &&& 191, 0⟩, 18⟩, ⟨⟨b0, b1, (b2 &&& 128) ||| 64, 0⟩, 18⟩) ∧
    (⟨⟨b0, b1, (b2 &&& 128) &&& 191, 0⟩, 18⟩ : IPv4Subnet).Address.Bounded ∧
    (⟨⟨b0, b1, (b2 &&& 128) ||| 64, 0⟩, 18⟩ : IPv4Subnet).Address.Bounded ∧
    (⟨⟨b0, b1, (b2 &&& 128) &&& 191, 0⟩, 18⟩ : IPv4Subnet).Address.toNat =
      (⟨b0, b1, b2, b3⟩ : IPv4Address).toNat / 2 ^ 15 * 2 ^ 15 ∧
    (⟨⟨b0, b1, (b2 &&& 128) ||| 64, 0⟩, 18⟩ : IPv4Subnet).Address.toNat =
      (⟨b0, b1, b2, b3⟩ : IPv4Address).toNat / 2 ^ 15 * 2 ^ 15 + 2 ^ 14 := by
  refine ⟨?_, ?_, ?_, ?_, ?_⟩
  · simp only [IPv4Subnet.Split, splitMaskByte, splitNextRem, IPv4Address.modify?,
      Int.reduceToNat, Int.reduceEq, Int.reduceSub, Int.reduceAdd, Int.reducePow,
      Int.reduceMod, Nat.reduceSub, Nat.reduceShiftRight, Nat.reduceXor,
      Nat.zero_and, Nat.zero_or, reduceIte, true_and, and_true,
      ge32c0, ge8c0, gt0c0, ge32c1, ge8c1, gt0c1, ge32c2, ge8c2, gt0c2, ge32c3, ge8c3, gt0c3, ge32c4, ge8c4, gt0c4, ge32c5, ge8c5, gt0c5, ge32c6, ge8c6, gt0c6, ge32c7, ge8c7, gt0c7, ge32c8, ge8c8, gt0c8, ge32c9, ge8c9, gt0c9, ge32c10, ge8c10, gt0c10, ge32c11, ge8c11, gt0c11, ge32c12, ge8c12, gt0c12, ge32c13, ge8c13, gt0c13, ge32c14, ge8c14, gt0c14, ge32c15, ge8c15, gt0c15, ge32c16, ge8c16, gt0c16, ge32c17, ge8c17, gt0c17, ge32c18, ge8c18, gt0c18, ge32c19, ge8c19, gt0c19, ge32c20, ge8c20, gt0c20, ge32c21, ge8c21, gt0c21, ge32c22, ge8c22, gt0c22, ge32c23, ge8c23, gt0c23, ge32c24, ge8c24, gt0c24, ge32c25, ge8c25, gt0c25, ge32c26, ge8c26, gt0c26, ge32c27, ge8c27, gt0c27, ge32c28, ge8c28, gt0c28, ge32c29, ge8c29, gt0c29, ge32c30, ge8c30, gt0c30, ge32c31, ge8c31, gt0c31, lt0c0, lt0c1, lt0c2, lt0c3, lt0c4, lt0c5, lt0c6, lt0c7,
      tmodLit0, tdivLit0, tmodLit1, tdivLit1, tmodLit2, tdivLit2, tmodLit3, tdivLit3, tmodLit4, tdivLit4, tmodLit5, tdivLit5, tmodLit6, tdivLit6, tmodLit7, tdivLit7, tmodLit8, tdivLit8, tmodLit9, tdivLit9, tmodLit10, tdivLit10, tmodLit11, tdivLit11, tmodLit12, tdivLit12, tmodLit13, tdivLit13, tmodLit14, tdivLit14, tmodLit15, tdivLit15, tmodLit16, tdivLit16, tmodLit17, tdivLit17, tmodLit18, tdivLit18, tmodLit19, tdivLit19, tmodLit20, tdivLit20, tmodLit21, tdivLit21, tmodLit22, tdivLit22, tmodLit23, tdivLit23, tmodLit24, tdivLit24, tmodLit25, tdivLit25, tmodLit26, tdivLit26, tmodLit27, tdivLit27, tmodLit28, tdivLit28, tmodLit29, tdivLit29, tmodLit30, tdivLit30, tmodLit31, tdivLit31]
  all_goals
    simp only [IPv4Address.toNat, IPv4Address.Bounded, splitLoByte1, splitHiByte1, Nat.zero_and] ; omega


theorem splitStructCase18 (b0 b1 b2 b3 : Nat)
    (h0 : b0 < 256) (h1 : b1 < 256) (h2 : b2 < 256) (h3 : b3 < 256) :
    IPv4Subnet.Split ⟨⟨b0, b1, b2, b3⟩, (18:Int)⟩ =
      .ok (⟨⟨b0, b1, (b2 &&& 192) &&& 223, 0⟩, 19⟩, ⟨⟨b0, b1, (b2 &&& 192) ||| 32, 0⟩, 19⟩) ∧
    (⟨⟨b0, b1, (b2 &&& 192) &&& 223, 0⟩, 19⟩ : IPv4Subnet).Address.Bounded ∧
    (⟨⟨b0, b1, (b2 &&& 192) ||| 32, 0⟩, 19⟩ : IPv4Subnet).Address.Bounded ∧
    (⟨⟨b0, b1, (b2 &&& 192) &&& 223, 0⟩, 19⟩ : IPv4Subnet).Address.toNat =
      (⟨b0, b1, b2, b3⟩ : IPv4Address).toNat / 2 ^ 14 * 2 ^ 14 ∧
    (⟨⟨b0, b1, (b2 &&& 192) ||| 32, 0⟩, 19⟩ : IPv4Subnet).Address.toNat =
      (⟨b0, b1, b2, b3⟩ : IPv4Address).toNat / 2 ^ 14 * 2 ^ 14 + 2 ^ 13 := by
  refine ⟨?_, ?_, ?_, ?_, ?_⟩
  · simp only [IPv4Subnet.Split, splitMaskByte, splitNextRem, IPv4Address.modify?,
      Int.reduceToNat, Int.reduceEq, Int.reduceSub, Int.reduceAdd, Int.reducePow,
      Int.reduceMod, Nat.reduceSub, Nat.reduceShiftRight, Nat.reduceXor,
      Nat.zero_and, Nat.zero_or, reduceIte, true_and, and_true,
      ge32c0, ge8c0, gt0c0, ge32c1, ge8c1, gt0c1, ge32c2, ge8c2, gt0c2, ge32c3, ge8c3, gt0c3, ge32c4, ge8c4, gt0c4, ge32c5, ge8c5, gt0c5, ge32c6, ge8c6, gt0c6, ge32c7, ge8c7, gt0c7, ge32c8, ge8c8, gt0c8, ge32c9, ge8c9, gt0c9, ge32c10, ge8c10, gt0c10, ge32c11, ge8c11, gt0c11, ge32c12, ge8c12, gt0c12, ge32c13, ge8c13, gt0c13, ge32c14, ge8c14, gt0c14, ge32c15, ge8c15, gt0c15, ge32c16, ge8c16, gt0c16, ge32c17, ge8c17, gt0c17, ge32c18, ge8c18, gt0c18, ge32c19, ge8c19, gt0c19, ge32c20, ge8c20, gt0c20, ge32c21, ge8c21, gt0c21, ge32c22, ge8c22, gt0c22, ge32c23, ge8c23, gt0c23, ge32c24, ge8c24, gt0c24, ge32c25, ge8c25, gt0c25, ge32c26, ge8c26, gt0c26, ge32c27, ge8c27, gt0c27, ge32c28, ge8c28, gt0c28, ge32c29, ge8c29, gt0c29, ge32c30, ge8c30, gt0c30, ge32c31, ge8c31, gt0c31, lt0c0, lt0c1, lt0c2, lt0c3, lt0c4, lt0c5, lt0c6, lt0c7,
      tmodLit0, tdivLit0, tmodLit1, tdivLit1, tmodLit2, tdivLit2, tmodLit3, tdivLit3, tmodLit4, tdivLit4, tmodLit5, tdivLit5, tmodLit6, tdivLit6, tmodLit7, tdivLit7, tmodLit8, tdivLit8, tmodLit9, tdivLit9, tmodLit10, tdivLit10, tmodLit11, tdivLit11, tmodLit12, tdivLit12, tmodLit13, tdivLit13, tmodLit14, tdivLit14, tmodLit15, tdivLit15, tmodLit16, tdivLit16, tmodLit17, tdivLit17, tmodLit18, tdivLit18, tmodLit19, tdivLit19, tmodLit20, tdivLit20, tmodLit21, tdivLit21, tmodLit22, tdivLit22, tmodLit23, tdivLit23, tmodLit24, tdivLit24, tmodLit25, tdivLit25, tmodLit26, tdivLit26, tmodLit27, tdivLit27, tmodLit28, tdivLit28, tmodLit29, tdivLit29, tmodLit30, tdivLit30, tmodLit31, tdivLit31]
  all_goals
    simp only [IPv4Address.toNat, IPv4Address.Bounded, splitLoByte2, splitHiByte2, Nat.zero_and] ; omega


theorem splitStructCase19 (b0 b1 b2 b3 : Nat)
    (h0 : b0 < 256) (h1 : b1 < 256) (h2 : b2 < 256) (h3 : b3 < 256) :
    IPv4Subnet.Split ⟨⟨b0, b1, b2, b3⟩, (19:Int)⟩ =
      .ok (⟨⟨b0, b1, (b2 &&& 224) &&& 239, 0⟩, 20⟩, ⟨⟨b0, b1, (b2 &&& 224) ||| 16, 0⟩, 20⟩) ∧
    (⟨⟨b0, b1, (b2 &&& 224) &&& 239, 0⟩, 20⟩ : IPv4Subnet).Address.Bounded ∧
    (⟨⟨b0, b1, (b2 &&& 224) ||| 16, 0⟩, 20⟩ : IPv4Subnet).Address.Bounded ∧
    (⟨⟨b0, b1, (b2 &&& 224) &&& 239, 0⟩, 20⟩ : IPv4Subnet).Address.toNat =
      (⟨b0, b1, b2, b3⟩ : IPv4Address).toNat / 2 ^ 13 * 2 ^ 13 ∧
    (⟨⟨b0, b1, (b2 &&& 224) ||| 16, 0⟩, 20⟩ : IPv4Subnet).Address.toNat =
      (⟨b0, b1, b2, b3⟩ : IPv4Address).toNat / 2 ^ 13 * 2 ^ 13 + 2 ^ 12 := by
  refine ⟨?_, ?_, ?_, ?_, ?_⟩
  · simp only [IPv4Subnet.Split, splitMaskByte, splitNextRem, IPv4Address.modify?,
      Int.reduceToNat, Int.reduceEq, Int.reduceSub, Int.reduceAdd, Int.reducePow,
      Int.reduceMod, Nat.reduceSub, Nat.reduceShiftRight, Nat.reduceXor,
      Nat.zero_and, Nat.zero_or, reduceIte, true_and, and_true,
      ge32c0, ge8c0, gt0c0, ge32c1, ge8c1, gt0c1, ge32c2, ge8c2, gt0c2, ge32c3, ge8c3, gt0c3, ge32c4, ge8c4, gt0c4, ge32c5, ge8c5, gt0c5, ge32c6, ge8c6, gt0c6, ge32c7, ge8c7, gt0c7, ge32c8, ge8c8, gt0c8, ge32c9, ge8c9, gt0c9, ge32c10, ge8c10, gt0c10, ge32c11, ge8c11, gt0c11, ge32c12, ge8c12, gt0c12, ge32c13, ge8c13, gt0c13, ge32c14, ge8c14, gt0c14, ge32c15, ge8c15, gt0c15, ge32c16, ge8c16, gt0c16, ge32c17, ge8c17, gt0c17, ge32c18, ge8c18, gt0c18, ge32c19, ge8c19, gt0c19, ge32c20, ge8c20, gt0c20, ge32c21, ge8c21, gt0c21, ge32c22, ge8c22, gt0c22, ge32c23, ge8c23, gt0c23, ge32c24, ge8c24, gt0c24, ge32c25, ge8c25, gt0c25, ge32c26, ge8c26, gt0c26, ge32c27, ge8c27, gt0c27, ge32c28, ge8c28, gt0c28, ge32c29, ge8c29, gt0c29, ge32c30, ge8c30, gt0c30, ge32c31, ge8c31, gt0c31, lt0c0, lt0c1, lt0c2, lt0c3, lt0c4, lt0c5, lt0c6, lt0c7,
      tmodLit0, tdivLit0, tmodLit1, tdivLit1, tmodLit2, tdivLit2, tmodLit3, tdivLit3, tmodLit4, tdivLit4, tmodLit5, tdivLit5, tmodLit6, tdivLit6, tmodLit7, tdivLit7, tmodLit8, tdivLit8, tmodLit9, tdivLit9, tmodLit10, tdivLit10, tmodLit11, tdivLit11, tmodLit12, tdivLit12, tmodLit13, tdivLit13, tmodLit14, tdivLit14, tmodLit15, tdivLit15, tmodLit16, tdivLit16, tmodLit17, tdivLit17, tmodLit18, tdivLit18, tmodLit19, tdivLit19, tmodLit20, tdivLit20, tmodLit21, tdivLit21, tmodLit22, tdivLit22, tmodLit23, tdivLit23, tmodLit24, tdivLit24, tmodLit25, tdivLit25, tmodLit26, tdivLit26, tmodLit27, tdivLit27, tmodLit28, tdivLit28, tmodLit29, tdivLit29, tmodLit30, tdivLit30, tmodLit31, tdivLit31]
  all_goals
    simp only [IPv4Address.toNat, IPv4Address.Bounded, splitLoByte3, splitHiByte3, Nat.zero_and] ; omega


theorem splitStructCase20 (b0 b1 b2 b3 : Nat)
    (h0 : b0 < 256) (h1 : b1 < 256) (h2 : b2 < 256) (h3 : b3 < 256) :
    IPv4Subnet.Split ⟨⟨b0, b1, b2, b3⟩, (20:Int)⟩ =
      .ok (⟨⟨b0, b1, (b2 &&& 240) &&& 247, 0⟩, 21⟩, ⟨⟨b0, b1, (b2 &&& 240) ||| 8, 0⟩, 21⟩) ∧
    (⟨⟨b0, b1, (b2 &&& 240) &&& 247, 0⟩, 21⟩ : IPv4Subnet).Address.Bounded ∧
    (⟨⟨b0, b1, (b2 &&& 240) ||| 8, 0⟩, 21⟩ : IPv4Subnet).Address.Bounded ∧
    (⟨⟨b0, b1, (b2 &&& 240) &&& 247, 0⟩, 21⟩ : IPv4Subnet).Address.toNat =
      (⟨b0, b1, b2, b3⟩ : IPv4Address).toNat / 2 ^ 12 * 2 ^ 12 ∧
    (⟨⟨b0, b1, (b2 &&& 240) ||| 8, 0⟩, 21⟩ : IPv4Subnet).Address.toNat =
      (⟨b0, b1, b2, b3⟩ : IPv4Address).toNat / 2 ^ 12 * 2 ^ 12 + 2 ^ 11 := by
  refine ⟨?_, ?_, ?_, ?_, ?_⟩
  · simp only [IPv4Subnet.Split, splitMaskByte, splitNextRem, IPv4Address.modify?,
      Int.reduceToNat, Int.reduceEq, Int.reduceSub, Int.reduceAdd, Int.reducePow,
      Int.reduceMod, Nat.reduceSub, Nat.reduceShiftRight, Nat.reduceXor,
      Nat.zero_and, Nat.zero_or, reduceIte, true_and, and_true,
      ge32c0, ge8c0, gt0c0, ge32c1, ge8c1, gt0c1, ge32c2, ge8c2, gt0c2, ge32c3, ge8c3, gt0c3, ge32c4, ge8c4, gt0c4, ge32c5, ge8c5, gt0c5, ge32c6, ge8c6, gt0c6, ge32c7, ge8c7, gt0c7, ge32c8, ge8c8, gt0c8, ge32c9, ge8c9, gt0c9, ge32c10, ge8c10, gt0c10, ge32c11, ge8c11, gt0c11, ge32c12, ge8c12, gt0c12, ge32c13, ge8c13, gt0c13, ge32c14, ge8c14, gt0c14, ge32c15, ge8c15, gt0c15, ge32c16, ge8c16, gt0c16, ge32c17, ge8c17, gt0c17, ge32c18, ge8c18, gt0c18, ge32c19, ge8c19, gt0c19, ge32c20, ge8c20, gt0c20, ge32c21, ge8c21, gt0c21, ge32c22, ge8c22, gt0c22, ge32c23, ge8c23, gt0c23, ge32c24, ge8c24, gt0c24, ge32c25, ge8c25, gt0c25, ge32c26, ge8c26, gt0c26, ge32c27, ge8c27, gt0c27, ge32c28, ge8c28, gt0c28, ge32c29, ge8c29, gt0c29, ge32c30, ge8c30, gt0c30, ge32c31, ge8c31, gt0c31, lt0c0, lt0c1, lt0c2, lt0c3, lt0c4, lt0c5, lt0c6, lt0c7,
      tmodLit0, tdivLit0, tmodLit1, tdivLit1, tmodLit2, tdivLit2, tmodLit3, tdivLit3, tmodLit4, tdivLit4, tmodLit5, tdivLit5, tmodLit6, tdivLit6, tmodLit7, tdivLit7, tmodLit8, tdivLit8, tmodLit9, tdivLit9, tmodLit10, tdivLit10, tmodLit11, tdivLit11, tmodLit12, tdivLit12, tmodLit13, tdivLit13, tmodLit14, tdivLit14, tmodLit15, tdivLit15, tmodLit16, tdivLit16, tmodLit17, tdivLit17, tmodLit18, tdivLit18, tmodLit19, tdivLit19, tmodLit20, tdivLit20, tmodLit21, tdivLit21, tmodLit22, tdivLit22, tmodLit23, tdivLit23, tmodLit24, tdivLit24, tmodLit25, tdivLit25, tmodLit26, tdivLit26, tmodLit27, tdivLit27, tmodLit28, tdivLit28, tmodLit29, tdivLit29, tmodLit30, tdivLit30, tmodLit31, tdivLit31]
  all_goals
    simp only [IPv4Address.toNat, IPv4Address.Bounded, splitLoByte4, splitHiByte4, Nat.zero_and] ; omega


theorem splitStructCase21 (b0 b1 b2 b3 : Nat)
    (h0 : b0 < 256) (h1 : b1 < 256) (h2 : b2 < 256) (h3 : b3 < 256) :
    IPv4Subnet.Split ⟨⟨b0, b1, b2, b3⟩, (21:Int)⟩ =
      .ok (⟨⟨b0, b1, (b2 &&& 248) &&& 251, 0⟩, 22⟩, ⟨⟨b0, b1, (b2 &&& 248) ||| 4, 0⟩, 22⟩) ∧
    (⟨⟨b0, b1, (b2 &&& 248) &&& 251, 0⟩, 22⟩ : IPv4Subnet).Address.Bounded ∧
    (⟨⟨b0, b1, (b2 &&& 248) ||| 4, 0⟩, 22⟩ : IPv4Subnet).Address.Bounded ∧
    (⟨⟨b0, b1, (b2 &&& 248) &&& 251, 0⟩, 22⟩ : IPv4Subnet).Address.toNat =
      (⟨b0, b1, b2, b3⟩ : IPv4Address).toNat / 2 ^ 11 * 2 ^ 11 ∧
    (⟨⟨b0, b1, (b2 &&& 248) ||| 4, 0⟩, 22⟩ : IPv4Subnet).Address.toNat =
      (⟨b0, b1, b2, b3⟩ : IPv4Address).toNat / 2 ^ 11 * 2 ^ 11 + 2 ^ 10 := by
  refine ⟨?_, ?_, ?_, ?_, ?_⟩
  · simp only [IPv4Subnet.Split, splitMaskByte, splitNextRem, IPv4Address.modify?,
      Int.reduceToNat, Int.reduceEq, Int.reduceSub, Int.reduceAdd, Int.reducePow,
      Int.reduceMod, Nat.reduceSub, Nat.reduceShiftRight, Nat.reduceXor,
      Nat.zero_and, Nat.zero_or, reduceIte, true_and, and_true,
      ge32c0, ge8c0, gt0c0, ge32c1, ge8c1, gt0c1, ge32c2, ge8c2, gt0c2, ge32c3, ge8c3, gt0c3, ge32c4, ge8c4, gt0c4, ge32c5, ge8c5, gt0c5, ge32c6, ge8c6, gt0c6, ge32c7, ge8c7, gt0c7, ge32c8, ge8c8, gt0c8, ge32c9, ge8c9, gt0c9, ge32c10, ge8c10, gt0c10, ge32c11, ge8c11, gt0c11, ge32c12, ge8c12, gt0c12, ge32c13, ge8c13, gt0c13, ge32c14, ge8c14, gt0c14, ge32c15, ge8c15, gt0c15, ge32c16, ge8c16, gt0c16, ge32c17, ge8c17, gt0c17, ge32c18, ge8c18, gt0c18, ge32c19, ge8c19, gt0c19, ge32c20, ge8c20, gt0c20, ge32c21, ge8c21, gt0c21, ge32c22, ge8c22, gt0c22, ge32c23, ge8c23, gt0c23, ge32c24, ge8c24, gt0c24, ge32c25, ge8c25, gt0c25, ge32c26, ge8c26, gt0c26, ge32c27, ge8c27, gt0c27, ge32c28, ge8c28, gt0c28, ge32c29, ge8c29, gt0c29, ge32c30, ge8c30, gt0c30, ge32c31, ge8c31, gt0c31, lt0c0, lt0c1, lt0c2, lt0c3, lt0c4, lt0c5, lt0c6, lt0c7,
      tmodLit0, tdivLit0, tmodLit1, tdivLit1, tmodLit2, tdivLit2, tmodLit3, tdivLit3, tmodLit4, tdivLit4, tmodLit5, tdivLit5, tmodLit6, tdivLit6, tmodLit7, tdivLit7, tmodLit8, tdivLit8, tmodLit9, tdivLit9, tmodLit10, tdivLit10, tmodLit11, tdivLit11, tmodLit12, tdivLit12, tmodLit13, tdivLit13, tmodLit14, tdivLit14, tmodLit15, tdivLit15, tmodLit16, tdivLit16, tmodLit17, tdivLit17, tmodLit18, tdivLit18, tmodLit19, tdivLit19, tmodLit20, tdivLit20, tmodLit21, tdivLit21, tmodLit22, tdivLit22, tmodLit23, tdivLit23, tmodLit24, tdivLit24, tmodLit25, tdivLit25, tmodLit26, tdivLit26, tmodLit27, tdivLit27, tmodLit28, tdivLit28, tmodLit29, tdivLit29, tmodLit30, tdivLit30, tmodLit31, tdivLit31]
  all_goals
    simp only [IPv4Address.toNat, IPv4Address.Bounded, splitLoByte5, splitHiByte5, Nat.zero_and] ; omega


theorem splitStructCase22 (b0 b1 b2 b3 : Nat)
    (h0 : b0 < 256) (h1 : b1 < 256) (h2 : b2 < 256) (h3 : b3 < 256) :
    IPv4Subnet.Split ⟨⟨b0, b1, b2, b3⟩, (22:Int)⟩ =
      .ok (⟨⟨b0, b1, (b2 &&& 252) &&& 253, 0⟩, 23⟩, ⟨⟨b0, b1, (b2 &&& 252) ||| 2, 0⟩, 23⟩) ∧
    (⟨⟨b0, b1, (b2 &&& 252) &&& 253, 0⟩, 23⟩ : IPv4Subnet).Address.Bounded ∧
    (⟨⟨b0, b1, (b2 &&& 252) ||| 2, 0⟩, 23⟩ : IPv4Subnet).Address.Bounded ∧
    (⟨⟨b0, b1, (b2 &&& 252) &&& 253, 0⟩, 23⟩ : IPv4Subnet).Address.toNat =
      (⟨b0, b1, b2, b3⟩ : IPv4Address).toNat / 2 ^ 10 * 2 ^ 10 ∧
    (⟨⟨b0, b1, (b2 &&& 252) ||| 2, 0⟩, 23⟩ : IPv4Subnet).Address.toNat =
      (⟨b0, b1, b2, b3⟩ : IPv4Address).toNat / 2 ^ 10 * 2 ^ 10 + 2 ^ 9 := by
  refine ⟨?_, ?_, ?_, ?_, ?_⟩
  · simp only [IPv4Subnet.Split, splitMaskByte, splitNextRem, IPv4Address.modify?,
      Int.reduceToNat, Int.reduceEq, Int.reduceSub, Int.reduceAdd, Int.reducePow,
      Int.reduceMod, Nat.reduceSub, Nat.reduceShiftRight, Nat.reduceXor,
      Nat.zero_and, Nat.zero_or, reduceIte, true_and, and_true,
      ge32c0, ge8c0, gt0c0, ge32c1, ge8c1, gt0c1, ge32c2, ge8c2, gt0c2, ge32c3, ge8c3, gt0c3, ge32c4, ge8c4, gt0c4, ge32c5, ge8c5, gt0c5, ge32c6, ge8c6, gt0c6, ge32c7, ge8c7, gt0c7, ge32c8, ge8c8, gt0c8, ge32c9, ge8c9, gt0c9, ge32c10, ge8c10, gt0c10, ge32c11, ge8c11, gt0c11, ge32c12, ge8c12, gt0c12, ge32c13, ge8c13, gt0c13, ge32c14, ge8c14, gt0c14, ge32c15, ge8c15, gt0c15, ge32c16, ge8c16, gt0c16, ge32c17, ge8c17, gt0c17, ge32c18, ge8c18, gt0c18, ge32c19, ge8c19, gt0c19, ge32c20, ge8c20, gt0c20, ge32c21, ge8c21, gt0c21, ge32c22, ge8c22, gt0c22, ge32c23, ge8c23, gt0c23, ge32c24, ge8c24, gt0c24, ge32c25, ge8c25, gt0c25, ge32c26, ge8c26, gt0c26, ge32c27, ge8c27, gt0c27, ge32c28, ge8c28, gt0c28, ge32c29, ge8c29, gt0c29, ge32c30, ge8c30, gt0c30, ge32c31, ge8c31, gt0c31, lt0c0, lt0c1, lt0c2, lt0c3, lt0c4, lt0c5, lt0c6, lt0c7,
      tmodLit0, tdivLit0, tmodLit1, tdivLit1, tmodLit2, tdivLit2, tmodLit3, tdivLit3, tmodLit4, tdivLit4, tmodLit5, tdivLit5, tmodLit6, tdivLit6, tmodLit7, tdivLit7, tmodLit8, tdivLit8, tmodLit9, tdivLit9, tmodLit10, tdivLit10, tmodLit11, tdivLit11, tmodLit12, tdivLit12, tmodLit13, tdivLit13, tmodLit14, tdivLit14, tmodLit15, tdivLit15, tmodLit16, tdivLit16, tmodLit17, tdivLit17, tmodLit18, tdivLit18, tmodLit19, tdivLit19, tmodLit20, tdivLit20, tmodLit21, tdivLit21, tmodLit22, tdivLit22, tmodLit23, tdivLit23, tmodLit24, tdivLit24, tmodLit25, tdivLit25, tmodLit26, tdivLit26, tmodLit27, tdivLit27, tmodLit28, tdivLit28, tmodLit29, tdivLit29, tmodLit30, tdivLit30, tmodLit31, tdivLit31]
  all_goals
    simp only [IPv4Address.toNat, IPv4Address.Bounded, splitLoByte6, splitHiByte6, Nat.zero_and] ; omega


theorem splitStructCase23 (b0 b1 b2 b3 : Nat)
    (h0 : b0 < 256) (h1 : b1 < 256) (h2 : b2 < 256) (h3 : b3 < 256) :
    IPv4Subnet.Split ⟨⟨b0, b1, b2, b3⟩, (23:Int)⟩ =
      .ok (⟨⟨b0, b1, (b2 &&& 254) &&& 254, 0⟩, 24⟩, ⟨⟨b0, b1, (b2 &&& 254) ||| 1, 0⟩, 24⟩) ∧
    (⟨⟨b0, b1, (b2 &&& 254) &&& 254, 0⟩, 24⟩ : IPv4Subnet).Address.Bounded ∧
    (⟨⟨b0, b1, (b2 &&& 254) ||| 1, 0⟩, 24⟩ : IPv4Subnet).Address.Bounded ∧
    (⟨⟨b0, b1, (b2 &&& 254) &&& 254, 0⟩, 24⟩ : IPv4Subnet).Address.toNat =
      (⟨b0, b1, b2, b3⟩ : IPv4Address).toNat / 2 ^ 9 * 2 ^ 9 ∧
    (⟨⟨b0, b1, (b2 &&& 254) ||| 1, 0⟩, 24⟩ : IPv4Subnet).Address.toNat =
      (⟨b0, b1, b2, b3⟩ : IPv4Address).toNat / 2 ^ 9 * 2 ^ 9 + 2 ^ 8 := by
  refine ⟨?_, ?_, ?_, ?_, ?_⟩
  · simp only [IPv4Subnet.Split, splitMaskByte, splitNextRem, IPv4Address.modify?,
      Int.reduceToNat, Int.reduceEq, Int.reduceSub, Int.reduceAdd, Int.reducePow,
      Int.reduceMod, Nat.reduceSub, Nat.reduceShiftRight, Nat.reduceXor,
      Nat.zero_and, Nat.zero_or, reduceIte, true_and, and_true,
      ge32c0, ge8c0, gt0c0, ge32c1, ge8c1, gt0c1, ge32c2, ge8c2, gt0c2, ge32c3, ge8c3, gt0c3, ge32c4, ge8c4, gt0c4, ge32c5, ge8c5, gt0c5, ge32c6, ge8c6, gt0c6, ge32c7, ge8c7, gt0c7, ge32c8, ge8c8, gt0c8, ge32c9, ge8c9, gt0c9, ge32c10, ge8c10, gt0c10, ge32c11, ge8c11, gt0c11, ge32c12, ge8c12, gt0c12, ge32c13, ge8c13, gt0c13, ge32c14, ge8c14, gt0c14, ge32c15, ge8c15, gt0c15, ge32c16, ge8c16, gt0c16, ge32c17, ge8c17, gt0c17, ge32c18, ge8c18, gt0c18, ge32c19, ge8c19, gt0c19, ge32c20, ge8c20, gt0c20, ge32c21, ge8c21, gt0c21, ge32c22, ge8c22, gt0c22, ge32c23, ge8c23, gt0c23, ge32c24, ge8c24, gt0c24, ge32c25, ge8c25, gt0c25, ge32c26, ge8c26, gt0c26, ge32c27, ge8c27, gt0c27, ge32c28, ge8c28, gt0c28, ge32c29, ge8c29, gt0c29, ge32c30, ge8c30, gt0c30, ge32c31, ge8c31, gt0c31, lt0c0, lt0c1, lt0c2, lt0c3, lt0c4, lt0c5, lt0c6, lt0c7,
      tmodLit0, tdivLit0, tmodLit1, tdivLit1, tmodLit2, tdivLit2, tmodLit3, tdivLit3, tmodLit4, tdivLit4, tmodLit5, tdivLit5, tmodLit6, tdivLit6, tmodLit7, tdivLit7, tmodLit8, tdivLit8, tmodLit9, tdivLit9, tmodLit10, tdivLit10, tmodLit11, tdivLit11, tmodLit12, tdivLit12, tmodLit13, tdivLit13, tmodLit14, tdivLit14, tmodLit15, tdivLit15, tmodLit16, tdivLit16, tmodLit17, tdivLit17, tmodLit18, tdivLit18, tmodLit19, tdivLit19, tmodLit20, tdivLit20, tmodLit21, tdivLit21, tmodLit22, tdivLit22, tmodLit23, tdivLit23, tmodLit24, tdivLit24, tmodLit25, tdivLit25, tmodLit26, tdivLit26, tmodLit27, tdivLit27, tmodLit28, tdivLit28, tmodLit29, tdivLit29, tmodLit30, tdivLit30, tmodLit31, tdivLit31]
  all_goals
    simp only [IPv4Address.toNat, IPv4Address.Bounded, splitLoByte7, splitHiByte7, Nat.zero_and] ; omega


theorem splitStructCase24 (b0 b1 b2 b3 : Nat)
    (h0 : b0 < 256) (h1 : b1 < 256) (h2 : b2 < 256) (h3 : b3 < 256) :
    IPv4Subnet.Split ⟨⟨b0, b1, b2, b3⟩, (24:Int)⟩ =
      .ok (⟨⟨b0, b1, b2, 0⟩, 25⟩, ⟨⟨b0, b1, b2, 128⟩, 25⟩) ∧
    (⟨⟨b0, b1, b2, 0⟩, 25⟩ : IPv4Subnet).Address.Bounded ∧
    (⟨⟨b0, b1, b2, 128⟩, 25⟩ : IPv4Subnet).Address.Bounded ∧
    (⟨⟨b0, b1, b2, 0⟩, 25⟩ : IPv4Subnet).Address.toNat =
      (⟨b0, b1, b2, b3⟩ : IPv4Address).toNat / 2 ^ 8 * 2 ^ 8 ∧
    (⟨⟨b0, b1, b2, 128⟩, 25⟩ : IPv4Subnet).Address.toNat =
      (⟨b0, b1, b2, b3⟩ : IPv4Address).toNat / 2 ^ 8 * 2 ^ 8 + 2 ^ 7 := by
  refine ⟨?_, ?_, ?_, ?_, ?_⟩
  · simp only [IPv4Subnet.Split, splitMaskByte, splitNextRem, IPv4Address.modify?,
      Int.reduceToNat, Int.reduceEq, Int.reduceSub, Int.reduceAdd, Int.reducePow,
      Int.reduceMod, Nat.reduceSub, Nat.reduceShiftRight, Nat.reduceXor,
      Nat.zero_and, Nat.zero_or, reduceIte, true_and, and_true,
      ge32c0, ge8c0, gt0c0, ge32c1, ge8c1, gt0c1, ge32c2, ge8c2, gt0c2, ge32c3, ge8c3, gt0c3, ge32c4, ge8c4, gt0c4, ge32c5, ge8c5, gt0c5, ge32c6, ge8c6, gt0c6, ge32c7, ge8c7, gt0c7, ge32c8, ge8c8, gt0c8, ge32c9, ge8c9, gt0c9, ge32c10, ge8c10, gt0c10, ge32c11, ge8c11, gt0c11, ge32c12, ge8c12, gt0c12, ge32c13, ge8c13, gt0c13, ge32c14, ge8c14, gt0c14, ge32c15, ge8c15, gt0c15, ge32c16, ge8c16, gt0c16, ge32c17, ge8c17, gt0c17, ge32c18, ge8c18, gt0c18, ge32c19, ge8c19, gt0c19, ge32c20, ge8c20, gt0c20, ge32c21, ge8c21, gt0c21, ge32c22, ge8c22, gt0c22, ge32c23, ge8c23, gt0c23, ge32c24, ge8c24, gt0c24, ge32c25, ge8c25, gt0c25, ge32c26, ge8c26, gt0c26, ge32c27, ge8c27, gt0c27, ge32c28, ge8c28, gt0c28, ge32c29, ge8c29, gt0c29, ge32c30, ge8c30, gt0c30, ge32c31, ge8c31, gt0c31, lt0c0, lt0c1, lt0c2, lt0c3, lt0c4, lt0c5, lt0c6, lt0c7,
      tmodLit0, tdivLit0, tmodLit1, tdivLit1, tmodLit2, tdivLit2, tmodLit3, tdivLit3, tmodLit4, tdivLit4, tmodLit5, tdivLit5, tmodLit6, tdivLit6, tmodLit7, tdivLit7, tmodLit8, tdivLit8, tmodLit9, tdivLit9, tmodLit10, tdivLit10, tmodLit11, tdivLit11, tmodLit12, tdivLit12, tmodLit13, tdivLit13, tmodLit14, tdivLit14, tmodLit15, tdivLit15, tmodLit16, tdivLit16, tmodLit17, tdivLit17, tmodLit18, tdivLit18, tmodLit19, tdivLit19, tmodLit20, tdivLit20, tmodLit21, tdivLit21, tmodLit22, tdivLit22, tmodLit23, tdivLit23, tmodLit24, tdivLit24, tmodLit25, tdivLit25, tmodLit26, tdivLit26, tmodLit27, tdivLit27, tmodLit28, tdivLit28, tmodLit29, tdivLit29, tmodLit30, tdivLit30, tmodLit31, tdivLit31]
  all_goals
    simp only [IPv4Address.toNat, IPv4Address.Bounded, Nat.zero_and] ; omega


theorem splitStructCase25 (b0 b1 b2 b3 : Nat)
    (h0 : b0 < 256) (h1 : b1 < 256) (h2 : b2 < 256) (h3 : b3 < 256) :
    IPv4Subnet.Split ⟨⟨b0, b1, b2, b3⟩, (25:Int)⟩ =
      .ok (⟨⟨b0, b1, b2, (b3 &&& 128) &&& 191⟩, 26⟩, ⟨⟨b0, b1, b2, (b3 &&& 128) ||| 64⟩, 26⟩) ∧
    (⟨⟨b0, b1, b2, (b3 &&& 128) &&& 191⟩, 26⟩ : IPv4Subnet).Address.Bounded ∧
    (⟨⟨b0, b1, b2, (b3 &&& 128) ||| 64⟩, 26⟩ : IPv4Subnet).Address.Bounded ∧
    (⟨⟨b0, b1, b2, (b3 &&& 128) &&& 191⟩, 26⟩ : IPv4Subnet).Address.toNat =
      (⟨b0, b1, b2, b3⟩ : IPv4Address).toNat / 2 ^ 7 * 2 ^ 7 ∧
    (⟨⟨b0, b1, b2, (b3 &&& 128) ||| 64⟩, 26⟩ : IPv4Subnet).Address.toNat =
      (⟨b0, b1, b2, b3⟩ : IPv4Address).toNat / 2 ^ 7 * 2 ^ 7 + 2 ^ 6 := by
  refine ⟨?_, ?_, ?_, ?_, ?_⟩
  · simp only [IPv4Subnet.Split, splitMaskByte, splitNextRem, IPv4Address.modify?,
      Int.reduceToNat, Int.reduceEq, Int.reduceSub, Int.reduceAdd, Int.reducePow,
      Int.reduceMod, Nat.reduceSub, Nat.reduceShiftRight, Nat.reduceXor,
      Nat.zero_and, Nat.zero_or, reduceIte, true_and, and_true,
      ge32c0, ge8c0, gt0c0, ge32c1, ge8c1, gt0c1, ge32c2, ge8c2, gt0c2, ge32c3, ge8c3, gt0c3, ge32c4, ge8c4, gt0c4, ge32c5, ge8c5, gt0c5, ge32c6, ge8c6, gt0c6, ge32c7, ge8c7, gt0c7, ge32c8, ge8c8, gt0c8, ge32c9, ge8c9, gt0c9, ge32c10, ge8c10, gt0c10, ge32c11, ge8c11, gt0c11, ge32c12, ge8c12, gt0c12, ge32c13, ge8c13, gt0c13, ge32c14, ge8c14, gt0c14, ge32c15, ge8c15, gt0c15, ge32c16, ge8c16, gt0c16, ge32c17, ge8c17, gt0c17, ge32c18, ge8c18, gt0c18, ge32c19, ge8c19, gt0c19, ge32c20, ge8c20, gt0c20, ge32c21, ge8c21, gt0c21, ge32c22, ge8c22, gt0c22, ge32c23, ge8c23, gt0c23, ge32c24, ge8c24, gt0c24, ge32c25, ge8c25, gt0c25, ge32c26, ge8c26, gt0c26, ge32c27, ge8c27, gt0c27, ge32c28, ge8c28, gt0c28, ge32c29, ge8c29, gt0c29, ge32c30, ge8c30, gt0c30, ge32c31, ge8c31, gt0c31, lt0c0, lt0c1, lt0c2, lt0c3, lt0c4, lt0c5, lt0c6, lt0c7,
      tmodLit0, tdivLit0, tmodLit1, tdivLit1, tmodLit2, tdivLit2, tmodLit3, tdivLit3, tmodLit4, tdivLit4, tmodLit5, tdivLit5, tmodLit6, tdivLit6, tmodLit7, tdivLit7, tmodLit8, tdivLit8, tmodLit9, tdivLit9, tmodLit10, tdivLit10, tmodLit11, tdivLit11, tmodLit12, tdivLit12, tmodLit13, tdivLit13, tmodLit14, tdivLit14, tmodLit15, tdivLit15, tmodLit16, tdivLit16, tmodLit17, tdivLit17, tmodLit18, tdivLit18, tmodLit19, tdivLit19, tmodLit20, tdivLit20, tmodLit21, tdivLit21, tmodLit22, tdivLit22, tmodLit23, tdivLit23, tmodLit24, tdivLit24, tmodLit25, tdivLit25, tmodLit26, tdivLit26, tmodLit27, tdivLit27, tmodLit28, tdivLit28, tmodLit29, tdivLit29, tmodLit30, tdivLit30, tmodLit31, tdivLit31]
  all_goals
    simp only [IPv4Address.toNat, IPv4Address.Bounded, splitLoByte1, splitHiByte1, Nat.zero_and] ; omega


theorem splitStructCase26 (b0 b1 b2 b3 : Nat)
    (h0 : b0 < 256) (h1 : b1 < 256) (h2 : b2 < 256) (h3 : b3 < 256) :
    IPv4Subnet.Split ⟨⟨b0, b1, b2, b3⟩, (26:Int)⟩ =
      .ok (⟨⟨b0, b1, b2, (b3 &&& 192) &&& 223⟩, 27⟩, ⟨⟨b0, b1, b2, (b3 &&& 192) ||| 32⟩, 27⟩) ∧
    (⟨⟨b0, b1, b2, (b3 &&& 192) &&& 223⟩, 27⟩ : IPv4Subnet).Address.Bounded ∧
    (⟨⟨b0, b1, b2, (b3 &&& 192) ||| 32⟩, 27⟩ : IPv4Subnet).Address.Bounded ∧
    (⟨⟨b0, b1, b2, (b3 &&& 192) &&& 223⟩, 27⟩ : IPv4Subnet).Address.toNat =
      (⟨b0, b1, b2, b3⟩ : IPv4Address).toNat / 2 ^ 6 * 2 ^ 6 ∧
    (⟨⟨b0, b1, b2, (b3 &&& 192) ||| 32⟩, 27⟩ : IPv4Subnet).Address.toNat =
      (⟨b0, b1, b2, b3⟩ : IPv4Address).toNat / 2 ^ 6 * 2 ^ 6 + 2 ^ 5 := by
  refine ⟨?_, ?_, ?_, ?_, ?_⟩
  · simp only [IPv4Subnet.Split, splitMaskByte, splitNextRem, IPv4Address.modify?,
      Int.reduceToNat, Int.reduceEq, Int.reduceSub, Int.reduceAdd, Int.reducePow,
      Int.reduceMod, Nat.reduceSub, Nat.reduceShiftRight, Nat.reduceXor,
      Nat.zero_and, Nat.zero_or, reduceIte, true_and, and_true,
      ge32c0, ge8c0, gt0c0, ge32c1, ge8c1, gt0c1, ge32c2, ge8c2, gt0c2, ge32c3, ge8c3, gt0c3, ge32c4, ge8c4, gt0c4, ge32c5, ge8c5, gt0c5, ge32c6, ge8c6, gt0c6, ge32c7, ge8c7, gt0c7, ge32c8, ge8c8, gt0c8, ge32c9, ge8c9, gt0c9, ge32c10, ge8c10, gt0c10, ge32c11, ge8c11, gt0c11, ge32c12, ge8c12, gt0c12, ge32c13, ge8c13, gt0c13, ge32c14, ge8c14, gt0c14, ge32c15, ge8c15, gt0c15, ge32c16, ge8c16, gt0c16, ge32c17, ge8c17, gt0c17, ge32c18, ge8c18, gt0c18, ge32c19, ge8c19, gt0c19, ge32c20, ge8c20, gt0c20, ge32c21, ge8c21, gt0c21, ge32c22, ge8c22, gt0c22, ge32c23, ge8c23, gt0c23, ge32c24, ge8c24, gt0c24, ge32c25, ge8c25, gt0c25, ge32c26, ge8c26, gt0c26, ge32c27, ge8c27, gt0c27, ge32c28, ge8c28, gt0c28, ge32c29, ge8c29, gt0c29, ge32c30, ge8c30, gt0c30, ge32c31, ge8c31, gt0c31, lt0c0, lt0c1, lt0c2, lt0c3, lt0c4, lt0c5, lt0c6, lt0c7,
      tmodLit0, tdivLit0, tmodLit1, tdivLit1, tmodLit2, tdivLit2, tmodLit3, tdivLit3, tmodLit4, tdivLit4, tmodLit5, tdivLit5, tmodLit6, tdivLit6, tmodLit7, tdivLit7, tmodLit8, tdivLit8, tmodLit9, tdivLit9, tmodLit10, tdivLit10, tmodLit11, tdivLit11, tmodLit12, tdivLit12, tmodLit13, tdivLit13, tmodLit14, tdivLit14, tmodLit15, tdivLit15, tmodLit16, tdivLit16, tmodLit17, tdivLit17, tmodLit18, tdivLit18, tmodLit19, tdivLit19, tmodLit20, tdivLit20, tmodLit21, tdivLit21, tmodLit22, tdivLit22, tmodLit23, tdivLit23, tmodLit24, tdivLit24, tmodLit25, tdivLit25, tmodLit26, tdivLit26, tmodLit27, tdivLit27, tmodLit28, tdivLit28, tmodLit29, tdivLit29, tmodLit30, tdivLit30, tmodLit31, tdivLit31]
  all_goals
    simp only [IPv4Address.toNat, IPv4Address.Bounded, splitLoByte2, splitHiByte2, Nat.zero_and] ; omega


theorem splitStructCase27 (b0 b1 b2 b3 : Nat)
    (h0 : b0 < 256) (h1 : b1 < 256) (h2 : b2 < 256) (h3 : b3 < 256) :
    IPv4Subnet.Split ⟨⟨b0, b1, b2, b3⟩, (27:Int)⟩ =
      .ok (⟨⟨b0, b1, b2, (b3 &&& 224) &&& 239⟩, 28⟩, ⟨⟨b0, b1, b2, (b3 &&& 224) ||| 16⟩, 28⟩) ∧
    (⟨⟨b0, b1, b2, (b3 &&& 224) &&& 239⟩, 28⟩ : IPv4Subnet).Address.Bounded ∧
    (⟨⟨b0, b1, b2, (b3 &&& 224) ||| 16⟩, 28⟩ : IPv4Subnet).Address.Bounded ∧
    (⟨⟨b0, b1, b2, (b3 &&& 224) &&& 239⟩, 28⟩ : IPv4Subnet).Address.toNat =
      (⟨b0, b1, b2, b3⟩ : IPv4Address).toNat / 2 ^ 5 * 2 ^ 5 ∧
    (⟨⟨b0, b1, b2, (b3 &&& 224) ||| 16⟩, 28⟩ : IPv4Subnet).Address.toNat =
      (⟨b0, b1, b2, b3⟩ : IPv4Address).toNat / 2 ^ 5 * 2 ^ 5 + 2 ^ 4 := by
  refine ⟨?_, ?_, ?_, ?_, ?_⟩
  · simp only [IPv4Subnet.Split, splitMaskByte, splitNextRem, IPv4Address.modify?,
      Int.reduceToNat, Int.reduceEq, Int.reduceSub, Int.reduceAdd, Int.reducePow,
      Int.reduceMod, Nat.reduceSub, Nat.reduceShiftRight, Nat.reduceXor,
      Nat.zero_and, Nat.zero_or, reduceIte, true_and, and_true,
      ge32c0, ge8c0, gt0c0, ge32c1, ge8c1, gt0c1, ge32c2, ge8c2, gt0c2, ge32c3, ge8c3, gt0c3, ge32c4, ge8c4, gt0c4, ge32c5, ge8c5, gt0c5, ge32c6, ge8c6, gt0c6, ge32c7, ge8c7, gt0c7, ge32c8, ge8c8, gt0c8, ge32c9, ge8c9, gt0c9, ge32c10, ge8c10, gt0c10, ge32c11, ge8c11, gt0c11, ge32c12, ge8c12, gt0c12, ge32c13, ge8c13, gt0c13, ge32c14, ge8c14, gt0c14, ge32c15, ge8c15, gt0c15, ge32c16, ge8c16, gt0c16, ge32c17, ge8c17, gt0c17, ge32c18, ge8c18, gt0c18, ge32c19, ge8c19, gt0c19, ge32c20, ge8c20, gt0c20, ge32c21, ge8c21, gt0c21, ge32c22, ge8c22, gt0c22, ge32c23, ge8c23, gt0c23, ge32c24, ge8c24, gt0c24, ge32c25, ge8c25, gt0c25, ge32c26, ge8c26, gt0c26, ge32c27, ge8c27, gt0c27, ge32c28, ge8c28, gt0c28, ge32c29, ge8c29, gt0c29, ge32c30, ge8c30, gt0c30, ge32c31, ge8c31, gt0c31, lt0c0, lt0c1, lt0c2, lt0c3, lt0c4, lt0c5, lt0c6, lt0c7,
      tmodLit0, tdivLit0, tmodLit1, tdivLit1, tmodLit2, tdivLit2, tmodLit3, tdivLit3, tmodLit4, tdivLit4, tmodLit5, tdivLit5, tmodLit6, tdivLit6, tmodLit7, tdivLit7, tmodLit8, tdivLit8, tmodLit9, tdivLit9, tmodLit10, tdivLit10, tmodLit11, tdivLit11, tmodLit12, tdivLit12, tmodLit13, tdivLit13, tmodLit14, tdivLit14, tmodLit15, tdivLit15, tmodLit16, tdivLit16, tmodLit17, tdivLit17, tmodLit18, tdivLit18, tmodLit19, tdivLit19, tmodLit20, tdivLit20, tmodLit21, tdivLit21, tmodLit22, tdivLit22, tmodLit23, tdivLit23, tmodLit24, tdivLit24, tmodLit25, tdivLit25, tmodLit26, tdivLit26, tmodLit27, tdivLit27, tmodLit28, tdivLit28, tmodLit29, tdivLit29, tmodLit30, tdivLit30, tmodLit31, tdivLit31]
  all_goals
    simp only [IPv4Address.toNat, IPv4Address.Bounded, splitLoByte3, splitHiByte3, Nat.zero_and] ; omega


theorem splitStructCase28 (b0 b1 b2 b3 : Nat)
    (h0 : b0 < 256) (h1 : b1 < 256) (h2 : b2 < 256) (h3 : b3 < 256) :
    IPv4Subnet.Split ⟨⟨b0, b1, b2, b3⟩, (28:Int)⟩ =
      .ok (⟨⟨b0, b1, b2, (b3 &&& 240) &&& 247⟩, 29⟩, ⟨⟨b0, b1, b2, (b3 &&& 240) ||| 8⟩, 29⟩) ∧
    (⟨⟨b0, b1, b2, (b3 &&& 240) &&& 247⟩, 29⟩ : IPv4Subnet).Address.Bounded ∧
    (⟨⟨b0, b1, b2, (b3 &&& 240) ||| 8⟩, 29⟩ : IPv4Subnet).Address.Bounded ∧
    (⟨⟨b0, b1, b2, (b3 &&& 240) &&& 247⟩, 29⟩ : IPv4Subnet).Address.toNat =
      (⟨b0, b1, b2, b3⟩ : IPv4Address).toNat / 2 ^ 4 * 2 ^ 4 ∧
    (⟨⟨b0, b1, b2, (b3 &&& 240) ||| 8⟩, 29⟩ : IPv4Subnet).Address.toNat =
      (⟨b0, b1, b2, b3⟩ : IPv4Address).toNat / 2 ^ 4 * 2 ^ 4 + 2 ^ 3 := by
  refine ⟨?_, ?_, ?_, ?_, ?_⟩
  · simp only [IPv4Subnet.Split, splitMaskByte, splitNextRem, IPv4Address.modify?,
      Int.reduceToNat, Int.reduceEq, Int.reduceSub, Int.reduceAdd, Int.reducePow,
      Int.reduceMod, Nat.reduceSub, Nat.reduceShiftRight, Nat.reduceXor,
      Nat.zero_and, Nat.zero_or, reduceIte, true_and, and_true,
      ge32c0, ge8c0, gt0c0, ge32c1, ge8c1, gt0c1, ge32c2, ge8c2, gt0c2, ge32c3, ge8c3, gt0c3, ge32c4, ge8c4, gt0c4, ge32c5, ge8c5, gt0c5, ge32c6, ge8c6, gt0c6, ge32c7, ge8c7, gt0c7, ge32c8, ge8c8, gt0c8, ge32c9, ge8c9, gt0c9, ge32c10, ge8c10, gt0c10, ge32c11, ge8c11, gt0c11, ge32c12, ge8c12, gt0c12, ge32c13, ge8c13, gt0c13, ge32c14, ge8c14, gt0c14, ge32c15, ge8c15, gt0c15, ge32c16, ge8c16, gt0c16, ge32c17, ge8c17, gt0c17, ge32c18, ge8c18, gt0c18, ge32c19, ge8c19, gt0c19, ge32c20, ge8c20, gt0c20, ge32c21, ge8c21, gt0c21, ge32c22, ge8c22, gt0c22, ge32c23, ge8c23, gt0c23, ge32c24, ge8c24, gt0c24, ge32c25, ge8c25, gt0c25, ge32c26, ge8c26, gt0c26, ge32c27, ge8c27, gt0c27, ge32c28, ge8c28, gt0c28, ge32c29, ge8c29, gt0c29, ge32c30, ge8c30, gt0c30, ge32c31, ge8c31, gt0c31, lt0c0, lt0c1, lt0c2, lt0c3, lt0c4, lt0c5, lt0c6, lt0c7,
      tmodLit0, tdivLit0, tmodLit1, tdivLit1, tmodLit2, tdivLit2, tmodLit3, tdivLit3, tmodLit4, tdivLit4, tmodLit5, tdivLit5, tmodLit6, tdivLit6, tmodLit7, tdivLit7, tmodLit8, tdivLit8, tmodLit9, tdivLit9, tmodLit10, tdivLit10, tmodLit11, tdivLit11, tmodLit12, tdivLit12, tmodLit13, tdivLit13, tmodLit14, tdivLit14, tmodLit15, tdivLit15, tmodLit16, tdivLit16, tmodLit17, tdivLit17, tmodLit18, tdivLit18, tmodLit19, tdivLit19, tmodLit20, tdivLit20, tmodLit21, tdivLit21, tmodLit22, tdivLit22, tmodLit23, tdivLit23, tmodLit24, tdivLit24, tmodLit25, tdivLit25, tmodLit26, tdivLit26, tmodLit27, tdivLit27, tmodLit28, tdivLit28, tmodLit29, tdivLit29, tmodLit30, tdivLit30, tmodLit31, tdivLit31]
  all_goals
    simp only [IPv4Address.toNat, IPv4Address.Bounded, splitLoByte4, splitHiByte4, Nat.zero_and] ; omega


theorem splitStructCase29 (b0 b1 b2 b3 : Nat)
    (h0 : b0 < 256) (h1 : b1 < 256) (h2 : b2 < 256) (h3 : b3 < 256) :
    IPv4Subnet.Split ⟨⟨b0, b1, b2, b3⟩, (29:Int)⟩ =
      .ok (⟨⟨b0, b1, b2, (b3 &&& 248) &&& 251⟩, 30⟩, ⟨⟨b0, b1, b2, (b3 &&& 248) ||| 4⟩, 30⟩) ∧
    (⟨⟨b0, b1, b2, (b3 &&& 248) &&& 251⟩, 30⟩ : IPv4Subnet).Address.Bounded ∧
    (⟨⟨b0, b1, b2, (b3 &&& 248) ||| 4⟩, 30⟩ : IPv4Subnet).Address.Bounded ∧
    (⟨⟨b0, b1, b2, (b3 &&& 248) &&& 251⟩, 30⟩ : IPv4Subnet).Address.toNat =
      (⟨b0, b1, b2, b3⟩ : IPv4Address).toNat / 2 ^ 3 * 2 ^ 3 ∧
    (⟨⟨b0, b1, b2, (b3 &&& 248) ||| 4⟩, 30⟩ : IPv4Subnet).Address.toNat =
      (⟨b0, b1, b2, b3⟩ : IPv4Address).toNat / 2 ^ 3 * 2 ^ 3 + 2 ^ 2 := by
  refine ⟨?_, ?_, ?_, ?_, ?_⟩
  · simp only [IPv4Subnet.Split, splitMaskByte, splitNextRem, IPv4Address.modify?,
      Int.reduceToNat, Int.reduceEq, Int.reduceSub, Int.reduceAdd, Int.reducePow,
      Int.reduceMod, Nat.reduceSub, Nat.reduceShiftRight, Nat.reduceXor,
      Nat.zero_and, Nat.zero_or, reduceIte, true_and, and_true,
      ge32c0, ge8c0, gt0c0, ge32c1, ge8c1, gt0c1, ge32c2, ge8c2, gt0c2, ge32c3, ge8c3, gt0c3, ge32c4, ge8c4, gt0c4, ge32c5, ge8c5, gt0c5, ge32c6, ge8c6, gt0c6, ge32c7, ge8c7, gt0c7, ge32c8, ge8c8, gt0c8, ge32c9, ge8c9, gt0c9, ge32c10, ge8c10, gt0c10, ge32c11, ge8c11, gt0c11, ge32c12, ge8c12, gt0c12, ge32c13, ge8c13, gt0c13, ge32c14, ge8c14, gt0c14, ge32c15, ge8c15, gt0c15, ge32c16, ge8c16, gt0c16, ge32c17, ge8c17, gt0c17, ge32c18, ge8c18, gt0c18, ge32c19, ge8c19, gt0c19, ge32c20, ge8c20, gt0c20, ge32c21, ge8c21, gt0c21, ge32c22, ge8c22, gt0c22, ge32c23, ge8c23, gt0c23, ge32c24, ge8c24, gt0c24, ge32c25, ge8c25, gt0c25, ge32c26, ge8c26, gt0c26, ge32c27, ge8c27, gt0c27, ge32c28, ge8c28, gt0c28, ge32c29, ge8c29, gt0c29, ge32c30, ge8c30, gt0c30, ge32c31, ge8c31, gt0c31, lt0c0, lt0c1, lt0c2, lt0c3, lt0c4, lt0c5, lt0c6, lt0c7,
      tmodLit0, tdivLit0, tmodLit1, tdivLit1, tmodLit2, tdivLit2, tmodLit3, tdivLit3, tmodLit4, tdivLit4, tmodLit5, tdivLit5, tmodLit6, tdivLit6, tmodLit7, tdivLit7, tmodLit8, tdivLit8, tmodLit9, tdivLit9, tmodLit10, tdivLit10, tmodLit11, tdivLit11, tmodLit12, tdivLit12, tmodLit13, tdivLit13, tmodLit14, tdivLit14, tmodLit15, tdivLit15, tmodLit16, tdivLit16, tmodLit17, tdivLit17, tmodLit18, tdivLit18, tmodLit19, tdivLit19, tmodLit20, tdivLit20, tmodLit21, tdivLit21, tmodLit22, tdivLit22, tmodLit23, tdivLit23, tmodLit24, tdivLit24, tmodLit25, tdivLit25, tmodLit26, tdivLit26, tmodLit27, tdivLit27, tmodLit28, tdivLit28, tmodLit29, tdivLit29, tmodLit30, tdivLit30, tmodLit31, tdivLit31]
  all_goals
    simp only [IPv4Address.toNat, IPv4Address.Bounded, splitLoByte5, splitHiByte5, Nat.zero_and] ; omega


theorem splitStructCase30 (b0 b1 b2 b3 : Nat)
    (h0 : b0 < 256) (h1 : b1 < 256) (h2 : b2 < 256) (h3 : b3 < 256) :
    IPv4Subnet.Split ⟨⟨b0, b1, b2, b3⟩, (30:Int)⟩ =
      .ok (⟨⟨b0, b1, b2, (b3 &&& 252) &&& 253⟩, 31⟩, ⟨⟨b0, b1, b2, (b3 &&& 252) ||| 2⟩, 31⟩) ∧
    (⟨⟨b0, b1, b2, (b3 &&& 252) &&& 253⟩, 31⟩ : IPv4Subnet).Address.Bounded ∧
    (⟨⟨b0, b1, b2, (b3 &&& 252) ||| 2⟩, 31⟩ : IPv4Subnet).Address.Bounded ∧
    (⟨⟨b0, b1, b2, (b3 &&& 252) &&& 253⟩, 31⟩ : IPv4Subnet).Address.toNat =
      (⟨b0, b1, b2, b3⟩ : IPv4Address).toNat / 2 ^ 2 * 2 ^ 2 ∧
    (⟨⟨b0, b1, b2, (b3 &&& 252) ||| 2⟩, 31⟩ : IPv4Subnet).Address.toNat =
      (⟨b0, b1, b2, b3⟩ : IPv4Address).toNat / 2 ^ 2 * 2 ^ 2 + 2 ^ 1 := by
  refine ⟨?_, ?_, ?_, ?_, ?_⟩
  · simp only [IPv4Subnet.Split, splitMaskByte, splitNextRem, IPv4Address.modify?,
      Int.reduceToNat, Int.reduceEq, Int.reduceSub, Int.reduceAdd, Int.reducePow,
      Int.reduceMod, Nat.reduceSub, Nat.reduceShiftRight, Nat.reduceXor,
      Nat.zero_and, Nat.zero_or, reduceIte, true_and, and_true,
      ge32c0, ge8c0, gt0c0, ge32c1, ge8c1, gt0c1, ge32c2, ge8c2, gt0c2, ge32c3, ge8c3, gt0c3, ge32c4, ge8c4, gt0c4, ge32c5, ge8c5, gt0c5, ge32c6, ge8c6, gt0c6, ge32c7, ge8c7, gt0c7, ge32c8, ge8c8, gt0c8, ge32c9, ge8c9, gt0c9, ge32c10, ge8c10, gt0c10, ge32c11, ge8c11, gt0c11, ge32c12, ge8c12, gt0c12, ge32c13, ge8c13, gt0c13, ge32c14, ge8c14, gt0c14, ge32c15, ge8c15, gt0c15, ge32c16, ge8c16, gt0c16, ge32c17, ge8c17, gt0c17, ge32c18, ge8c18, gt0c18, ge32c19, ge8c19, gt0c19, ge32c20, ge8c20, gt0c20, ge32c21, ge8c21, gt0c21, ge32c22, ge8c22, gt0c22, ge32c23, ge8c23, gt0c23, ge32c24, ge8c24, gt0c24, ge32c25, ge8c25, gt0c25, ge32c26, ge8c26, gt0c26, ge32c27, ge8c27, gt0c27, ge32c28, ge8c28, gt0c28, ge32c29, ge8c29, gt0c29, ge32c30, ge8c30, gt0c30, ge32c31, ge8c31, gt0c31, lt0c0, lt0c1, lt0c2, lt0c3, lt0c4, lt0c5, lt0c6, lt0c7,
      tmodLit0, tdivLit0, tmodLit1, tdivLit1, tmodLit2, tdivLit2, tmodLit3, tdivLit3, tmodLit4, tdivLit4, tmodLit5, tdivLit5, tmodLit6, tdivLit6, tmodLit7, tdivLit7, tmodLit8, tdivLit8, tmodLit9, tdivLit9, tmodLit10, tdivLit10, tmodLit11, tdivLit11, tmodLit12, tdivLit12, tmodLit13, tdivLit13, tmodLit14, tdivLit14, tmodLit15, tdivLit15, tmodLit16, tdivLit16, tmodLit17, tdivLit17, tmodLit18, tdivLit18, tmodLit19, tdivLit19, tmodLit20, tdivLit20, tmodLit21, tdivLit21, tmodLit22, tdivLit22, tmodLit23, tdivLit23, tmodLit24, tdivLit24, tmodLit25, tdivLit25, tmodLit26, tdivLit26, tmodLit27, tdivLit27, tmodLit28, tdivLit28, tmodLit29, tdivLit29, tmodLit30, tdivLit30, tmodLit31, tdivLit31]
  all_goals
    simp only [IPv4Address.toNat, IPv4Address.Bounded, splitLoByte6, splitHiByte6, Nat.zero_and] ; omega


theorem splitStructCase31 (b0 b1 b2 b3 : Nat)
    (h0 : b0 < 256) (h1 : b1 < 256) (h2 : b2 < 256) (h3 : b3 < 256) :
    IPv4Subnet.Split ⟨⟨b0, b1, b2, b3⟩, (31:Int)⟩ =
      .ok (⟨⟨b0, b1, b2, (b3 &&& 254) &&& 254⟩, 32⟩, ⟨⟨b0, b1, b2, (b3 &&& 254) ||| 1⟩, 32⟩) ∧
    (⟨⟨b0, b1, b2, (b3 &&& 254) &&& 254⟩, 32⟩ : IPv4Subnet).Address.Bounded ∧
    (⟨⟨b0, b1, b2, (b3 &&& 254) ||| 1⟩, 32⟩ : IPv4Subnet).Address.Bounded ∧
    (⟨⟨b0, b1, b2, (b3 &&& 254) &&& 254⟩, 32⟩ : IPv4Subnet).Address.toNat =
      (⟨b0, b1, b2, b3⟩ : IPv4Address).toNat / 2 ^ 1 * 2 ^ 1 ∧
    (⟨⟨b0, b1, b2, (b3 &&& 254) ||| 1⟩, 32⟩ : IPv4Subnet).Address.toNat =
      (⟨b0, b1, b2, b3⟩ : IPv4Address).toNat / 2 ^ 1 * 2 ^ 1 + 2 ^ 0 := by
  refine ⟨?_, ?_, ?_, ?_, ?_⟩
  · simp only [IPv4Subnet.Split, splitMaskByte, splitNextRem, IPv4Address.modify?,
      Int.reduceToNat, Int.reduceEq, Int.reduceSub, Int.reduceAdd, Int.reducePow,
      Int.reduceMod, Nat.reduceSub, Nat.reduceShiftRight, Nat.reduceXor,
      Nat.zero_and, Nat.zero_or, reduceIte, true_and, and_true,
      ge32c0, ge8c0, gt0c0, ge32c1, ge8c1, gt0c1, ge32c2, ge8c2, gt0c2, ge32c3, ge8c3, gt0c3, ge32c4, ge8c4, gt0c4, ge32c5, ge8c5, gt0c5, ge32c6, ge8c6, gt0c6, ge32c7, ge8c7, gt0c7, ge32c8, ge8c8, gt0c8, ge32c9, ge8c9, gt0c9, ge32c10, ge8c10, gt0c10, ge32c11, ge8c11, gt0c11, ge32c12, ge8c12, gt0c12, ge32c13, ge8c13, gt0c13, ge32c14, ge8c14, gt0c14, ge32c15, ge8c15, gt0c15, ge32c16, ge8c16, gt0c16, ge32c17, ge8c17, gt0c17, ge32c18, ge8c18, gt0c18, ge32c19, ge8c19, gt0c19, ge32c20, ge8c20, gt0c20, ge32c21, ge8c21, gt0c21, ge32c22, ge8c22, gt0c22, ge32c23, ge8c23, gt0c23, ge32c24, ge8c24, gt0c24, ge32c25, ge8c25, gt0c25, ge32c26, ge8c26, gt0c26, ge32c27, ge8c27, gt0c27, ge32c28, ge8c28, gt0c28, ge32c29, ge8c29, gt0c29, ge32c30, ge8c30, gt0c30, ge32c31, ge8c31, gt0c31, lt0c0, lt0c1, lt0c2, lt0c3, lt0c4, lt0c5, lt0c6, lt0c7,
      tmodLit0, tdivLit0, tmodLit1, tdivLit1, tmodLit2, tdivLit2, tmodLit3, tdivLit3, tmodLit4, tdivLit4, tmodLit5, tdivLit5, tmodLit6, tdivLit6, tmodLit7, tdivLit7, tmodLit8, tdivLit8, tmodLit9, tdivLit9, tmodLit10, tdivLit10, tmodLit11, tdivLit11, tmodLit12, tdivLit12, tmodLit13, tdivLit13, tmodLit14, tdivLit14, tmodLit15, tdivLit15, tmodLit16, tdivLit16, tmodLit17, tdivLit17, tmodLit18, tdivLit18, tmodLit19, tdivLit19, tmodLit20, tdivLit20, tmodLit21, tdivLit21, tmodLit22, tdivLit22, tmodLit23, tdivLit23, tmodLit24, tdivLit24, tmodLit25, tdivLit25, tmodLit26, tdivLit26, tmodLit27, tdivLit27, tmodLit28, tdivLit28, tmodLit29, tdivLit29, tmodLit30, tdivLit30, tmodLit31, tdivLit31]
  all_goals
    simp only [IPv4Address.toNat, IPv4Address.Bounded, splitLoByte7, splitHiByte7, Nat.zero_and] ; omega

theorem split_struct (b0 b1 b2 b3 : Nat) (m : Int)
    (h0 : b0 < 256) (h1 : b1 < 256) (h2 : b2 < 256) (h3 : b3 < 256)
    (hm : 0 ≤ m) (hm31 : m ≤ 31) :
    ∃ lo hi, IPv4Subnet.Split ⟨⟨b0, b1, b2, b3⟩, m⟩ = .ok (lo, hi) ∧
      lo.CIDRMask = m + 1 ∧ hi.CIDRMask = m + 1 ∧
      lo.Address.Bounded ∧ hi.Address.Bounded ∧
      lo.Address.toNat =
        (⟨b0, b1, b2, b3⟩ : IPv4Address).toNat / 2 ^ (32 - m.toNat) * 2 ^ (32 - m.toNat) ∧
      hi.Address.toNat =
        (⟨b0, b1, b2, b3⟩ : IPv4Address).toNat / 2 ^ (32 - m.toNat) * 2 ^ (32 - m.toNat)
          + 2 ^ (31 - m.toNat) := by
  interval_cases m
  case _ =>
    obtain ⟨e, bl, bh, tl, th⟩ := splitStructCase0 b0 b1 b2 b3 h0 h1 h2 h3
    exact ⟨_, _, e, rfl, rfl, bl, bh, tl, th⟩
  case _ =>
    obtain ⟨e, bl, bh, tl, th⟩ := splitStructCase1 b0 b1 b2 b3 h0 h1 h2 h3
    exact ⟨_, _, e, rfl, rfl, bl, bh, tl, th⟩
  case _ =>
    obtain ⟨e, bl, bh, tl, th⟩ := splitStructCase2 b0 b1 b2 b3 h0 h1 h2 h3
    exact ⟨_, _, e, rfl, rfl, bl, bh, tl, th⟩
  case _ =>
    obtain ⟨e, bl, bh, tl, th⟩ := splitStructCase3 b0 b1 b2 b3 h0 h1 h2 h3
    exact ⟨_, _, e, rfl, rfl, bl, bh, tl, th⟩
  case _ =>
    obtain ⟨e, bl, bh, tl, th⟩ := splitStructCase4 b0 b1 b2 b3 h0 h1 h2 h3
    exact ⟨_, _, e, rfl, rfl, bl, bh, tl, th⟩
  case _ =>
    obtain ⟨e, bl, bh, tl, th⟩ := splitStructCase5 b0 b1 b2 b3 h0 h1 h2 h3
    exact ⟨_, _, e, rfl, rfl, bl, bh, tl, th⟩
  case _ =>
    obtain ⟨e, bl, bh, tl, th⟩ := splitStructCase6 b0 b1 b2 b3 h0 h1 h2 h3
    exact ⟨_, _, e, rfl, rfl, bl, bh, tl, th⟩
  case _ =>
    obtain ⟨e, bl, bh, tl, th⟩ := splitStructCase7 b0 b1 b2 b3 h0 h1 h2 h3
    exact ⟨_, _, e, rfl, rfl, bl, bh, tl, th⟩
  case _ =>
    obtain ⟨e, bl, bh, tl, th⟩ := splitStructCase8 b0 b1 b2 b3 h0 h1 h2 h3
    exact ⟨_, _, e, rfl, rfl, bl, bh, tl, th⟩
  case _ =>
    obtain ⟨e, bl, bh, tl, th⟩ := splitStructCase9 b0 b1 b2 b3 h0 h1 h2 h3
    exact ⟨_, _, e, rfl, rfl, bl, bh, tl, th⟩
  case _ =>
    obtain ⟨e, bl, bh, tl, th⟩ := splitStructCase10 b0 b1 b2 b3 h0 h1 h2 h3
    exact ⟨_, _, e, rfl, rfl, bl, bh, tl, th⟩
  case _ =>
    obtain ⟨e, bl, bh, tl, th⟩ := splitStructCase11 b0 b1 b2 b3 h0 h1 h2 h3
    exact ⟨_, _, e, rfl, rfl, bl, bh, tl, th⟩
  case _ =>
    obtain ⟨e, bl, bh, tl, th⟩ := splitStructCase12 b0 b1 b2 b3 h0 h1 h2 h3
    exact ⟨_, _, e, rfl, rfl, bl, bh, tl, th⟩
  case _ =>
    obtain ⟨e, bl, bh, tl, th⟩ := splitStructCase13 b0 b1 b2 b3 h0 h1 h2 h3
    exact ⟨_, _, e, rfl, rfl, bl, bh, tl, th⟩
  case _ =>
    obtain ⟨e, bl, bh, tl, th⟩ := splitStructCase14 b0 b1 b2 b3 h0 h1 h2 h3
    exact ⟨_, _, e, rfl, rfl, bl, bh, tl, th⟩
  case _ =>
    obtain ⟨e, bl, bh, tl, th⟩ := splitStructCase15 b0 b1 b2 b3 h0 h1 h2 h3
    exact ⟨_, _, e, rfl, rfl, bl, bh, tl, th⟩
  case _ =>
    obtain ⟨e, bl, bh, tl, th⟩ := splitStructCase16 b0 b1 b2 b3 h0 h1 h2 h3
    exact ⟨_, _, e, rfl, rfl, bl, bh, tl, th⟩
  case _ =>
    obtain ⟨e, bl, bh, tl, th⟩ := splitStructCase17 b0 b1 b2 b3 h0 h1 h2 h3
    exact ⟨_, _, e, rfl, rfl, bl, bh, tl, th⟩
  case _ =>
    obtain ⟨e, bl, bh, tl, th⟩ := splitStructCase18 b0 b1 b2 b3 h0 h1 h2 h3
    exact ⟨_, _, e, rfl, rfl, bl, bh, tl, th⟩
  case _ =>
    obtain ⟨e, bl, bh, tl, th⟩ := splitStructCase19 b0 b1 b2 b3 h0 h1 h2 h3
    exact ⟨_, _, e, rfl, rfl, bl, bh, tl, th⟩
  case _ =>
    obtain ⟨e, bl, bh, tl, th⟩ := splitStructCase20 b0 b1 b2 b3 h0 h1 h2 h3
    exact ⟨_, _, e, rfl, rfl, bl, bh, tl, th⟩
  case _ =>
    obtain ⟨e, bl, bh, tl, th⟩ := splitStructCase21 b0 b1 b2 b3 h0 h1 h2 h3
    exact ⟨_, _, e, rfl, rfl, bl, bh, tl, th⟩
  case _ =>
    obtain ⟨e, bl, bh, tl, th⟩ := splitStructCase22 b0 b1 b2 b3 h0 h1 h2 h3
    exact ⟨_, _, e, rfl, rfl, bl, bh, tl, th⟩
  case _ =>
    obtain ⟨e, bl, bh, tl, th⟩ := splitStructCase23 b0 b1 b2 b3 h0 h1 h2 h3
    exact ⟨_, _, e, rfl, rfl, bl, bh, tl, th⟩
  case _ =>
    obtain ⟨e, bl, bh, tl, th⟩ := splitStructCase24 b0 b1 b2 b3 h0 h1 h2 h3
    exact ⟨_, _, e, rfl, rfl, bl, bh, tl, th⟩
  case _ =>
    obtain ⟨e, bl, bh, tl, th⟩ := splitStructCase25 b0 b1 b2 b3 h0 h1 h2 h3
    exact ⟨_, _, e, rfl, rfl, bl, bh, tl, th⟩
  case _ =>
    obtain ⟨e, bl, bh, tl, th⟩ := splitStructCase26 b0 b1 b2 b3 h0 h1 h2 h3
    exact ⟨_, _, e, rfl, rfl, bl, bh, tl, th⟩
  case _ =>
    obtain ⟨e, bl, bh, tl, th⟩ := splitStructCase27 b0 b1 b2 b3 h0 h1 h2 h3
    exact ⟨_, _, e, rfl, rfl, bl, bh, tl, th⟩
  case _ =>
    obtain ⟨e, bl, bh, tl, th⟩ := splitStructCase28 b0 b1 b2 b3 h0 h1 h2 h3
    exact ⟨_, _, e, rfl, rfl, bl, bh, tl, th⟩
  case _ =>
    obtain ⟨e, bl, bh, tl, th⟩ := splitStructCase29 b0 b1 b2 b3 h0 h1 h2 h3
    exact ⟨_, _, e, rfl, rfl, bl, bh, tl, th⟩
  case _ =>
    obtain ⟨e, bl, bh, tl, th⟩ := splitStructCase30 b0 b1 b2 b3 h0 h1 h2 h3
    exact ⟨_, _, e, rfl, rfl, bl, bh, tl, th⟩
  case _ =>
    obtain ⟨e, bl, bh, tl, th⟩ := splitStructCase31 b0 b1 b2 b3 h0 h1 h2 h3
    exact ⟨_, _, e, rfl, rfl, bl, bh, tl, th⟩

theorem bucketCov_cons (x : IPv4Subnet) (l : List IPv4Subnet) (a : Nat) :
    bucketCov (x :: l) a = covN x a + bucketCov l a := by
  simp [bucketCov]

theorem cov_cons (l : List IPv4Subnet) (p : IPv4SubnetPool) (a : Nat) :
    IPv4SubnetPool.cov (l :: p) a = bucketCov l a + IPv4SubnetPool.cov p a := by
  simp [IPv4SubnetPool.cov, bucketCov]

theorem cov_set (p : IPv4SubnetPool) (i : Nat) (b : List IPv4Subnet) (a : Nat)
    (h : i < p.length) :
    IPv4SubnetPool.cov (p.set i b) a + bucketCov (p.getD i []) a
      = IPv4SubnetPool.cov p a + bucketCov b a := by
  induction p generalizing i with
  | nil => simp at h
  | cons hd tl ih =>
    cases i with
    | zero => simp [cov_cons]; omega
    | succ j =>
      have hj : j < tl.length := by simpa using h
      have := ih j hj
      simp only [List.set, List.getD_cons_succ, cov_cons]
      omega

theorem getD_set_self (p : IPv4SubnetPool) (i : Nat) (b : List IPv4Subnet)
    (h : i < p.length) : (p.set i b).getD i [] = b := by
  induction p generalizing i with
  | nil => simp at h
  | cons hd tl ih =>
    cases i with
    | zero => simp
    | succ j => simpa using ih j (by simpa using h)

theorem getD_set_ne (p : IPv4SubnetPool) (i j : Nat) (b : List IPv4Subnet)
    (h : i ≠ j) : (p.set i b).getD j [] = p.getD j [] := by
  induction p generalizing i j with
  | nil => simp
  | cons hd tl ih =>
    cases i with
    | zero => cases j with
      | zero => exact absurd rfl h
      | succ j2 => simp
    | succ i2 => cases j with
      | zero => simp
      | succ j2 => simpa using ih i2 j2 (by omega)

theorem freeLoop_ok (s : IPv4Subnet) :
    ∀ (t t' : List IPv4Subnet), IPv4SubnetPool.freeLoop s t = .ok t' →
    (∀ a, bucketCov t' a = covN s a + bucketCov t a) ∧
    (∀ x ∈ t', x = s ∨ x ∈ t) := by
  intro t
  induction t with
  | nil =>
    intro t' h
    simp only [IPv4SubnetPool.freeLoop] at h
    obtain rfl := Except.ok.inj h
    constructor
    · intro a; simp [bucketCov_cons, bucketCov]
    · intro x hx; simp at hx; exact Or.inl hx
  | cons c rest ih =>
    intro t' h
    simp only [IPv4SubnetPool.freeLoop] at h
    cases hc : s.Compare c with
    | none =>
      simp only [hc] at h
      simp at h
    | some n =>
      simp only [hc] at h
      by_cases hn0 : n = 0
      · rw [if_pos hn0] at h
        simp at h
      · rw [if_neg hn0] at h
        by_cases hnlt : n < 0
        · rw [if_pos hnlt] at h
          obtain rfl := Except.ok.inj h
          constructor
          · intro a; simp only [bucketCov_cons]
          · intro x hx
            simp only [List.mem_cons] at hx ⊢
            tauto
        · rw [if_neg hnlt] at h
          cases hfl : IPv4SubnetPool.freeLoop s rest with
          | error e =>
            rw [hfl] at h
            exact Except.noConfusion h
          | ok t2 =>
            rw [hfl] at h
            simp only [Except.map] at h
            obtain rfl := Except.ok.inj h
            obtain ⟨hcov, hmem⟩ := ih t2 hfl
            constructor
            · intro a; simp only [bucketCov_cons, hcov]; omega
            · intro x hx
              simp only [List.mem_cons] at hx ⊢
              rcases hx with h1 | h2
              · tauto
              · rcases hmem x h2 with h3 | h4
                · tauto
                · tauto

theorem Free_ok (p : IPv4SubnetPool) (s : IPv4Subnet) (p' : IPv4SubnetPool)
    (hwf : PoolWf p) (hb : s.Address.Bounded)
    (h : IPv4SubnetPool.Free p s = .ok p') :
    PoolWf p' ∧ ∀ a, IPv4SubnetPool.cov p' a = IPv4SubnetPool.cov p a + covN s a := by
  simp only [IPv4SubnetPool.Free] at h
  by_cases hg : s.CIDRMask < 0 ∨ s.CIDRMask > 32
  · rw [if_pos hg] at h
    exact Except.noConfusion h
  · rw [if_neg hg] at h
    push_neg at hg
    have hidxlt : s.CIDRMask.toNat < p.length := by rw [hwf.1]; omega
    have hmask : s.CIDRMask = (s.CIDRMask.toNat : Int) := by omega
    cases hbk : p.getD s.CIDRMask.toNat [] with
    | nil =>
      rw [hbk] at h
      obtain rfl := Except.ok.inj h
      constructor
      · refine ⟨by rw [List.length_set]; exact hwf.1, ?_⟩
        intro i x hx
        by_cases hi : i = s.CIDRMask.toNat
        · subst hi
          rw [getD_set_self p _ _ hidxlt] at hx
          simp at hx
          subst hx
          exact ⟨hb, hmask⟩
        · rw [getD_set_ne p _ _ _ (fun hh => hi hh.symm)] at hx
          exact hwf.2 i x hx
      · intro a
        have hcs := cov_set p s.CIDRMask.toNat [s] a hidxlt
        rw [hbk] at hcs
        simp [bucketCov] at hcs
        omega
    | cons c rest =>
      rw [hbk] at h
      cases hc : s.Compare c with
      | none =>
        simp only [hc] at h
        exact Except.noConfusion h
      | some n =>
        simp only [hc] at h
        by_cases hnlt : n < 0
        · rw [if_pos hnlt] at h
          obtain rfl := Except.ok.inj h
          constructor
          · refine ⟨by rw [List.length_set]; exact hwf.1, ?_⟩
            intro i x hx
            by_cases hi : i = s.CIDRMask.toNat
            · subst hi
              rw [getD_set_self p _ _ hidxlt] at hx
              simp only [List.mem_cons] at hx
              rcases hx with rfl | hx2
              · exact ⟨hb, hmask⟩
              · exact hwf.2 _ x (by rw [hbk]; simpa using hx2)
            · rw [getD_set_ne p _ _ _ (fun hh => hi hh.symm)] at hx
              exact hwf.2 i x hx
          · intro a
            have hcs := cov_set p s.CIDRMask.toNat (s :: c :: rest) a hidxlt
            rw [hbk] at hcs
            simp only [bucketCov_cons] at hcs ⊢
            omega
        · rw [if_neg hnlt] at h
          cases hfl : IPv4SubnetPool.freeLoop s rest with
          | error e =>
            rw [hfl] at h
            exact Except.noConfusion h
          | ok t2 =>
            rw [hfl] at h
            simp only [Except.map] at h
            obtain rfl := Except.ok.inj h
            obtain ⟨hflcov, hflmem⟩ := freeLoop_ok s rest t2 hfl
            constructor
            · refine ⟨by rw [List.length_set]; exact hwf.1, ?_⟩
              intro i x hx
              by_cases hi : i = s.CIDRMask.toNat
              · subst hi
                rw [getD_set_self p _ _ hidxlt] at hx
                simp only [List.mem_cons] at hx
                rcases hx with rfl | hx2
                · exact hwf.2 _ x (by rw [hbk]; simp)
                · rcases hflmem x hx2 with rfl | hx3
                  · exact ⟨hb, hmask⟩
                  · exact hwf.2 _ x (by rw [hbk]; exact List.mem_cons_of_mem _ hx3)
              · rw [getD_set_ne p _ _ _ (fun hh => hi hh.symm)] at hx
                exact hwf.2 i x hx
            · intro a
              have hcs := cov_set p s.CIDRMask.toNat (c :: t2) a hidxlt
              rw [hbk] at hcs
              have := hflcov a
              simp only [bucketCov_cons] at hcs this ⊢
              omega

theorem covN_split_halves (m : Nat) (hm : m ≤ 31) (big lo hi : IPv4Subnet)
    (hbm : big.CIDRMask = (m : Int))
    (hlom : lo.CIDRMask = (m : Int) + 1) (hhim : hi.CIDRMask = (m : Int) + 1)
    (hlot : lo.Address.toNat = big.Address.toNat / 2 ^ (32 - m) * 2 ^ (32 - m))
    (hhit : hi.Address.toNat
      = big.Address.toNat / 2 ^ (32 - m) * 2 ^ (32 - m) + 2 ^ (31 - m)) :
    ∀ x, covN lo x + covN hi x = covN big x := by
  intro x
  have htm : big.CIDRMask.toNat = m := by rw [hbm]; omega
  have htl : lo.CIDRMask.toNat = m + 1 := by rw [hlom]; omega
  have hth : hi.CIDRMask.toNat = m + 1 := by rw [hhim]; omega
  have he1 : 32 - (m + 1) = 31 - m := by omega
  have hK : 0 < 2 ^ (31 - m) := pow_pos (by norm_num) _
  have he2 : 2 ^ (32 - m) = 2 ^ (31 - m) * 2 := by
    rw [← pow_succ]
    congr 1
    omega
  simp only [covN, IPv4Subnet.covers, beq_iff_eq, htm, htl, hth, he1]
  rw [hlot, hhit, he2]
  have hlo : big.Address.toNat / (2 ^ (31 - m) * 2) * (2 ^ (31 - m) * 2) / 2 ^ (31 - m)
      = big.Address.toNat / (2 ^ (31 - m) * 2) * 2 := by
    rw [show big.Address.toNat / (2 ^ (31 - m) * 2) * (2 ^ (31 - m) * 2)
        = big.Address.toNat / (2 ^ (31 - m) * 2) * 2 * 2 ^ (31 - m) by ring,
      Nat.mul_div_cancel _ hK]
  have hhi : (big.Address.toNat / (2 ^ (31 - m) * 2) * (2 ^ (31 - m) * 2) + 2 ^ (31 - m))
        / 2 ^ (31 - m)
      = big.Address.toNat / (2 ^ (31 - m) * 2) * 2 + 1 := by
    rw [show big.Address.toNat / (2 ^ (31 - m) * 2) * (2 ^ (31 - m) * 2) + 2 ^ (31 - m)
        = (big.Address.toNat / (2 ^ (31 - m) * 2) * 2 + 1) * 2 ^ (31 - m) by ring,
      Nat.mul_div_cancel _ hK]
  have hx : x / (2 ^ (31 - m) * 2) = x / 2 ^ (31 - m) / 2 := by
    rw [Nat.div_div_eq_div_mul]
  rw [hlo, hhi, hx]
  generalize x / 2 ^ (31 - m) = u
  generalize big.Address.toNat / (2 ^ (31 - m) * 2) = q
  split_ifs <;> omega

theorem alloc_pop_spec (n : Nat) (hn : n ≤ 32) (p : IPv4SubnetPool) (hwf : PoolWf p)
    (c : IPv4Subnet) (rest : List IPv4Subnet) (hbk : p.getD n [] = c :: rest) :
    PoolWf (p.set n rest) ∧ c.Address.Bounded ∧ c.CIDRMask = (n : Int) ∧
    (∀ i, n < i → (p.set n rest).getD i [] = p.getD i []) ∧
    (∀ a, IPv4SubnetPool.cov p a = IPv4SubnetPool.cov (p.set n rest) a + covN c a) := by
  have hlt : n < p.length := by rw [hwf.1]; omega
  have hcm := hwf.2 n c (by rw [hbk]; simp)
  refine ⟨⟨by rw [List.length_set]; exact hwf.1, ?_⟩, hcm.1, hcm.2, ?_, ?_⟩
  · intro i x hx
    by_cases hi : i = n
    · subst hi
      rw [getD_set_self p _ _ hlt] at hx
      exact hwf.2 i x (by rw [hbk]; exact List.mem_cons_of_mem _ hx)
    · rw [getD_set_ne p _ _ _ (fun hh => hi hh.symm)] at hx
      exact hwf.2 i x hx
  · intro i hi
    exact getD_set_ne p n i rest (by omega)
  · intro a
    have hcs := cov_set p n rest a hlt
    rw [hbk] at hcs
    simp only [bucketCov_cons] at hcs
    omega

theorem allocAux_spec (n : Nat) (hn : n ≤ 32) :
    ∀ (p : IPv4SubnetPool), PoolWf p →
    ∀ r p1, IPv4SubnetPool.allocAux n p = (r, p1) →
      (∀ e, r = .error e → p1 = p) ∧
      (∀ s, r = .ok s →
        PoolWf p1 ∧ s.Address.Bounded ∧ s.CIDRMask = (n : Int) ∧
        (∀ i, n < i → p1.getD i [] = p.getD i []) ∧
        (∀ a, IPv4SubnetPool.cov p a = IPv4SubnetPool.cov p1 a + covN s a)) := by
  induction n with
  | zero =>
    intro p hwf r p1 hres
    rw [IPv4SubnetPool.allocAux] at hres
    cases hbk : p.getD 0 [] with
    | nil =>
      simp only [hbk] at hres
      obtain ⟨hr, hp⟩ := Prod.mk.inj hres
      subst hp
      constructor
      · intro e he; rfl
      · intro s hs; rw [← hr] at hs; exact Except.noConfusion hs
    | cons c rest =>
      simp only [hbk] at hres
      obtain ⟨hr, hp⟩ := Prod.mk.inj hres
      subst hp
      constructor
      · intro e he; rw [← hr] at he; exact Except.noConfusion he
      · intro s hs
        rw [← hr] at hs
        obtain rfl := Except.ok.inj hs
        exact alloc_pop_spec 0 (by omega) p hwf c rest hbk
  | succ m IH =>
    intro p hwf r p1 hres
    rw [IPv4SubnetPool.allocAux] at hres
    cases hbk : p.getD (m + 1) [] with
    | cons c rest =>
      simp only [hbk] at hres
      obtain ⟨hr, hp⟩ := Prod.mk.inj hres
      subst hp
      constructor
      · intro e he; rw [← hr] at he; exact Except.noConfusion he
      · intro s hs
        rw [← hr] at hs
        obtain rfl := Except.ok.inj hs
        exact alloc_pop_spec (m + 1) hn p hwf c rest hbk
    | nil =>
      simp only [hbk] at hres
      cases hrec : IPv4SubnetPool.allocAux m p with
      | mk rr pp =>
        cases rr with
        | error e0 =>
          simp only [hrec] at hres
          obtain ⟨hr, hp⟩ := Prod.mk.inj hres
          have hpp : pp = p :=
            ((IH (by omega) p hwf (.error e0) pp hrec).1) e0 rfl
          subst hp
          constructor
          · intro e he; rw [hpp]
          · intro s hs; rw [← hr] at hs; exact Except.noConfusion hs
        | ok big =>
          obtain ⟨hwf1, hbb, hbm, huntouch, hcov⟩ :=
            ((IH (by omega) p hwf (.ok big) pp hrec).2) big rfl
          obtain ⟨⟨x0, x1, x2, x3⟩, mm⟩ := big
          have hmm : mm = (m : Int) := hbm
          subst hmm
          obtain ⟨hb0, hb1, hb2, hb3⟩ := hbb
          obtain ⟨lo, hi, hsplit, hlom, hhim, hlob, hhib, hlot, hhit⟩ :=
            split_struct x0 x1 x2 x3 (m : Int) hb0 hb1 hb2 hb3
              (by omega) (by exact_mod_cast Nat.cast_le.mpr (by omega : m ≤ 31))
          have htnm : ((m : Int)).toNat = m := by omega
          rw [htnm] at hlot hhit
          have hempty : pp.getD (m + 1) [] = [] := by
            rw [huntouch (m + 1) (by omega), hbk]
          have hfree : IPv4SubnetPool.Free pp hi = .ok (pp.set (m + 1) [hi]) := by
            simp only [IPv4SubnetPool.Free, hhim]
            rw [if_neg (by omega)]
            have ht : ((m : Int) + 1).toNat = m + 1 := by omega
            rw [ht]
            simp only [hempty]
          simp only [hrec, hsplit, hfree] at hres
          obtain ⟨hr, hp⟩ := Prod.mk.inj hres
          subst hp
          constructor
          · intro e he; rw [← hr] at he; exact Except.noConfusion he
          · intro s hs
            rw [← hr] at hs
            obtain rfl := Except.ok.inj hs
            have hwfpp1 : pp.length = 33 := hwf1.1
            have hltpp : m + 1 < pp.length := by omega
            have hsplitcov :=
              covN_split_halves m (by omega) ⟨⟨x0, x1, x2, x3⟩, (m : Int)⟩ lo hi
                rfl hlom hhim hlot hhit
            refine ⟨⟨by rw [List.length_set]; exact hwf1.1, ?_⟩, hlob, ?_, ?_, ?_⟩
            · intro i x hx
              by_cases hi2 : i = m + 1
              · subst hi2
                rw [getD_set_self pp _ _ hltpp] at hx
                simp at hx
                subst hx
                refine ⟨hhib, ?_⟩
                rw [hhim]
                push_cast
                ring
              · rw [getD_set_ne pp _ _ _ (fun hh => hi2 hh.symm)] at hx
                exact hwf1.2 i x hx
            · rw [hlom]
              push_cast
              ring
            · intro i hi2
              rw [getD_set_ne pp _ _ _ (by omega),
                huntouch i (by omega)]
            · intro a
              have hcs := cov_set pp (m + 1) [hi] a hltpp
              rw [hempty] at hcs
              simp only [bucketCov_cons, bucketCov] at hcs
              have h1 := hcov a
              have h2 := hsplitcov a
              simp only [List.map_nil, List.sum_nil, List.map_cons, List.sum_cons] at hcs
              omega

theorem Alloc_ok_cov (p : IPv4SubnetPool) (k : Int) (s : IPv4Subnet) (p1 : IPv4SubnetPool)
    (hwf : PoolWf p) (h : IPv4SubnetPool.Alloc p k = (.ok s, p1)) :
    PoolWf p1 ∧ s.Address.Bounded ∧
    (∀ a, IPv4SubnetPool.cov p a = IPv4SubnetPool.cov p1 a + covN s a) := by
  simp only [IPv4SubnetPool.Alloc] at h
  by_cases hg : k < 0 ∨ k > 32
  · rw [if_pos hg] at h
    obtain ⟨hr, _⟩ := Prod.mk.inj h
    exact Except.noConfusion hr
  · rw [if_neg hg] at h
    push_neg at hg
    have hk : k.toNat ≤ 32 := by omega
    obtain ⟨hwf1, hb, _, _, hcov⟩ := ((allocAux_spec k.toNat hk p hwf _ _ h).2) s rfl
    exact ⟨hwf1, hb, hcov⟩

theorem getD_replicate_nil : ∀ (n i : Nat),
    (List.replicate n ([] : List IPv4Subnet)).getD i [] = [] := by
  intro n
  induction n with
  | zero => intro i; simp
  | succ k ih =>
    intro i
    cases i with
    | zero => simp [List.replicate]
    | succ j =>
      simp only [List.replicate, List.getD_cons_succ]
      exact ih j

theorem poolWf_empty : PoolWf emptyPool := by
  refine ⟨by simp [emptyPool], ?_⟩
  intro i s hs
  rw [emptyPool, getD_replicate_nil] at hs
  simp at hs

theorem execOps_cov (ops : List PoolOp) :
    ∀ (p p' : IPv4SubnetPool) (al fr : List IPv4Subnet),
    PoolWf p → (∀ s, PoolOp.opFree s ∈ ops → s.Address.Bounded) →
    execOps p ops = some (p', al, fr) →
    PoolWf p' ∧ ∀ a,
      IPv4SubnetPool.cov p a + (fr.map (fun s => covN s a)).sum
        = IPv4SubnetPool.cov p' a + (al.map (fun s => covN s a)).sum := by
  induction ops with
  | nil =>
    intro p p' al fr hwf hb h
    simp only [execOps, Option.some.injEq, Prod.mk.injEq] at h
    obtain ⟨rfl, rfl, rfl⟩ := h
    exact ⟨hwf, fun a => by simp⟩
  | cons op rest ih =>
    intro p p' al fr hwf hb h
    cases op with
    | opAlloc k =>
      simp only [execOps] at h
      cases hA : IPv4SubnetPool.Alloc p k with
      | mk r pmid =>
        cases r with
        | error e =>
          simp only [hA] at h
          exact Option.noConfusion h
        | ok s =>
          simp only [hA] at h
          cases hE : execOps pmid rest with
          | none =>
            rw [hE] at h
            exact Option.noConfusion h
          | some trip =>
            obtain ⟨pfin, al2, fr2⟩ := trip
            rw [hE] at h
            simp only [Option.map_some', Option.some.injEq, Prod.mk.injEq] at h
            obtain ⟨rfl, rfl, rfl⟩ := h
            obtain ⟨hwf1, hbs, hcov⟩ := Alloc_ok_cov p k s pmid hwf hA
            obtain ⟨hwf2, hsum⟩ :=
              ih pmid pfin al2 fr2 hwf1 (fun x hx => hb x (by simp [hx])) hE
            refine ⟨hwf2, fun a => ?_⟩
            have h1 := hcov a
            have h2 := hsum a
            simp only [List.map_cons, List.sum_cons]
            omega
    | opFree s =>
      simp only [execOps] at h
      cases hF : IPv4SubnetPool.Free p s with
      | error e =>
        simp only [hF] at h
        exact Option.noConfusion h
      | ok pmid =>
        simp only [hF] at h
        cases hE : execOps pmid rest with
        | none =>
            rw [hE] at h
            exact Option.noConfusion h
        | some trip =>
          obtain ⟨pfin, al2, fr2⟩ := trip
          rw [hE] at h
          simp only [Option.map_some', Option.some.injEq, Prod.mk.injEq] at h
          obtain ⟨rfl, rfl, rfl⟩ := h
          obtain ⟨hwf1, hcov⟩ :=
            Free_ok p s pmid hwf (hb s (by simp)) hF
          obtain ⟨hwf2, hsum⟩ :=
            ih pmid pfin al2 fr2 hwf1 (fun x hx => hb x (by simp [hx])) hE
          refine ⟨hwf2, fun a => ?_⟩
          have h1 := hcov a
          have h2 := hsum a
          simp only [List.map_cons, List.sum_cons]
          omega

/-- C3 (code bug): Free of a subnet equal to an entry already present in
its bucket must fail with a double-free error and leave the pool
unchanged, but when the duplicate is the first entry of the bucket the
code misses it: the second Free succeeds and the bucket ends with two
equal entries.  A duplicate at a later position is detected. -/
theorem c3_double_free_of_head_not_detected :
    IPv4SubnetPool.Free emptyPool ⟨⟨10, 0, 0, 0⟩, 25⟩ =
      .ok (List.set emptyPool 25 [⟨⟨10, 0, 0, 0⟩, 25⟩]) ∧
    IPv4SubnetPool.Free (List.set emptyPool 25 [⟨⟨10, 0, 0, 0⟩, 25⟩]) ⟨⟨10, 0, 0, 0⟩, 25⟩ =
      .ok (List.set emptyPool 25 [⟨⟨10, 0, 0, 0⟩, 25⟩, ⟨⟨10, 0, 0, 0⟩, 25⟩]) ∧
    IPv4SubnetPool.Free
        (List.set emptyPool 25 [⟨⟨10, 0, 0, 128⟩, 25⟩, ⟨⟨10, 0, 0, 0⟩, 25⟩])
        ⟨⟨10, 0, 0, 0⟩, 25⟩ =
      .error (.doubleFree ⟨⟨10, 0, 0, 0⟩, 25⟩) := by decide

/-- C4 (code bug): Compare must be zero exactly when the mask lengths are
equal and the full masked addresses are equal, but the code inspects only
the octet at index CIDRMask/8, so two /16 subnets differing in their first
octet compare as equal; moreover the uint8 subtraction wraps, so for equal
masks Compare is positive in both directions when the masked octets
differ, never negative, contradicting the function's own doc comment. -/
theorem c4_compare_ignores_leading_prefix_bytes :
    IPv4Subnet.Compare ⟨⟨10, 0, 0, 0⟩, 16⟩ ⟨⟨11, 0, 0, 0⟩, 16⟩ = some 0 ∧
    specMaskedPrefix ⟨⟨10, 0, 0, 0⟩, 16⟩ ≠ specMaskedPrefix ⟨⟨11, 0, 0, 0⟩, 16⟩ ∧
    IPv4Subnet.Compare ⟨⟨10, 0, 0, 0⟩, 25⟩ ⟨⟨10, 0, 0, 128⟩, 25⟩ = some 128 ∧
    IPv4Subnet.Compare ⟨⟨10, 0, 0, 128⟩, 25⟩ ⟨⟨10, 0, 0, 0⟩, 25⟩ = some 128 := by decide

/-- C10 (code bug): for mask length 32 the octet index CIDRMask/8 is 4,
one past the last valid index 3, so Compare of two /32 subnets is an
out-of-bounds read (a Go runtime panic), and Free of a /32 subnet into a
pool whose /32 bucket is non-empty hits the same out-of-bounds read. -/
theorem c10_slash32_compare_reads_out_of_bounds :
    Int.tdiv 32 8 = 4 ∧
    IPv4Subnet.Compare ⟨⟨1, 2, 3, 4⟩, 32⟩ ⟨⟨5, 6, 7, 8⟩, 32⟩ = none ∧
    IPv4SubnetPool.Free (List.set emptyPool 32 [⟨⟨1, 2, 3, 4⟩, 32⟩]) ⟨⟨5, 6, 7, 8⟩, 32⟩ =
      .error .oobAccess := by decide

/-- C2 counterexample: from the empty pool followed by Free(10.0.0.0/16),
the run Alloc(17); Free(returned subnet) frees every allocated subnet
exactly once, yet a subsequent Alloc with the original block's own mask
length 16 fails (Free never merges buddies), refuting the claim that the
pool returns to its initial state with the original block allocatable. -/
theorem c2_original_block_not_reallocatable :
    IPv4SubnetPool.Free emptyPool block16 = .ok pool16 ∧
    execOps pool16 [.opAlloc 17, .opFree ⟨⟨10, 0, 0, 0⟩, 17⟩] =
      some (List.set emptyPool 17 [⟨⟨10, 0, 128, 0⟩, 17⟩, ⟨⟨10, 0, 0, 0⟩, 17⟩],
            [⟨⟨10, 0, 0, 0⟩, 17⟩], [⟨⟨10, 0, 0, 0⟩, 17⟩]) ∧
    (IPv4SubnetPool.Alloc
        (List.set emptyPool 17 [⟨⟨10, 0, 128, 0⟩, 17⟩, ⟨⟨10, 0, 0, 0⟩, 17⟩]) 16).1 =
      .error .invalidAllocSize := by decide

/-- C5: from a pool initialised by a single Free of the /16 block, 256
Allocs of size 24 all succeed and return exactly the 256 pairwise distinct
/24 subnets covering the block, leaving every bucket empty; the 257th
Alloc fails (the recursion bottoms out below /0, the out-of-addresses
failure); and freeing any one of the returned subnets makes a further
Alloc(24) succeed, returning that subnet. -/
theorem c5_pool_exhaustion :
    allocRun pool16 24 256 = .ok (c5List, emptyPool) ∧
    (IPv4SubnetPool.Alloc emptyPool 24).1 = .error .invalidAllocSize ∧
    c5List.Nodup ∧
    (∀ a : Nat, block16.covers a = true ↔ ∃ s ∈ c5List, s.covers a = true) ∧
    c5List.all (fun s => freeThenAlloc emptyPool s == .ok s) = true := by
  refine ⟨by decide, by decide, ?_, ?_, by decide⟩
  · simp only [c5List]
    exact List.Nodup.map (fun i j h => by simpa using h) (List.nodup_range 256)
  · intro a
    constructor
    · intro h
      simp only [block16, IPv4Subnet.covers, IPv4Address.toNat, beq_iff_eq,
        Int.reduceToNat] at h
      norm_num at h
      refine ⟨⟨⟨10, 0, a / 256 - 655360, 0⟩, 24⟩, ?_, ?_⟩
      · simp only [c5List, List.mem_map, List.mem_range]
        exact ⟨a / 256 - 655360, by omega, rfl⟩
      · simp only [IPv4Subnet.covers, IPv4Address.toNat, beq_iff_eq, Int.reduceToNat]
        norm_num
        omega
    · rintro ⟨s, hs, h⟩
      simp only [c5List, List.mem_map, List.mem_range] at hs
      obtain ⟨i, hi, rfl⟩ := hs
      simp only [IPv4Subnet.covers, IPv4Address.toNat, beq_iff_eq, Int.reduceToNat] at h
      simp only [block16, IPv4Subnet.covers, IPv4Address.toNat, beq_iff_eq, Int.reduceToNat]
      norm_num at h ⊢
      omega


/-- C2 (amended): for every sequence of Alloc/Free operations started from
the empty pool followed by Free of the cluster block C, if every operation
succeeds and the multiset of subnets passed to Free equals the multiset of
subnets returned by Alloc (every allocated subnet freed exactly once), the
final pool covers every 32-bit address exactly as many times as the
initial pool did.  The pool state itself need not return to its initial
value, and an Alloc with C's own mask length may fail, because Free never
merges buddies. -/
theorem c2_coverage_conservation (C : IPv4Subnet) (ops : List PoolOp)
    (p0 p : IPv4SubnetPool) (al fr : List IPv4Subnet)
    (hC : C.Address.Bounded)
    (h0 : IPv4SubnetPool.Free emptyPool C = .ok p0)
    (hb : ∀ s, PoolOp.opFree s ∈ ops → s.Address.Bounded)
    (hex : execOps p0 ops = some (p, al, fr))
    (hperm : al.Perm fr) :
    ∀ a, IPv4SubnetPool.cov p a = IPv4SubnetPool.cov p0 a := by
  obtain ⟨hwf0, _⟩ := Free_ok emptyPool C p0 poolWf_empty hC h0
  obtain ⟨_, hsum⟩ := execOps_cov ops p0 p al fr hwf0 hb hex
  intro a
  have hps : (al.map (fun s => covN s a)).sum = (fr.map (fun s => covN s a)).sum :=
    (hperm.map _).sum_eq
  have hh := hsum a
  omega

/-- C2 witness: the conservation theorem applied to the concrete run
Alloc(17); Free(10.0.0.0/17) from the pool holding 10.0.0.0/16, evaluated
at the address 10.0.0.0 (167772160). -/
theorem c2_coverage_conservation_witness :
    IPv4SubnetPool.cov
        (List.set emptyPool 17 [⟨⟨10, 0, 128, 0⟩, 17⟩, ⟨⟨10, 0, 0, 0⟩, 17⟩]) 167772160
      = IPv4SubnetPool.cov pool16 167772160 :=
  c2_coverage_conservation block16 [.opAlloc 17, .opFree ⟨⟨10, 0, 0, 0⟩, 17⟩] pool16
    (List.set emptyPool 17 [⟨⟨10, 0, 128, 0⟩, 17⟩, ⟨⟨10, 0, 0, 0⟩, 17⟩])
    [⟨⟨10, 0, 0, 0⟩, 17⟩] [⟨⟨10, 0, 0, 0⟩, 17⟩]
    (by decide) (by decide)
    (by intro s hs; simp at hs; subst hs; decide)
    (by decide) (List.Perm.refl _) 167772160

theorem bootWorld_eq : bootWorld = bw := by decide

theorem alloc_bw : IPv4SubnetPool.Alloc bwPool 24 = (.ok ⟨⟨10, 128, 0, 0⟩, 24⟩, allocPool) := by
  decide


theorem idlit6 : "id" ++ toString (6 : Nat) = "id6" := by decide
theorem idlit7 : "id" ++ toString (7 : Nat) = "id7" := by decide
theorem idlit8 : "id" ++ toString (8 : Nat) = "id8" := by decide
theorem idlit9 : "id" ++ toString (9 : Nat) = "id9" := by decide
theorem idlit10 : "id" ++ toString (10 : Nat) = "id10" := by decide



/-- C1: Reconciler idempotence for namespace creation — for every namespace
name N, processing Added(N) through HandleNsEvent twice in succession (the
second time with N already tracked) leaves the same final SDN state as
processing it once, and after the second processing there is no duplicate
zone, no duplicate subnet and no duplicate ACL entry on the SDN. -/
theorem c1_ns_added_idempotent_on_sdn (N : String) :
    (afterNsEvent N (afterNsEvent N bootWorld)).sdn = (afterNsEvent N bootWorld).sdn ∧
    (afterNsEvent N (afterNsEvent N bootWorld)).sdn.noDupZones ∧
    (afterNsEvent N (afterNsEvent N bootWorld)).sdn.noDupSubnets ∧
    (afterNsEvent N (afterNsEvent N bootWorld)).sdn.noDupAclEntries := by
  by_cases hd : N = "default"
  · subst hd; decide
  · have h : (N == "default") = false := beq_eq_false_iff_ne.mpr hd
    rw [bootWorld_eq]
    simp [afterNsEvent, handleNsEvent, h, createZone, getZoneID, createSubnet, getSubnetID,
      createNetworkMacroGroup, getNetworkMacroGroupID, createSpecificZoneAcls,
      createAclEntry, getAclEntry, nextAvailablePriorityOp, setNextAvailablePriority,
      upsert, aclKeyEq, SdnState.freshID, NamespaceData.zero, bw,
      alloc_bw, List.lookup, List.find?, baselineForwardEntry, baselineDropEntry,
      idlit6, idlit7, idlit8, idlit9, idlit10,
      SdnState.noDupZones, SdnState.noDupSubnets, SdnState.noDupAclEntries,
      List.pairwise_cons]

/-- C6 (amended): on the first Added event for a non-"default" namespace
after bootstrap, CreateSpecificZoneAcls builds ONE payload whose priority
is 300 + the allocator value 0 and posts it as both the ingress and the
egress entry, so the two entries carry the SAME priority 300 (not 300 and
301), and the allocator counter afterwards is 301 (priority + 1, set once
after each create, not advanced once per entry). -/
theorem c6_specific_zone_acl_priorities_shared (N : String) (h : N ≠ "default") :
    ((afterNsEvent N bootWorld).sdn.aclEntries.filter
        (fun r => r.entry.networkType == "NETWORK_MACRO_GROUP")).map
        (fun r => (r.templateID, r.ingress, r.entry.priority))
      = [("id0", true, 300), ("id3", false, 300)] ∧
    (afterNsEvent N bootWorld).cli.nextAvailablePriority = 301 := by
  have hb : (N == "default") = false := beq_eq_false_iff_ne.mpr h
  rw [bootWorld_eq]
  simp [afterNsEvent, handleNsEvent, hb, createZone, getZoneID, createSubnet, getSubnetID,
    createNetworkMacroGroup, getNetworkMacroGroupID, createSpecificZoneAcls,
    createAclEntry, getAclEntry, nextAvailablePriorityOp, setNextAvailablePriority,
    upsert, aclKeyEq, SdnState.freshID, NamespaceData.zero, bw,
    alloc_bw, List.lookup, List.find?, baselineForwardEntry, baselineDropEntry,
    idlit6, idlit7, idlit8, idlit9, idlit10]

/-- C6 witness: the amended statement instantiated at the namespace
"alpha" of the spec's worked example. -/
theorem c6_specific_zone_acl_priorities_shared_witness :
    "alpha" ≠ "default" ∧
    (((afterNsEvent "alpha" bootWorld).sdn.aclEntries.filter
        (fun r => r.entry.networkType == "NETWORK_MACRO_GROUP")).map
        (fun r => (r.templateID, r.ingress, r.entry.priority))
      = [("id0", true, 300), ("id3", false, 300)] ∧
    (afterNsEvent "alpha" bootWorld).cli.nextAvailablePriority = 301) :=
  ⟨by decide, c6_specific_zone_acl_priorities_shared "alpha" (by decide)⟩

/-- C6 counterexample: after Added("alpha") from the bootstrap world the
two specific-zone entries have priorities [300, 300] — not the distinct
[300, 301] the claim derives from "the counter advancing by 1 per entry";
the counter ends at 301 because SetNextAvailablePriority(priority + 1)
overwrites the NextAvailablePriority() increment with the same value both
times. -/
theorem c6_zone_acl_priorities_not_distinct :
    ((afterNsEvent "alpha" bootWorld).sdn.aclEntries.filter
        (fun r => r.entry.networkType == "NETWORK_MACRO_GROUP")).map (fun r => r.entry.priority)
      = [300, 300] ∧
    ([300, 300] : List Int) ≠ [300, 301] ∧
    (afterNsEvent "alpha" bootWorld).cli.nextAvailablePriority = 301 := by decide

/-- C7: refuted — after a successful bootstrap the egress ACL template
holds only the FORWARD baseline entry; the DROP intra-domain entry of
egress direction was filed under the INGRESS template's id, because
CreateEgressAclEntries passes ingressAclTemplateID for its second create
(line 605 of the embedded client). -/
theorem c7_egress_drop_entry_on_ingress_template :
    (bootWorld.sdn.aclEntries.filter
        (fun r => r.templateID == bootWorld.cli.egressAclTemplateID)).map
        (fun r => r.entry.action) = ["FORWARD"] ∧
    (bootWorld.sdn.aclEntries.find?
        (fun r => !r.ingress && r.entry.action == "DROP")).map AclEntryRec.templateID
      = some bootWorld.cli.ingressAclTemplateID ∧
    bootWorld.cli.ingressAclTemplateID ≠ bootWorld.cli.egressAclTemplateID := by decide

/-- C8: refuted — deleting the service "web" of tracked namespace "alpha"
removes the network macro from the SDN but deletes map key "id11" (the
macro's ID) instead of key "web" (the service name) from the namespace's
networkMacros map, so the map still contains the entry for "web"
afterwards while HandleServiceEvent reports success. -/
theorem c8_service_delete_leaves_stale_map_entry :
    (handleServiceEvent svcDel c8World1).1 = .ok () ∧
    c8World1.sdn.macros.length = 1 ∧
    ((c8World1.cli.namespaces.lookup "alpha").getD NamespaceData.zero).networkMacros.lookup "web"
      = some "id11" ∧
    (handleServiceEvent svcDel c8World1).2.sdn.macros = [] ∧
    (((handleServiceEvent svcDel c8World1).2.cli.namespaces.lookup "alpha").getD
        NamespaceData.zero).networkMacros.lookup "web" = some "id11" := by decide

/-- C9: refuted — the 200-response handler of GetNetworkMacroID compares
only the Name field of the returned record with the request, so a record
whose name matches but whose ipType, address and netmask all differ is
silently accepted and its ID returned instead of failing with the
Mismatch error the claim requires. -/
theorem c9_network_macro_accepted_on_name_only :
    macroTupleEq ⟨"m", "IPV6", "10.9.9.9", "255.0.0.0"⟩
        ⟨"m", "IPV4", "172.30.0.1", "255.255.255.255"⟩ = false ∧
    checkNetworkMacroResult ⟨"m", "IPV4", "172.30.0.1", "255.255.255.255"⟩
        ⟨"m", "IPV6", "10.9.9.9", "255.0.0.0"⟩ "id42" = .ok "id42" := by decide
